import Mathlib

/-!
RoboRodentia: coordination layer of a two-controller competition robot.

A shallow embedding of the message codec (`lib/MessageClass.cpp`), the period
helper (`lib/ExtraFunctions.hpp`), the claw, lifter and tower tasks and the slave
sequencer (`Slave/task_*.cpp`), the master mind constructor, the comm task and the
navigation task (`Master/task_MasterMind.cpp`, `Master/task_MComm.cpp`,
`Master/task_Navigation.cpp`), the dead-reckoning class (`Master/RobotClass.cpp`)
and the start-up hooks of both nodes, followed by theorems about them.

Conventions of the embedding
* `U8`, `U32`, `S32` values are `Nat` / `Int`; a narrowing conversion is an explicit
  `toU8` or `wrapS32`.
* A C++ pointer to bytes is the memory seen from that pointer: a function from
  the byte offset to the byte stored there.
* An enum is its underlying integer; the enumerators are named constants.
* A task body `while(true) { ... sleep ... }` is one function from the state at
  the start of a cycle to the state at its end.
-/

namespace RoboRodentia

/-! ## Machine integers -/

/-- Conversion of an integer value to `U8`. -/
def toU8 (n : Nat) : Nat := n % 256

/-- Conversion of an integer value to `S32` (two's complement wrap-around). -/
def wrapS32 (z : Int) : Int := (z + 2147483648) % 4294967296 - 2147483648

/-- The function `memset(p, c, n)` on the memory seen from `p`. -/
def memset (mem : Nat → Nat) (c n : Nat) : Nat → Nat :=
  fun i => if i < n then c else mem i

/-- The assignment `p[i] = v` on the memory seen from `p`. -/
def store (mem : Nat → Nat) (i v : Nat) : Nat → Nat :=
  fun j => if j = i then v else mem j

/-! ## The serial transport (external collaborator `ecrobot::Rs485`) -/

/-- The global `MsgComm`: `rx` holds the bytes that have arrived and were not yet
received, `tx` the bytes handed to the transport so far, oldest first. -/
structure Rs485 where
  rx : List Nat
  tx : List Nat

/-- The call `MsgComm.send(data, 0, len)` with `bytes = data[0..len)`: all bytes are handed
over, and their number is returned. -/
def Rs485.send (c : Rs485) (bytes : List Nat) : Rs485 × Nat :=
  ({ c with tx := c.tx ++ bytes }, bytes.length)

/-- The call `MsgComm.receive(data, 0, len)`: takes at most `len` pending bytes; the bytes
taken are returned (their number is the transport's return value). -/
def Rs485.receive (c : Rs485) (len : Nat) : Rs485 × List Nat :=
  ({ c with rx := c.rx.drop len }, c.rx.take len)

/-! ## `lib/MessageClass.hpp`, `lib/MessageClass.cpp` -/

/-- Values of `enum comDatatype`. -/
abbrev comDatatype := Nat

/-- Values of `enum comDataID`. -/
abbrev comDataID := Nat

namespace MessageClass

def HEADER_LENGTH : Nat := 3
def MAX_MSG_LEN : Nat := 15

def typeUnspec : comDatatype := 0
def typeU32 : comDatatype := 1
def typeS32 : comDatatype := 2
def typeBool : comDatatype := 3
def typeFloat : comDatatype := 4
def typeU8 : comDatatype := 5
def typeString : comDatatype := 6

def idNoMsg : comDataID := 0
def idWakeMsg : comDataID := 1
def idAckMsg : comDataID := 2
def idInitDone : comDataID := 3
def idPrepForGrabRings : comDataID := 10
def idGrabRings : comDataID := 11
def idPrepForPlacement : comDataID := 12
def idPlaceRings : comDataID := 13
def idReadytoGrab : comDataID := 50
def idGrabbedRings : comDataID := 51
def idReadytoPlace : comDataID := 52
def idPlacedRings : comDataID := 53

/-- The enumerators of `comDataID`, in the order of the header file. -/
def comDataID_enumerators : List comDataID :=
  [idNoMsg, idWakeMsg, idAckMsg, idInitDone,
   idPrepForGrabRings, idGrabRings, idPrepForPlacement, idPlaceRings,
   idReadytoGrab, idGrabbedRings, idReadytoPlace, idPlacedRings]

end MessageClass

/-- The struct `HeaderData`: three `U8` fields. -/
structure HeaderData where
  datatype : Nat
  length : Nat
  dataID : Nat

/-- The union `RS485_Header` of a `HeaderData` and `U8 asbyte[3]`: the three fields are
the three bytes, in declaration order. -/
structure RS485_Header where
  HD : HeaderData

/-- Reading `asbyte[n]`. -/
def RS485_Header.asbyte (h : RS485_Header) (n : Nat) : Nat :=
  match n with
  | 0 => h.HD.datatype
  | 1 => h.HD.length
  | 2 => h.HD.dataID
  | _ => 0

/-- The assignment `asbyte[n] = v`. -/
def RS485_Header.setByte (h : RS485_Header) (n v : Nat) : RS485_Header :=
  match n with
  | 0 => { HD := { h.HD with datatype := v } }
  | 1 => { HD := { h.HD with length := v } }
  | 2 => { HD := { h.HD with dataID := v } }
  | _ => h

/-- The data members of `class MessageClass`. `MsgData` is the memory seen from the
pointer; the offsets below `BufferSize` are the allocated buffer. -/
structure MessageClass where
  mHeaderData : HeaderData
  mHeader : RS485_Header
  MsgData : Nat → Nat
  MsgLen : Nat
  BufferSize : Nat
  SimpleID : comDataID

namespace MessageClass

/-- `MessageClass::MessageClass(void)`: a buffer of `MAX_MSG_LEN` bytes is allocated; the
other members, and the contents of the buffer, keep whatever the storage held (`uninit`). -/
def new (uninit : MessageClass) : MessageClass :=
  { uninit with BufferSize := MAX_MSG_LEN }

/-- `MessageClass::MessageClass(U8 length)`. -/
def newSized (uninit : MessageClass) (length : Nat) : MessageClass :=
  { uninit with BufferSize := length }

/-- Storage that holds zeros throughout. -/
def zeroed : MessageClass :=
  { mHeaderData := { datatype := 0, length := 0, dataID := 0 }
    mHeader := { HD := { datatype := 0, length := 0, dataID := 0 } }
    MsgData := fun _ => 0
    MsgLen := 0
    BufferSize := 0
    SimpleID := 0 }

/-- `U8 MessageClass::BuildMsg(U8* data2send, comDatatype dType, comDataID dID, U8 len)`:
the object afterwards and the returned `U8`. The argument `len` is a `U8` value; the
length is not compared with `BufferSize`. -/
def BuildMsg (m : MessageClass) (data2send : Nat → Nat) (dType : comDatatype)
    (dID : comDataID) (len : Nat) : MessageClass × Nat :=
  let hd : HeaderData := { datatype := toU8 dType, length := len, dataID := toU8 dID }
  let hdr : RS485_Header := { HD := hd }
  let d0 := memset m.MsgData 0 m.BufferSize
  let d1 := (List.range HEADER_LENGTH).foldl (fun d n => store d n (hdr.asbyte n)) d0
  let d2 := (List.range len).foldl (fun d i => store d (HEADER_LENGTH + i) (data2send i)) d1
  ({ m with MsgLen := len, mHeaderData := hd, mHeader := hdr, MsgData := d2 },
   toU8 (len + HEADER_LENGTH))

/-- The results of `DecodeMsg`: the three reference parameters and the freshly allocated
array the returned pointer points to. -/
structure Decoded where
  dType : comDatatype
  dID : comDataID
  len : Nat
  data : List Nat

/-- `U8* MessageClass::DecodeMsg(comDatatype& dType, comDataID& dID, U8& len)`. -/
def DecodeMsg (m : MessageClass) : MessageClass × Decoded :=
  let hdr := (List.range HEADER_LENGTH).foldl (fun h n => h.setByte n (m.MsgData n)) m.mHeader
  let hd := hdr.HD
  let len := hd.length
  let p_data2get := (List.range len).map (fun i => m.MsgData (HEADER_LENGTH + i))
  ({ m with mHeader := hdr, mHeaderData := hd, MsgLen := len },
   { dType := hd.datatype, dID := hd.dataID, len := len, data := p_data2get })

/-- `void MessageClass::SendMsgSimple(comDataID dID)`. -/
def SendMsgSimple (m : MessageClass) (c : Rs485) (dID : comDataID) : MessageClass × Rs485 :=
  let msg := toU8 dID
  (m, (c.send [msg]).1)

/-- `comDataID MessageClass::GetMsgSimple(void)`: the object and the transport afterwards,
and the returned id. -/
def GetMsgSimple (m : MessageClass) (c : Rs485) : MessageClass × Rs485 × comDataID :=
  let r := c.receive 1
  let dID : comDataID :=
    match r.2 with
    | msg :: _ => msg
    | [] => idNoMsg
  ({ m with SimpleID := dID }, r.1, dID)

/-- `bool MessageClass::isEmptySimple(void)`. -/
def isEmptySimple (m : MessageClass) : Bool :=
  let empty := true
  if m.SimpleID ≠ idNoMsg then false else empty

/-- `void MessageClass::clearDataSimple(void)`. -/
def clearDataSimple (m : MessageClass) : MessageClass :=
  { m with SimpleID := idNoMsg }

/-- `comDataID MessageClass::GetMsgDataSimple(void)`. -/
def GetMsgDataSimple (m : MessageClass) : comDataID :=
  m.SimpleID

end MessageClass

/-! ## `lib/taskshare.hpp` and `Slave/shares.hpp` -/

/-- Modelled from the spec: the class template `TaskShare<T>` of `lib/taskshare.hpp`, which
is not among the sources. A single slot holding one value of type `T`: `get` returns the
current value without changing it and `put` overwrites it; there is no history, no queue
and no blocking. -/
structure TaskShare (α : Type) where
  data : α

/-- Modelled from the spec: `T TaskShare<T>::get()` of the missing `lib/taskshare.hpp`,
the current value of the slot. -/
def TaskShare.get {α : Type} (s : TaskShare α) : α := s.data

/-- Modelled from the spec: `void TaskShare<T>::put(T)` of the missing `lib/taskshare.hpp`,
which overwrites the slot. -/
def TaskShare.put {α : Type} (_s : TaskShare α) (v : α) : TaskShare α := { data := v }

/-- `#define OPENCLAW 0` of `Slave/shares.hpp`. -/
def OPENCLAW : Int := 0

/-- `#define CLOSECLAW 1` of `Slave/shares.hpp`. -/
def CLOSECLAW : Int := 1

/-- The shared task variables declared in `Slave/shares.hpp`. -/
structure SlaveShares where
  task_SlaveMindStart : TaskShare Bool
  task_LifterStart : TaskShare Bool
  moveLifterAbs : TaskShare Int
  LifterArrived : TaskShare Bool
  task_ClawStart : TaskShare Bool
  moveClaw : TaskShare Int
  ClawArrived : TaskShare Bool
  task_TowerStart : TaskShare Bool
  TowerArrived : TaskShare Bool
  task_CommStart : TaskShare Bool
  CommReady : TaskShare Bool
  ShareMsgID : TaskShare Nat
  MsgReady2Get : TaskShare Bool
  MsgReady2Send : TaskShare Bool

/-- A `put` on one of the shared variables the slave tasks write while running. -/
inductive SlaveWrite where
  | moveLifterAbs (v : Int)
  | LifterArrived (v : Bool)
  | moveClaw (v : Int)
  | ClawArrived (v : Bool)
  | ShareMsgID (v : Nat)
  | MsgReady2Get (v : Bool)
  | MsgReady2Send (v : Bool)
  deriving DecidableEq, Repr

/-- The shared variables as one task sees them, together with the `put` calls this task
has made, oldest first. -/
structure SlaveCtx where
  sh : SlaveShares
  writes : List SlaveWrite

namespace SlaveCtx

/-- The call `moveLifterAbs.put(v)`. -/
def put_moveLifterAbs (c : SlaveCtx) (v : Int) : SlaveCtx :=
  { sh := { c.sh with moveLifterAbs := c.sh.moveLifterAbs.put v }
    writes := c.writes ++ [SlaveWrite.moveLifterAbs v] }

/-- The call `LifterArrived.put(v)`. -/
def put_LifterArrived (c : SlaveCtx) (v : Bool) : SlaveCtx :=
  { sh := { c.sh with LifterArrived := c.sh.LifterArrived.put v }
    writes := c.writes ++ [SlaveWrite.LifterArrived v] }

/-- The call `moveClaw.put(v)`. -/
def put_moveClaw (c : SlaveCtx) (v : Int) : SlaveCtx :=
  { sh := { c.sh with moveClaw := c.sh.moveClaw.put v }
    writes := c.writes ++ [SlaveWrite.moveClaw v] }

/-- The call `ClawArrived.put(v)`. -/
def put_ClawArrived (c : SlaveCtx) (v : Bool) : SlaveCtx :=
  { sh := { c.sh with ClawArrived := c.sh.ClawArrived.put v }
    writes := c.writes ++ [SlaveWrite.ClawArrived v] }

/-- The call `ShareMsgID.put(v)`. -/
def put_ShareMsgID (c : SlaveCtx) (v : Nat) : SlaveCtx :=
  { sh := { c.sh with ShareMsgID := c.sh.ShareMsgID.put v }
    writes := c.writes ++ [SlaveWrite.ShareMsgID v] }

/-- The call `MsgReady2Get.put(v)`. -/
def put_MsgReady2Get (c : SlaveCtx) (v : Bool) : SlaveCtx :=
  { sh := { c.sh with MsgReady2Get := c.sh.MsgReady2Get.put v }
    writes := c.writes ++ [SlaveWrite.MsgReady2Get v] }

/-- The call `MsgReady2Send.put(v)`. -/
def put_MsgReady2Send (c : SlaveCtx) (v : Bool) : SlaveCtx :=
  { sh := { c.sh with MsgReady2Send := c.sh.MsgReady2Send.put v }
    writes := c.writes ++ [SlaveWrite.MsgReady2Send v] }

end SlaveCtx

/-- Shared variables with every flag false and every number zero. -/
def SlaveShares.allClear : SlaveShares :=
  { task_SlaveMindStart := { data := false }
    task_LifterStart := { data := false }
    moveLifterAbs := { data := 0 }
    LifterArrived := { data := false }
    task_ClawStart := { data := false }
    moveClaw := { data := 0 }
    ClawArrived := { data := false }
    task_TowerStart := { data := false }
    TowerArrived := { data := false }
    task_CommStart := { data := false }
    CommReady := { data := false }
    ShareMsgID := { data := 0 }
    MsgReady2Get := { data := false }
    MsgReady2Send := { data := false } }

/-- An `ecrobot::Motor` as its task drives it: the power commanded last and every argument
of `setPWM` so far, oldest first. -/
structure Motor where
  pwm : Int
  commands : List Int

/-- The call `setPWM(p)`. -/
def Motor.setPWM (m : Motor) (p : Int) : Motor :=
  { pwm := p, commands := m.commands ++ [p] }

/-- Conversion of an integer value to `S8`. -/
def wrapS8 (z : Int) : Int := (z + 128) % 256 - 128

/-! ## `Slave/task_Claw.cpp` -/

namespace task_Claw

def OPENING_SPEED : Int := 35
def CLOSING_SPEED : Int := -35
def OFF : Int := 0
def HOLDING_SPEED : Int := -30

/-- The local `enum state_t` of `ClawRun`. -/
inductive state_t where
  | CLOSED | CLOSING | OPEN | CHECKTOUCH | OPENING
  deriving DecidableEq, Repr

/-- What `ClawRun` works on: its local `state`, the motor `Claw` and the shared
variables. -/
structure ClawTask where
  state : state_t
  Claw : Motor
  ctx : SlaveCtx

/-- The state in which `ClawRun` enters its loop: `state = OPEN`. -/
def ClawRun_init (Claw : Motor) (ctx : SlaveCtx) : ClawTask :=
  { state := state_t.OPEN, Claw := Claw, ctx := ctx }

/-- One pass through the `while(true)` body of `ClawRun`; `pressed` is what
`ClawTouch.isPressed()` returns in this pass (the states `CLOSED` and `OPEN` do not
ask). -/
def ClawRun_cycle (w : ClawTask) (pressed : Bool) : ClawTask :=
  match w.state with
  | state_t.CLOSED =>
    let w1 := { w with Claw := w.Claw.setPWM HOLDING_SPEED }
    if w1.ctx.sh.moveClaw.get = OPENCLAW then
      { w1 with state := state_t.CHECKTOUCH, ctx := w1.ctx.put_ClawArrived false }
    else w1
  | state_t.CHECKTOUCH =>
    if pressed = false then
      { w with Claw := w.Claw.setPWM OPENING_SPEED }
    else
      { w with state := state_t.OPENING }
  | state_t.OPENING =>
    let w1 := { w with Claw := w.Claw.setPWM OPENING_SPEED }
    if pressed = false then
      { w1 with state := state_t.OPEN, ctx := w1.ctx.put_ClawArrived true,
                Claw := w1.Claw.setPWM OFF }
    else w1
  | state_t.OPEN =>
    let w1 := { w with Claw := w.Claw.setPWM OFF }
    if w1.ctx.sh.moveClaw.get = CLOSECLAW then
      { w1 with state := state_t.CLOSING, ctx := w1.ctx.put_ClawArrived false }
    else w1
  | state_t.CLOSING =>
    let w1 := { w with Claw := w.Claw.setPWM CLOSING_SPEED }
    if pressed = true then
      { w1 with state := state_t.CLOSED, ctx := w1.ctx.put_ClawArrived true }
    else w1

end task_Claw

/-! ## `Slave/task_Lifter.cpp` -/

/-- Conversion of a `double` value to `S32`: the fraction is dropped (rounding toward
zero). The `double` arithmetic of the sources is modelled by exact rational arithmetic. A
value whose integer part does not fit `S32`, for which the language defines no result, is
reduced modulo 2^32 here. -/
def truncS32 (q : ℚ) : Int := wrapS32 (Int.tdiv q.num q.den)

/-- The function `std::abs` on an `S32`: the negation of a negative argument, as an `S32`.
The absolute value of -2147483648 does not fit `S32`; the negation wraps, and the result
is -2147483648 again. -/
def std.abs (z : Int) : Int := wrapS32 |z|

namespace task_Lifter

def CLOSE_ENOUGH : Int := 10
def Kp : Int := 1
def Ki : ℚ := 0.001
def LONG_ENOUGH : Nat := 5
def DOWN_MAX : Int := -70
def UP_MAX : Int := 70
def OFF : Int := 0
def MIN_POWER : Int := 20

/-- The local `enum state_t` of `LifterRun`. -/
inductive state_t where
  | IDLE | MOVING
  deriving DecidableEq, Repr

/-- What `LifterRun` works on: its local variables, the motor `Lifter`, the tones played
on `mSpeak` (frequency, duration, volume) and the shared variables. -/
structure LifterTask where
  cPos : Int
  dPos : Int
  oPos : Int
  error : Int
  error_sum : Int
  power : Int
  at_dPos : Nat
  state : state_t
  Lifter : Motor
  tones : List (Nat × Nat × Nat)
  ctx : SlaveCtx

/-- The state in which `LifterRun` enters its loop. -/
def LifterRun_init (Lifter : Motor) (ctx : SlaveCtx) : LifterTask :=
  { cPos := 0, dPos := 0, oPos := 0, error := 0, error_sum := 0, power := 0, at_dPos := 0,
    state := state_t.IDLE, Lifter := Lifter, tones := [], ctx := ctx }

/-- The assignment `power = Kp * error + Ki * error_sum / 1024`, computed in `double` and
converted to `S32`. -/
def controlLaw (error error_sum : Int) : Int :=
  truncS32 (((Kp * error : Int) : ℚ) + Ki * (error_sum : ℚ) / 1024)

/-- The three `if` statements under `//Cap max power`, in source order. -/
def capPower (power : Int) : Int :=
  let p1 := if power > UP_MAX then UP_MAX else power
  let p2 := if p1 < DOWN_MAX then DOWN_MAX else p1
  if p2 > 0 ∧ p2 < MIN_POWER then MIN_POWER else p2

/-- One pass through the `while(true)` body of `LifterRun`; `count` is what
`Lifter.getCount()` returns in this pass (only the state `MOVING` asks). -/
def LifterRun_cycle (w : LifterTask) (count : Int) : LifterTask :=
  let w0 := { w with dPos := w.ctx.sh.moveLifterAbs.get }
  match w0.state with
  | state_t.IDLE =>
    let w1 :=
      if w0.dPos ≠ w0.oPos then
        { w0 with ctx := w0.ctx.put_LifterArrived false, state := state_t.MOVING }
      else w0
    { w1 with error := 0, error_sum := 0, power := 0, at_dPos := 0 }
  | state_t.MOVING =>
    let w1 := { w0 with cPos := count }
    let w2 := { w1 with error := wrapS32 (w1.dPos - w1.cPos) }
    let w3 := { w2 with error_sum := wrapS32 (w2.error_sum + w2.error) }
    let w4 :=
      if std.abs w3.error < CLOSE_ENOUGH then { w3 with at_dPos := toU8 (w3.at_dPos + 1) }
      else { w3 with at_dPos := 0 }
    if w4.at_dPos > LONG_ENOUGH then
      { w4 with Lifter := w4.Lifter.setPWM OFF, ctx := w4.ctx.put_LifterArrived true,
                oPos := w4.dPos, state := state_t.IDLE,
                tones := w4.tones ++ [(500, 50, 20)] }
    else
      let w5 := { w4 with power := capPower (controlLaw w4.error w4.error_sum) }
      { w5 with Lifter := w5.Lifter.setPWM (wrapS8 w5.power) }

/-- One pass of the lifter task after the other tasks have run. A sample `s` is the pair of
the target the sequencer has written to `moveLifterAbs` and of the encoder count of this
pass. -/
def LifterRun_step (w : LifterTask) (s : Int × Int) : LifterTask :=
  LifterRun_cycle
    { w with ctx := { w.ctx with sh := { w.ctx.sh with
        moveLifterAbs := w.ctx.sh.moveLifterAbs.put s.1 } } }
    s.2

/-- Several passes of the lifter task, one per sample. -/
def LifterRun_cycles (w : LifterTask) (samples : List (Int × Int)) : LifterTask :=
  samples.foldl LifterRun_step w

/-- A sample is within tolerance: `|target - position| < CLOSE_ENOUGH`. -/
def inTolerance (s : Int × Int) : Bool :=
  decide (|s.1 - s.2| < CLOSE_ENOUGH)

/-- The number of consecutive samples within tolerance at the end of a sequence of
samples. -/
def consecutive (samples : List (Int × Int)) : Nat :=
  (samples.reverse.takeWhile inTolerance).length

end task_Lifter

/-! ## `Slave/task_SlaveMind.cpp` -/

namespace task_SlaveMind

def PRE_GRAB_HEIGHT : ℚ := 2.5
def GRAB_HEIGHT : ℚ := 3.25
def POST_GRAB_HEIGHT : ℚ := 3.75
def PRE_RELEASE_HEIGHT : ℚ := 11.5
def RELEASE_HEIGHT : ℚ := 11.0
def POST_RELEASE_HEIGHT : ℚ := 10.25
def SCALE : ℚ := 571.51
def ZERO : ℚ := -1516

/-- `S32 InchestoDegrees(float height)`. -/
def InchestoDegrees (height : ℚ) : Int :=
  truncS32 ((height * SCALE) + ZERO)

/-- The local `enum state_t` of `SlaveMindRun`. -/
inductive state_t where
  | IDLE | PREP2GRAB | GRAB | PREP2PLACE | PLACE
  deriving DecidableEq, Repr

/-- What `SlaveMindRun` and its helpers work on: the locals of `SlaveMindRun`, the two
function-local statics of `ReadyToCheck`, and the shared variables. -/
structure SlaveMindTask where
  state : state_t
  curMsgID : comDataID
  grabStage : Nat
  placeStage : Nat
  times_called : Nat
  OkaytoCheck : Bool
  ctx : SlaveCtx

/-- The state in which `SlaveMindRun` enters its loop, the statics of `ReadyToCheck` being
as initialised. -/
def SlaveMindRun_init (ctx : SlaveCtx) : SlaveMindTask :=
  { state := state_t.IDLE, curMsgID := MessageClass.idNoMsg, grabStage := 0, placeStage := 0,
    times_called := 0, OkaytoCheck := false, ctx := ctx }

/-- `bool ReadyToCheck(bool reset = false)`. -/
def ReadyToCheck (w : SlaveMindTask) (reset : Bool) : SlaveMindTask × Bool :=
  let w1 := if reset = true then { w with times_called := 0, OkaytoCheck := false } else w
  let w2 :=
    if w1.times_called > 2 then { w1 with OkaytoCheck := true }
    else { w1 with OkaytoCheck := false, times_called := toU8 (w1.times_called + 1) }
  (w2, w2.OkaytoCheck)

/-- `bool MoveLift(float height)`; the operator `&&` does not evaluate `ReadyToCheck()`
when `LifterArrived.get()` is false. -/
def MoveLift (w : SlaveMindTask) (height : ℚ) : SlaveMindTask × Bool :=
  let w1 := { w with ctx := w.ctx.put_moveLifterAbs (InchestoDegrees height) }
  if w1.ctx.sh.LifterArrived.get = true then ReadyToCheck w1 false
  else (w1, false)

/-- The `case IDLE` of `SlaveMindRun`. -/
def case_IDLE (w : SlaveMindTask) : SlaveMindTask :=
  if w.ctx.sh.MsgReady2Get.get = true then
    let w1 := { w with curMsgID := w.ctx.sh.ShareMsgID.get }
    let w2 :=
      if w1.curMsgID = MessageClass.idPrepForGrabRings then
        { w1 with state := state_t.PREP2GRAB } else w1
    let w3 :=
      if w2.curMsgID = MessageClass.idGrabRings then { w2 with state := state_t.GRAB } else w2
    let w4 :=
      if w3.curMsgID = MessageClass.idPrepForPlacement then
        { w3 with state := state_t.PREP2PLACE } else w3
    let w5 :=
      if w4.curMsgID = MessageClass.idPlaceRings then { w4 with state := state_t.PLACE } else w4
    let w6 := { w5 with ctx := w5.ctx.put_MsgReady2Get false }
    { w6 with ctx := w6.ctx.put_ShareMsgID MessageClass.idNoMsg }
  else w

/-- The `case PREP2GRAB` of `SlaveMindRun`. -/
def case_PREP2GRAB (w : SlaveMindTask) : SlaveMindTask :=
  let w1 := { w with ctx := w.ctx.put_moveClaw OPENCLAW }
  let w2 := (MoveLift w1 PRE_GRAB_HEIGHT).1
  let r := ReadyToCheck w2 false
  if r.2 = true ∧ r.1.ctx.sh.ClawArrived.get = true ∧ r.1.ctx.sh.LifterArrived.get = true then
    let w3 := { r.1 with state := state_t.IDLE }
    let w4 := (ReadyToCheck w3 true).1
    let w5 := { w4 with ctx := w4.ctx.put_ShareMsgID (toU8 MessageClass.idReadytoGrab) }
    { w5 with ctx := w5.ctx.put_MsgReady2Send true }
  else r.1

/-- The `case GRAB` of `SlaveMindRun`: three `if` statements, one after the other. -/
def case_GRAB (w : SlaveMindTask) : SlaveMindTask :=
  let a :=
    if w.grabStage = 0 then
      let r := MoveLift w GRAB_HEIGHT
      if r.2 = true then (ReadyToCheck { r.1 with grabStage := 1 } true).1 else r.1
    else w
  let b :=
    if a.grabStage = 1 then
      let a1 := { a with ctx := a.ctx.put_moveClaw CLOSECLAW }
      let r := ReadyToCheck a1 false
      if r.2 = true ∧ r.1.ctx.sh.ClawArrived.get = true then
        (ReadyToCheck { r.1 with grabStage := 2 } true).1
      else r.1
    else a
  if b.grabStage = 2 then
    let r := MoveLift b POST_GRAB_HEIGHT
    if r.2 = true then
      let b1 := { r.1 with grabStage := 0, state := state_t.IDLE }
      let b2 := (ReadyToCheck b1 true).1
      let b3 := { b2 with ctx := b2.ctx.put_ShareMsgID (toU8 MessageClass.idGrabbedRings) }
      { b3 with ctx := b3.ctx.put_MsgReady2Send true }
    else r.1
  else b

/-- The `case PREP2PLACE` of `SlaveMindRun`. -/
def case_PREP2PLACE (w : SlaveMindTask) : SlaveMindTask :=
  let w2 := (MoveLift w PRE_RELEASE_HEIGHT).1
  let r := ReadyToCheck w2 false
  if r.2 = true ∧ r.1.ctx.sh.LifterArrived.get = true then
    let w3 := { r.1 with state := state_t.IDLE }
    let w4 := (ReadyToCheck w3 true).1
    let w5 := { w4 with ctx := w4.ctx.put_ShareMsgID (toU8 MessageClass.idReadytoPlace) }
    { w5 with ctx := w5.ctx.put_MsgReady2Send true }
  else r.1

/-- The `case PLACE` of `SlaveMindRun`: three `if` statements, one after the other. -/
def case_PLACE (w : SlaveMindTask) : SlaveMindTask :=
  let a :=
    if w.placeStage = 0 then
      let r := MoveLift w RELEASE_HEIGHT
      if r.2 = true then (ReadyToCheck { r.1 with placeStage := 1 } true).1 else r.1
    else w
  let b :=
    if a.placeStage = 1 then
      let a1 := { a with ctx := a.ctx.put_moveClaw OPENCLAW }
      let r := ReadyToCheck a1 false
      if r.2 = true ∧ r.1.ctx.sh.ClawArrived.get = true then
        (ReadyToCheck { r.1 with placeStage := 2 } true).1
      else r.1
    else a
  if b.placeStage = 2 then
    let r := MoveLift b POST_RELEASE_HEIGHT
    if r.2 = true then
      let b1 := { r.1 with placeStage := 0, state := state_t.IDLE }
      let b2 := (ReadyToCheck b1 true).1
      let b3 := { b2 with ctx := b2.ctx.put_ShareMsgID (toU8 MessageClass.idPlacedRings) }
      { b3 with ctx := b3.ctx.put_MsgReady2Send true }
    else r.1
  else b

/-- One pass through the `while(true)` body of `SlaveMindRun`. -/
def SlaveMindRun_cycle (w : SlaveMindTask) : SlaveMindTask :=
  match w.state with
  | state_t.IDLE => case_IDLE w
  | state_t.PREP2GRAB => case_PREP2GRAB w
  | state_t.GRAB => case_GRAB w
  | state_t.PREP2PLACE => case_PREP2PLACE w
  | state_t.PLACE => case_PLACE w

end task_SlaveMind

/-! ## The slave sequencer among the other tasks -/

namespace task_SlaveMind

/-- What the other slave tasks did to the shared variables the sequencer reads, between two
of its passes: the comm task may have delivered a command (`ShareMsgID.put(id)` and
`MsgReady2Get.put(true)`), and the lifter and claw tasks own the two arrived flags. -/
structure SlaveMindEnv where
  command : Option comDataID
  LifterArrived : Bool
  ClawArrived : Bool

/-- The shared variables after the writes of the other tasks. -/
def SlaveMindEnv.apply (e : SlaveMindEnv) (sh : SlaveShares) : SlaveShares :=
  let sh1 :=
    match e.command with
    | some id =>
      { sh with ShareMsgID := sh.ShareMsgID.put id, MsgReady2Get := sh.MsgReady2Get.put true }
    | none => sh
  { sh1 with LifterArrived := sh1.LifterArrived.put e.LifterArrived,
             ClawArrived := sh1.ClawArrived.put e.ClawArrived }

/-- The ids published in a sequence of writes: each `ShareMsgID.put(v)` that is directly
followed by `MsgReady2Send.put(true)`. -/
def published : List SlaveWrite → List comDataID
  | [] => []
  | SlaveWrite.ShareMsgID v :: SlaveWrite.MsgReady2Send true :: rest => v :: published rest
  | _ :: rest => published rest

/-- One pass of the sequencer after the other tasks have run; the write log is started
afresh, so that afterwards it holds the writes of this pass. -/
def SlaveMindRun_step (w : SlaveMindTask) (e : SlaveMindEnv) : SlaveMindTask :=
  SlaveMindRun_cycle { w with ctx := { sh := e.apply w.ctx.sh, writes := [] } }

/-- Several passes of the sequencer: the final state and the ids published, in order. -/
def SlaveMindRun_cycles : SlaveMindTask → List SlaveMindEnv → SlaveMindTask × List comDataID
  | w, [] => (w, [])
  | w, e :: es =>
    let w1 := SlaveMindRun_step w e
    let r := SlaveMindRun_cycles w1 es
    (r.1, published w1.ctx.writes ++ r.2)

end task_SlaveMind

/-! ## Vocabulary for the statements about the slave sequencer -/

namespace task_SlaveMind

/-- The other tasks deliver no command and both actuators report arrival. -/
def arrived : SlaveMindEnv :=
  { command := none, LifterArrived := true, ClawArrived := true }

/-- The mission state that serves a command. -/
def missionState (cmd : comDataID) : state_t :=
  if cmd = MessageClass.idPrepForGrabRings then state_t.PREP2GRAB
  else if cmd = MessageClass.idGrabRings then state_t.GRAB
  else if cmd = MessageClass.idPrepForPlacement then state_t.PREP2PLACE
  else if cmd = MessageClass.idPlaceRings then state_t.PLACE
  else state_t.IDLE

/-- The response that answers a command. -/
def responseTo (cmd : comDataID) : comDataID :=
  if cmd = MessageClass.idPrepForGrabRings then MessageClass.idReadytoGrab
  else if cmd = MessageClass.idGrabRings then MessageClass.idGrabbedRings
  else if cmd = MessageClass.idPrepForPlacement then MessageClass.idReadytoPlace
  else if cmd = MessageClass.idPlaceRings then MessageClass.idPlacedRings
  else MessageClass.idNoMsg

/-- The four commands of the master. -/
def isCommand (cmd : comDataID) : Prop :=
  cmd = MessageClass.idPrepForGrabRings ∨ cmd = MessageClass.idGrabRings ∨
  cmd = MessageClass.idPrepForPlacement ∨ cmd = MessageClass.idPlaceRings

/-- The sequencer is at rest: in `IDLE`, both sub-stage counters at zero, no command
pending, and the call counter of `ReadyToCheck` at most one. -/
def AtRest (w : SlaveMindTask) : Prop :=
  w.state = state_t.IDLE ∧ w.grabStage = 0 ∧ w.placeStage = 0 ∧ w.times_called ≤ 1 ∧
  w.ctx.sh.MsgReady2Get.get = false

/-- The sequencer is serving the command `cmd`. -/
def Serving (cmd : comDataID) (w : SlaveMindTask) : Prop :=
  w.state = missionState cmd ∧ w.times_called ≤ 3 ∧ w.ctx.sh.MsgReady2Get.get = false ∧
  (w.state = state_t.GRAB → w.grabStage ≤ 2) ∧ (w.state ≠ state_t.GRAB → w.grabStage = 0) ∧
  (w.state = state_t.PLACE → w.placeStage ≤ 2) ∧ (w.state ≠ state_t.PLACE → w.placeStage = 0)

/-- A bound on the number of passes the sequencer still needs to finish the command it is
serving once both actuators report arrival in every pass. -/
def passesLeft (w : SlaveMindTask) : Nat :=
  match w.state with
  | state_t.IDLE => 0
  | state_t.PREP2GRAB => if 2 ≤ w.times_called then 1 else 2
  | state_t.PREP2PLACE => if 2 ≤ w.times_called then 1 else 2
  | state_t.GRAB => (4 - w.times_called) + 2 * (2 - w.grabStage)
  | state_t.PLACE => (4 - w.times_called) + 2 * (2 - w.placeStage)

/-- The number of passes, among those of `r`, in which both arrived flags read true. -/
def arrivedCount (r : List SlaveMindEnv) : Nat :=
  (r.filter (fun e => e.LifterArrived && e.ClawArrived)).length

end task_SlaveMind

/-! ## Tasks that wait for other tasks -/

/-- How a function that polls in a loop ends on a finite record of what the other tasks
and the hardware did: `done` when it returned, `waiting` when the record ended while it was
still polling (the state is the one reached by then). -/
inductive Outcome (α : Type) where
  | done (a : α)
  | waiting (a : α)

/-! ## The claw and the lifter among the other tasks -/

namespace task_Claw

/-- The call `Claw.reset()`: the motor is stopped (and its encoder count zeroed, which this
model does not carry). -/
def Motor_reset (m : Motor) : Motor :=
  { m with pwm := 0 }

/-- The call `Claw.setBrake(true)`: the brake mode is not part of this model. -/
def Motor_setBrake (m : Motor) (_brake : Bool) : Motor := m

/-- The loop `while (ClawTouch.isPressed() != true) sleep(1)` of `ClawConstructor`;
`readings` are the values successive calls of `isPressed()` return. The readings left over
are returned. -/
def waitPressed : List Bool → Outcome (List Bool)
  | [] => Outcome.waiting []
  | r :: rs => if r ≠ true then waitPressed rs else Outcome.done rs

/-- The loop `while (ClawTouch.isPressed() == true) sleep(1)` of `ClawConstructor`. -/
def waitReleased : List Bool → Outcome (List Bool)
  | [] => Outcome.waiting []
  | r :: rs => if r = true then waitReleased rs else Outcome.done rs

/-- `void ClawConstructor(void)`; `readings` are the values successive calls of
`ClawTouch.isPressed()` return. The writes to the LCD are left out. -/
def ClawConstructor (Claw : Motor) (ctx : SlaveCtx) (readings : List Bool) :
    Outcome (Motor × SlaveCtx) :=
  let m1 := Motor_reset Claw
  let m2 := Motor_setBrake m1 true
  let m3 := m2.setPWM OPENING_SPEED
  match waitPressed readings with
  | Outcome.waiting _ => Outcome.waiting (m3, ctx)
  | Outcome.done rs =>
    match waitReleased rs with
    | Outcome.waiting _ => Outcome.waiting (m3, ctx)
    | Outcome.done _ =>
      let m4 := m3.setPWM OFF
      let c1 := ctx.put_moveClaw 0
      let c2 := c1.put_ClawArrived true
      Outcome.done (m4, c2)

/-- What happens around one pass of the claw task: the value the sequencer has left in
`moveClaw`, and what the touch sensor reads in this pass. -/
structure ClawEnv where
  moveClaw : Int
  pressed : Bool

/-- One pass of the claw task after the other tasks have run. -/
def ClawRun_step (w : ClawTask) (e : ClawEnv) : ClawTask :=
  ClawRun_cycle
    { w with ctx := { w.ctx with sh := { w.ctx.sh with
        moveClaw := w.ctx.sh.moveClaw.put e.moveClaw } } }
    e.pressed

/-- Several passes of the claw task. -/
def ClawRun_cycles (w : ClawTask) (es : List ClawEnv) : ClawTask :=
  es.foldl ClawRun_step w

/-- The claw is in one of its two rest states. -/
def atRestState (s : state_t) : Bool :=
  match s with
  | state_t.OPEN => true
  | state_t.CLOSED => true
  | _ => false

end task_Claw

/-! ## `Master/shares.hpp` -/

/-- The shared task variables declared in `Master/shares.hpp`. -/
structure MasterShares where
  task_MasterMindStart : TaskShare Bool
  task_CommStart : TaskShare Bool
  task_NavStart : TaskShare Bool
  task_NavState : TaskShare Nat
  task_LFStart : TaskShare Bool
  black_limit : TaskShare Int
  CommReady : TaskShare Bool
  ShareMsgID : TaskShare Nat
  MsgReady2Get : TaskShare Bool
  MsgReady2Send : TaskShare Bool

/-- Shared variables with every flag false and every number zero. -/
def MasterShares.allClear : MasterShares :=
  { task_MasterMindStart := { data := false }
    task_CommStart := { data := false }
    task_NavStart := { data := false }
    task_NavState := { data := 0 }
    task_LFStart := { data := false }
    black_limit := { data := 0 }
    CommReady := { data := false }
    ShareMsgID := { data := 0 }
    MsgReady2Get := { data := false }
    MsgReady2Send := { data := false } }

namespace Master

def INIT_LINE : Nat := 0
def MIND_LINE : Nat := 1
def NAV_LINE : Nat := 2
def COMM_LINE : Nat := 3
def DEBUG : Nat := 4

/-- The texts the master tasks modelled here write to the LCD. -/
inductive Text where
  | MasterMind_Ready
  | ERROR
  | Comm_Ready
  deriving DecidableEq, Repr

/-- What a master task does that another task, the other node or the user can observe, in
the order in which it does it. -/
inductive Event where
  | put_task_CommStart (v : Bool)
  | put_task_NavStart (v : Bool)
  | put_task_LFStart (v : Bool)
  | put_CommReady (v : Bool)
  | put_ShareMsgID (v : Nat)
  | put_MsgReady2Get (v : Bool)
  | put_MsgReady2Send (v : Bool)
  | sleep (ms : Nat)
  | playTone (freq ms vol : Nat)
  | display (line : Nat) (text : Text)
  | displayNumber (line : Nat) (n : Nat)
  | transmit (bytes : List Nat)
  deriving DecidableEq, Repr

/-- What the other tasks and the other node do while a master task sleeps: bytes arrive on
the serial line, and the other tasks rewrite the shared variables. -/
structure Env where
  arrivals : List Nat
  others : MasterShares → MasterShares

/-- The master node as one of its tasks sees it: the shared variables, the global `MsgComm`,
and the record of what this task has done. -/
structure Node where
  sh : MasterShares
  MsgComm : Rs485
  log : List Event

namespace Node

/-- The call `task_CommStart.put(v)`. -/
def put_task_CommStart (n : Node) (v : Bool) : Node :=
  { n with sh := { n.sh with task_CommStart := n.sh.task_CommStart.put v }
           log := n.log ++ [Event.put_task_CommStart v] }

/-- The call `task_NavStart.put(v)`. -/
def put_task_NavStart (n : Node) (v : Bool) : Node :=
  { n with sh := { n.sh with task_NavStart := n.sh.task_NavStart.put v }
           log := n.log ++ [Event.put_task_NavStart v] }

/-- The call `task_LFStart.put(v)`. -/
def put_task_LFStart (n : Node) (v : Bool) : Node :=
  { n with sh := { n.sh with task_LFStart := n.sh.task_LFStart.put v }
           log := n.log ++ [Event.put_task_LFStart v] }

/-- The call `CommReady.put(v)`. -/
def put_CommReady (n : Node) (v : Bool) : Node :=
  { n with sh := { n.sh with CommReady := n.sh.CommReady.put v }
           log := n.log ++ [Event.put_CommReady v] }

/-- The call `ShareMsgID.put(v)`. -/
def put_ShareMsgID (n : Node) (v : Nat) : Node :=
  { n with sh := { n.sh with ShareMsgID := n.sh.ShareMsgID.put v }
           log := n.log ++ [Event.put_ShareMsgID v] }

/-- The call `MsgReady2Get.put(v)`. -/
def put_MsgReady2Get (n : Node) (v : Bool) : Node :=
  { n with sh := { n.sh with MsgReady2Get := n.sh.MsgReady2Get.put v }
           log := n.log ++ [Event.put_MsgReady2Get v] }

/-- The call `MsgReady2Send.put(v)`. -/
def put_MsgReady2Send (n : Node) (v : Bool) : Node :=
  { n with sh := { n.sh with MsgReady2Send := n.sh.MsgReady2Send.put v }
           log := n.log ++ [Event.put_MsgReady2Send v] }

/-- The other tasks and the other node act. -/
def interfere (n : Node) (e : Env) : Node :=
  { n with sh := e.others n.sh
           MsgComm := { n.MsgComm with rx := n.MsgComm.rx ++ e.arrivals } }

/-- The call `NNxt::sleep(ms)`, during which the other tasks and the other node act. -/
def sleep (n : Node) (ms : Nat) (e : Env) : Node :=
  interfere { n with log := n.log ++ [Event.sleep ms] } e

/-- A call `m.SendMsgSimple(dID)` on a message object `m`; the bytes it hands to the
transport are recorded. -/
def SendMsgSimple (n : Node) (m : MessageClass) (dID : comDataID) : Node :=
  let r := m.SendMsgSimple n.MsgComm dID
  { n with MsgComm := r.2, log := n.log ++ [Event.transmit (r.2.tx.drop n.MsgComm.tx.length)] }

end Node

end Master

/-! ## `Master/task_MasterMind.cpp` -/

namespace task_MasterMind

open Master

/-- A loop `while (cond) {NNxt::sleep(ms);}` on the shared variables; `es` records what the
other tasks do during each sleep. The part of the record not used up is returned. -/
def pollWhile (cond : MasterShares → Bool) (ms : Nat) :
    Node → List Env → Outcome (Node × List Env)
  | n, [] => if cond n.sh = true then Outcome.waiting (n, []) else Outcome.done (n, [])
  | n, e :: es =>
    if cond n.sh = true then pollWhile cond ms (n.sleep ms e) es else Outcome.done (n, e :: es)

/-- The call `NNxt::sleep(ms)` outside a polling loop; when the record of the other tasks has
ended, they do nothing during it. -/
def pause (n : Node) (ms : Nat) (es : List Env) : Node × List Env :=
  match es with
  | [] => ({ n with log := n.log ++ [Event.sleep ms] }, [])
  | e :: rest => (n.sleep ms e, rest)

/-- `void SendMsg(MessageClass::comDataID msgID)`. -/
def SendMsg (n : Node) (msgID : comDataID) : Node :=
  (n.put_ShareMsgID (toU8 msgID)).put_MsgReady2Send true

/-- `bool WaitForMsg(MessageClass::comDataID msgID)`. -/
def WaitForMsg (n : Node) (msgID : comDataID) : Bool :=
  let ack := false
  if n.sh.MsgReady2Get.get = true ∧ n.sh.ShareMsgID.get = toU8 msgID then true else ack

/-- The statements of `constructor` that follow the loop on `MsgReady2Get`: the check of
the id, the two branches, and `task_LFStart.put(true)`. -/
def constructor_tail (n : Node) (es : List Env) : Node :=
  let n1 :=
    if n.sh.ShareMsgID.get = toU8 MessageClass.idInitDone then
      { n with log := n.log ++ [Event.display MIND_LINE Text.MasterMind_Ready] }
    else
      let a := { n with log := n.log ++ [Event.playTone 500 1000 20] }
      let b := { a with log := a.log ++ [Event.display MIND_LINE Text.ERROR] }
      let c := { b with log := b.log ++ [Event.displayNumber DEBUG b.sh.ShareMsgID.get] }
      (pause c 10000 es).1
  n1.put_task_LFStart true

/-- `void constructor(void)` of the master mind task. -/
def constructor (n : Node) (es : List Env) : Outcome Node :=
  let n1 := n.put_task_CommStart true
  match pollWhile (fun sh => sh.CommReady.get == false) 50 n1 es with
  | Outcome.waiting x => Outcome.waiting x.1
  | Outcome.done x =>
    let n2 := x.1.put_task_NavStart true
    match pollWhile (fun sh => sh.MsgReady2Get.get == false) 50 n2 x.2 with
    | Outcome.waiting y => Outcome.waiting y.1
    | Outcome.done y => Outcome.done (constructor_tail y.1 y.2)

/-- The master node at boot: every shared variable clear, nothing on the serial line,
nothing done yet. -/
def bootNode : Node :=
  { sh := MasterShares.allClear, MsgComm := { rx := [], tx := [] }, log := [] }

/-- The comm task reports that it is ready. -/
def commReady : Env :=
  { arrivals := [], others := fun sh => { sh with CommReady := { data := true } } }

/-- The comm task hands over a message with the id `id`. -/
def delivers (id : Nat) : Env :=
  { arrivals := [],
    others := fun sh =>
      { sh with ShareMsgID := { data := id }, MsgReady2Get := { data := true } } }

/-- Another task clears `MsgReady2Get`. -/
def clearsReady2Get : Env :=
  { arrivals := [], others := fun sh => { sh with MsgReady2Get := { data := false } } }

end task_MasterMind

/-! ## `Master/task_MComm.cpp` -/

namespace task_MComm

open Master

def TIMEOUT : Nat := 50

/-- `void SendAck(void)`; `uninit` is what the storage of the local `AckMsg` holds. -/
def SendAck (n : Node) (uninit : MessageClass) : Node :=
  let AckMsg := MessageClass.new uninit
  let msgID := MessageClass.idAckMsg
  n.SendMsgSimple AckMsg msgID

/-- `bool isAck(void)`: the node afterwards and the result. -/
def isAck (n : Node) (uninit : MessageClass) : Node × Bool :=
  let AckMsg := MessageClass.new uninit
  let r := AckMsg.GetMsgSimple n.MsgComm
  ({ n with MsgComm := r.2.1 }, if r.2.2 = MessageClass.idAckMsg then true else false)

/-- The loop `while (WakeMsg.GetMsgSimple() != MessageClass::idWakeMsg) {NNxt::sleep(200);}`
of `CommConstructor`; `es` records what happens during each sleep. -/
def waitWake : MessageClass → Node → List Env → Outcome (MessageClass × Node × List Env)
  | WakeMsg, n, [] =>
    let r := WakeMsg.GetMsgSimple n.MsgComm
    if r.2.2 ≠ MessageClass.idWakeMsg then
      Outcome.waiting (r.1, { n with MsgComm := r.2.1 }, [])
    else Outcome.done (r.1, { n with MsgComm := r.2.1 }, [])
  | WakeMsg, n, e :: es =>
    let r := WakeMsg.GetMsgSimple n.MsgComm
    if r.2.2 ≠ MessageClass.idWakeMsg then
      waitWake r.1 (Node.sleep { n with MsgComm := r.2.1 } 200 e) es
    else Outcome.done (r.1, { n with MsgComm := r.2.1 }, e :: es)

/-- `void CommConstructor(void)`; `uninitWake` and `uninitAck` are what the storage of the
local message objects holds. -/
def CommConstructor (uninitWake uninitAck : MessageClass) (n : Node) (es : List Env) :
    Outcome Node :=
  let n1 := n.put_ShareMsgID 0
  let n2 := n1.put_MsgReady2Get false
  let n3 := n2.put_MsgReady2Send false
  let WakeMsg := MessageClass.new uninitWake
  match waitWake WakeMsg n3 es with
  | Outcome.waiting x => Outcome.waiting x.2.1
  | Outcome.done x =>
    let n4 := SendAck x.2.1 uninitAck
    let n5 := n4.put_CommReady true
    Outcome.done { n5 with log := n5.log ++ [Event.display COMM_LINE Text.Comm_Ready] }

/-- The local `enum state_t` of `CommRun`. -/
inductive state_t where
  | IDLE | SEND | GET
  deriving DecidableEq, Repr

/-- What `CommRun` works on: its locals (the object `p_curMsg` points to among them) and
the node. -/
structure CommTask where
  state : state_t
  p_curMsg : MessageClass
  msgID : comDataID
  node : Node

/-- The state in which `CommRun` enters its loop; `uninit` is what the storage of the new
message object holds and `msgID` what that of the local `msgID` holds. -/
def CommRun_init (uninit : MessageClass) (msgID : comDataID) (n : Node) : CommTask :=
  { state := state_t.IDLE, p_curMsg := MessageClass.new uninit, msgID := msgID, node := n }

/-- One pass through the `while(true)` body of `CommRun`. -/
def CommRun_cycle (w : CommTask) : CommTask :=
  match w.state with
  | state_t.IDLE =>
    let r := w.p_curMsg.GetMsgSimple w.node.MsgComm
    let w1 := { w with p_curMsg := r.1, node := { w.node with MsgComm := r.2.1 } }
    if w1.p_curMsg.isEmptySimple = false then
      { w1 with state := state_t.GET }
    else if w1.node.sh.MsgReady2Send.get = true then
      { w1 with state := state_t.SEND }
    else w1
  | state_t.SEND =>
    let w1 := { w with msgID := w.node.sh.ShareMsgID.get }
    let w2 := { w1 with node := w1.node.SendMsgSimple w1.p_curMsg w1.msgID }
    let w3 := { w2 with node := w2.node.put_MsgReady2Send false }
    { w3 with state := state_t.IDLE }
  | state_t.GET =>
    let w1 := { w with msgID := w.p_curMsg.GetMsgDataSimple }
    let w2 := { w1 with node := w1.node.put_ShareMsgID (toU8 w1.msgID) }
    let w3 := { w2 with node := w2.node.put_MsgReady2Get true }
    { w3 with state := state_t.IDLE }

/-- One pass of the comm task after the other tasks and the other node have acted. -/
def CommRun_step (w : CommTask) (e : Env) : CommTask :=
  CommRun_cycle { w with node := w.node.interfere e }

/-- Several passes of the comm task. -/
def CommRun_cycles (w : CommTask) (es : List Env) : CommTask :=
  es.foldl CommRun_step w

end task_MComm

/-! ## `lib/MessageClass.cpp`: the framed transfer and the emptiness test -/

/-- One call on the global `MsgComm`: the method, the offset and length it was given, and
the byte count it returned. -/
inductive Rs485Call where
  | send (offset length returned : Nat)
  | receive (offset length returned : Nat)
  deriving DecidableEq, Repr

/-- The global `MsgComm` as the framed transfer uses it: the line, the number of bytes the
transport can still take in a `send` (it returns how many it took, which can be fewer than
it was asked to), and the calls made on it so far, oldest first. -/
structure Rs485Port where
  line : Rs485
  room : Nat
  calls : List Rs485Call

/-- The call `MsgComm.send(data, offset, length)`: the port afterwards and the returned
byte count. -/
def Rs485Port.send (p : Rs485Port) (data : Nat → Nat) (offset length : Nat) :
    Rs485Port × Nat :=
  let taken := min length p.room
  let bytes := (List.range taken).map (fun i => data (offset + i))
  ({ line := { p.line with tx := p.line.tx ++ bytes }
     room := p.room - taken
     calls := p.calls ++ [Rs485Call.send offset length taken] }, taken)

/-- The call `MsgComm.receive(data, offset, length)`: the port afterwards, the memory seen
from `data` afterwards, and the returned byte count. -/
def Rs485Port.receive (p : Rs485Port) (data : Nat → Nat) (offset length : Nat) :
    Rs485Port × (Nat → Nat) × Nat :=
  let got := p.line.rx.take length
  let data1 : Nat → Nat := fun j =>
    if offset ≤ j ∧ j < offset + got.length then got.getD (j - offset) 0 else data j
  ({ p with line := { p.line with rx := p.line.rx.drop length }
            calls := p.calls ++ [Rs485Call.receive offset length got.length] },
   data1, got.length)

namespace MessageClass

/-- `U32 MessageClass::GetMsg(void)`: the object and the port afterwards, and the returned
`U32`. -/
def GetMsg (m : MessageClass) (p : Rs485Port) : MessageClass × Rs485Port × Nat :=
  let r := p.receive m.MsgData 0 m.MsgLen
  ({ m with MsgData := r.2.1 }, r.1, r.2.2)

/-- `U32 MessageClass::SendMsg(void)`: the object and the port afterwards, and the returned
`U32`. The sum `MsgLen + HEADER_LENGTH` is computed in `int`. -/
def SendMsg (m : MessageClass) (p : Rs485Port) : MessageClass × Rs485Port × Nat :=
  let r := p.send m.MsgData 0 (m.MsgLen + HEADER_LENGTH)
  (m, r.1, r.2)

/-- `bool MessageClass::isEmpty(void)`. -/
def isEmpty (m : MessageClass) : Bool :=
  let empty := true
  if m.MsgLen > 0 then false else empty

/-- `void MessageClass::clearData(void)`. -/
def clearData (m : MessageClass) : MessageClass :=
  { m with MsgData := memset m.MsgData 0 MAX_MSG_LEN, MsgLen := 0 }

end MessageClass

/-! ## `lib/ExtraFunctions.hpp` -/

/-- Conversion of an integer value to `U32` (wrap-around modulo 2^32). -/
def toU32 (z : Int) : Nat := (z % 4294967296).toNat

/-- The millisecond clock of the node as one task sees it: the value `NNxt::getTick()`
returns now, and the arguments of this task's calls of `NNxt::sleep`, oldest first. -/
structure Clock where
  tick : Nat
  sleeps : List Nat

/-- `NNxt::getTick()`. -/
def Clock.getTick (c : Clock) : Nat := c.tick

/-- The call `NNxt::sleep(ms)` (external collaborator): the task runs again `ms`
milliseconds later; the tick counter is a `U32`. -/
def Clock.sleep (c : Clock) (ms : Nat) : Clock :=
  { tick := toU32 ((c.tick : Int) + ms), sleeps := c.sleeps ++ [ms] }

/-- `inline void sleep_from_for(U32 start_time, U32 sleep_time)`; both subtractions are
`U32` subtractions. -/
def sleep_from_for (c : Clock) (start_time sleep_time : Nat) : Clock :=
  c.sleep (toU32 ((sleep_time : Int) - toU32 ((c.getTick : Int) - start_time)))

/-! ## `Slave/task_SlaveMind.cpp`: successive calls of `ReadyToCheck` -/

namespace task_SlaveMind

/-- The state after `n` successive calls `ReadyToCheck()`. -/
def ReadyToCheck_calls (w : SlaveMindTask) : Nat → SlaveMindTask
  | 0 => w
  | n + 1 => (ReadyToCheck (ReadyToCheck_calls w n) false).1

/-- Successive calls of `ReadyToCheck` with the given arguments: the state afterwards and
the values returned, oldest first. -/
def ReadyToCheck_run (w : SlaveMindTask) : List Bool → SlaveMindTask × List Bool
  | [] => (w, [])
  | r :: rs =>
    let a := ReadyToCheck w r
    let b := ReadyToCheck_run a.1 rs
    (b.1, a.2 :: b.2)

end task_SlaveMind

/-! ## `Slave/task_SlaveMind.cpp`: `SlaveMindConstructor` -/

namespace task_SlaveMind

/-- What `SlaveMindConstructor` does, in the order in which it does it: its `put` calls,
the value each `get` in a loop condition returned, its sleeps and its text on the LCD. -/
inductive InitEvent where
  | put_task_CommStart (v : Bool)
  | get_CommReady (v : Bool)
  | put_task_TowerStart (v : Bool)
  | get_TowerArrived (v : Bool)
  | put_task_LifterStart (v : Bool)
  | get_LifterArrived (v : Bool)
  | put_task_ClawStart (v : Bool)
  | get_ClawArrived (v : Bool)
  | put_ShareMsgID (v : Nat)
  | put_MsgReady2Send (v : Bool)
  | sleep (ms : Nat)
  | display_SlaveMind_Ready
  deriving DecidableEq, Repr

/-- The shared variables as `SlaveMindConstructor` sees them and the record of what it has
done. -/
structure InitCtx where
  sh : SlaveShares
  log : List InitEvent

/-- What the other slave tasks do to the shared variables during one sleep of the
sequencer. -/
structure InitEnv where
  others : SlaveShares → SlaveShares

namespace InitCtx

/-- The call `task_CommStart.put(v)`. -/
def put_task_CommStart (c : InitCtx) (v : Bool) : InitCtx :=
  { sh := { c.sh with task_CommStart := c.sh.task_CommStart.put v }
    log := c.log ++ [InitEvent.put_task_CommStart v] }

/-- The call `task_TowerStart.put(v)`. -/
def put_task_TowerStart (c : InitCtx) (v : Bool) : InitCtx :=
  { sh := { c.sh with task_TowerStart := c.sh.task_TowerStart.put v }
    log := c.log ++ [InitEvent.put_task_TowerStart v] }

/-- The call `task_LifterStart.put(v)`. -/
def put_task_LifterStart (c : InitCtx) (v : Bool) : InitCtx :=
  { sh := { c.sh with task_LifterStart := c.sh.task_LifterStart.put v }
    log := c.log ++ [InitEvent.put_task_LifterStart v] }

/-- The call `task_ClawStart.put(v)`. -/
def put_task_ClawStart (c : InitCtx) (v : Bool) : InitCtx :=
  { sh := { c.sh with task_ClawStart := c.sh.task_ClawStart.put v }
    log := c.log ++ [InitEvent.put_task_ClawStart v] }

/-- The call `ShareMsgID.put(v)`. -/
def put_ShareMsgID (c : InitCtx) (v : Nat) : InitCtx :=
  { sh := { c.sh with ShareMsgID := c.sh.ShareMsgID.put v }
    log := c.log ++ [InitEvent.put_ShareMsgID v] }

/-- The call `MsgReady2Send.put(v)`. -/
def put_MsgReady2Send (c : InitCtx) (v : Bool) : InitCtx :=
  { sh := { c.sh with MsgReady2Send := c.sh.MsgReady2Send.put v }
    log := c.log ++ [InitEvent.put_MsgReady2Send v] }

/-- The call `NNxt::sleep(ms)`, during which the other tasks act. -/
def sleep (c : InitCtx) (ms : Nat) (e : InitEnv) : InitCtx :=
  { sh := e.others c.sh, log := c.log ++ [InitEvent.sleep ms] }

/-- The call `NNxt::sleep(ms)` outside a loop; when the record of the other tasks has
ended, they do nothing during it. -/
def pause (c : InitCtx) (ms : Nat) (es : List InitEnv) : InitCtx × List InitEnv :=
  match es with
  | [] => ({ c with log := c.log ++ [InitEvent.sleep ms] }, [])
  | e :: rest => (c.sleep ms e, rest)

end InitCtx

/-- A loop `while(flag.get() == false) {NNxt::sleep(50);}`; `got` records the value each
`get` returned and `es` what the other tasks do during each sleep. The part of the record
not used up is returned. -/
def waitFlag (flag : SlaveShares → Bool) (got : Bool → InitEvent) :
    InitCtx → List InitEnv → Outcome (InitCtx × List InitEnv)
  | c, [] =>
    let c1 : InitCtx := { c with log := c.log ++ [got (flag c.sh)] }
    if flag c.sh = false then Outcome.waiting (c1, []) else Outcome.done (c1, [])
  | c, e :: es =>
    let c1 : InitCtx := { c with log := c.log ++ [got (flag c.sh)] }
    if flag c.sh = false then waitFlag flag got (c1.sleep 50 e) es
    else Outcome.done (c1, e :: es)

/-- `void SlaveMindConstructor(void)`. -/
def SlaveMindConstructor (c : InitCtx) (es : List InitEnv) : Outcome InitCtx :=
  let c1 := c.put_task_CommStart true
  match waitFlag (fun sh => sh.CommReady.get) InitEvent.get_CommReady c1 es with
  | Outcome.waiting x => Outcome.waiting x.1
  | Outcome.done x =>
    let c2 := x.1.put_task_TowerStart true
    match waitFlag (fun sh => sh.TowerArrived.get) InitEvent.get_TowerArrived c2 x.2 with
    | Outcome.waiting y => Outcome.waiting y.1
    | Outcome.done y =>
      let p := y.1.pause 250 y.2
      let c3 := p.1.put_task_LifterStart true
      match waitFlag (fun sh => sh.LifterArrived.get) InitEvent.get_LifterArrived c3 p.2 with
      | Outcome.waiting z => Outcome.waiting z.1
      | Outcome.done z =>
        let q := z.1.pause 250 z.2
        let c4 := q.1.put_task_ClawStart true
        match waitFlag (fun sh => sh.ClawArrived.get) InitEvent.get_ClawArrived c4 q.2 with
        | Outcome.waiting u => Outcome.waiting u.1
        | Outcome.done u =>
          let c5 := u.1.put_ShareMsgID (toU8 MessageClass.idInitDone)
          let c6 := c5.put_MsgReady2Send true
          Outcome.done { c6 with log := c6.log ++ [InitEvent.display_SlaveMind_Ready] }

end task_SlaveMind

/-! ## `Slave/task_Tower.cpp` -/

namespace task_Tower

def INITIAL_SPEED : Int := 75
def SLOWER_SPEED : Int := 25
def OFF : Int := 0
def FINAL_POS : Int := 105
def EASIER_PART : Int := 45

/-- What `TowerConstructor` does, in the order in which it does it. -/
inductive Event where
  | reset
  | setBrake (brake : Bool)
  | setPWM (p : Int)
  | sleep (ms : Nat)
  | put_TowerArrived (v : Bool)
  deriving DecidableEq, Repr

/-- What `TowerConstructor` works on: the motor `Tower`, the shared variables, and the
record of what it has done. -/
structure TowerTask where
  Tower : Motor
  sh : SlaveShares
  log : List Event

/-- The call `Tower.reset()`: the motor is stopped. -/
def Tower_reset (t : TowerTask) : TowerTask :=
  { t with Tower := { t.Tower with pwm := 0 }, log := t.log ++ [Event.reset] }

/-- The call `Tower.setBrake(brake)`. -/
def Tower_setBrake (t : TowerTask) (brake : Bool) : TowerTask :=
  { t with log := t.log ++ [Event.setBrake brake] }

/-- The call `Tower.setPWM(p)`. -/
def Tower_setPWM (t : TowerTask) (p : Int) : TowerTask :=
  { t with Tower := t.Tower.setPWM p, log := t.log ++ [Event.setPWM p] }

/-- The call `TowerArrived.put(v)`. -/
def put_TowerArrived (t : TowerTask) (v : Bool) : TowerTask :=
  { t with sh := { t.sh with TowerArrived := t.sh.TowerArrived.put v }
           log := t.log ++ [Event.put_TowerArrived v] }

/-- A loop `while (Tower.getCount() < limit) {NNxt::sleep(50);}`; `counts` are the values
successive calls of `getCount()` return. The readings left over are returned. -/
def waitCount (limit : Int) : TowerTask → List Int → Outcome (TowerTask × List Int)
  | t, [] => Outcome.waiting (t, [])
  | t, c :: cs =>
    if c < limit then waitCount limit { t with log := t.log ++ [Event.sleep 50] } cs
    else Outcome.done (t, cs)

/-- `void TowerConstructor(void)`; `counts` are the values successive calls of
`Tower.getCount()` return. The writes to the LCD are left out. -/
def TowerConstructor (t : TowerTask) (counts : List Int) : Outcome TowerTask :=
  let t1 := Tower_reset t
  let t2 := Tower_setBrake t1 true
  let t3 := Tower_setPWM t2 INITIAL_SPEED
  match waitCount EASIER_PART t3 counts with
  | Outcome.waiting x => Outcome.waiting x.1
  | Outcome.done x =>
    let t4 := Tower_setPWM x.1 SLOWER_SPEED
    match waitCount FINAL_POS t4 x.2 with
    | Outcome.waiting y => Outcome.waiting y.1
    | Outcome.done y =>
      let t5 := Tower_setPWM y.1 OFF
      Outcome.done (put_TowerArrived t5 true)

end task_Tower

/-! ## `Slave/task_SlaveInit.cpp` and `Master/task_MasterInit.cpp`: the start-up hooks -/

/-- Modelled from the spec: `void TaskShare<T>::ISR_put(T)` of the missing
`lib/taskshare.hpp`, the overwrite that may be called before scheduling starts. -/
def TaskShare.ISR_put {α : Type} (_s : TaskShare α) (v : α) : TaskShare α := { data := v }

/-- The names of the shared variables declared in `Slave/shares.hpp`. -/
inductive SlaveVar where
  | task_SlaveMindStart
  | task_LifterStart
  | moveLifterAbs
  | LifterArrived
  | task_ClawStart
  | moveClaw
  | ClawArrived
  | task_TowerStart
  | TowerArrived
  | task_CommStart
  | CommReady
  | ShareMsgID
  | MsgReady2Get
  | MsgReady2Send
  deriving DecidableEq, Repr

/-- Every shared variable declared in `Slave/shares.hpp`, in the order of declaration. -/
def SlaveVar.declared : List SlaveVar :=
  [SlaveVar.task_SlaveMindStart, SlaveVar.task_LifterStart, SlaveVar.moveLifterAbs,
   SlaveVar.LifterArrived, SlaveVar.task_ClawStart, SlaveVar.moveClaw, SlaveVar.ClawArrived,
   SlaveVar.task_TowerStart, SlaveVar.TowerArrived, SlaveVar.task_CommStart,
   SlaveVar.CommReady, SlaveVar.ShareMsgID, SlaveVar.MsgReady2Get, SlaveVar.MsgReady2Send]

/-- The names of the shared variables declared in `Master/shares.hpp`. -/
inductive MasterVar where
  | task_MasterMindStart
  | task_CommStart
  | task_NavStart
  | task_NavState
  | task_LFStart
  | black_limit
  | CommReady
  | ShareMsgID
  | MsgReady2Get
  | MsgReady2Send
  deriving DecidableEq, Repr

/-- Every shared variable declared in `Master/shares.hpp`, in the order of declaration. -/
def MasterVar.declared : List MasterVar :=
  [MasterVar.task_MasterMindStart, MasterVar.task_CommStart, MasterVar.task_NavStart,
   MasterVar.task_NavState, MasterVar.task_LFStart, MasterVar.black_limit,
   MasterVar.CommReady, MasterVar.ShareMsgID, MasterVar.MsgReady2Get,
   MasterVar.MsgReady2Send]

/-- The slave node while it starts: what the shared variables hold (before the first write
of a variable, whatever its storage holds) and the variables written so far, oldest
first. -/
structure SlaveBoot where
  sh : SlaveShares
  written : List SlaveVar

namespace SlaveBoot

/-- The call `task_SlaveMindStart.ISR_put(v)`. -/
def ISR_put_task_SlaveMindStart (b : SlaveBoot) (v : Bool) : SlaveBoot :=
  { sh := { b.sh with task_SlaveMindStart := b.sh.task_SlaveMindStart.ISR_put v }
    written := b.written ++ [SlaveVar.task_SlaveMindStart] }

/-- The call `task_LifterStart.ISR_put(v)`. -/
def ISR_put_task_LifterStart (b : SlaveBoot) (v : Bool) : SlaveBoot :=
  { sh := { b.sh with task_LifterStart := b.sh.task_LifterStart.ISR_put v }
    written := b.written ++ [SlaveVar.task_LifterStart] }

/-- The call `LifterArrived.ISR_put(v)`. -/
def ISR_put_LifterArrived (b : SlaveBoot) (v : Bool) : SlaveBoot :=
  { sh := { b.sh with LifterArrived := b.sh.LifterArrived.ISR_put v }
    written := b.written ++ [SlaveVar.LifterArrived] }

/-- The call `task_ClawStart.ISR_put(v)`. -/
def ISR_put_task_ClawStart (b : SlaveBoot) (v : Bool) : SlaveBoot :=
  { sh := { b.sh with task_ClawStart := b.sh.task_ClawStart.ISR_put v }
    written := b.written ++ [SlaveVar.task_ClawStart] }

/-- The call `ClawArrived.ISR_put(v)`. -/
def ISR_put_ClawArrived (b : SlaveBoot) (v : Bool) : SlaveBoot :=
  { sh := { b.sh with ClawArrived := b.sh.ClawArrived.ISR_put v }
    written := b.written ++ [SlaveVar.ClawArrived] }

/-- The call `task_TowerStart.ISR_put(v)`. -/
def ISR_put_task_TowerStart (b : SlaveBoot) (v : Bool) : SlaveBoot :=
  { sh := { b.sh with task_TowerStart := b.sh.task_TowerStart.ISR_put v }
    written := b.written ++ [SlaveVar.task_TowerStart] }

/-- The call `TowerArrived.ISR_put(v)`. -/
def ISR_put_TowerArrived (b : SlaveBoot) (v : Bool) : SlaveBoot :=
  { sh := { b.sh with TowerArrived := b.sh.TowerArrived.ISR_put v }
    written := b.written ++ [SlaveVar.TowerArrived] }

/-- The call `task_CommStart.ISR_put(v)`. -/
def ISR_put_task_CommStart (b : SlaveBoot) (v : Bool) : SlaveBoot :=
  { sh := { b.sh with task_CommStart := b.sh.task_CommStart.ISR_put v }
    written := b.written ++ [SlaveVar.task_CommStart] }

/-- The call `CommReady.ISR_put(v)`. -/
def ISR_put_CommReady (b : SlaveBoot) (v : Bool) : SlaveBoot :=
  { sh := { b.sh with CommReady := b.sh.CommReady.ISR_put v }
    written := b.written ++ [SlaveVar.CommReady] }

end SlaveBoot

namespace task_SlaveInit

/-- `void StartupHook(void)` of the slave. -/
def StartupHook (b : SlaveBoot) : SlaveBoot :=
  let b1 := b.ISR_put_task_SlaveMindStart false
  let b2 := b1.ISR_put_task_LifterStart false
  let b3 := b2.ISR_put_LifterArrived false
  let b4 := b3.ISR_put_task_ClawStart false
  let b5 := b4.ISR_put_ClawArrived false
  let b6 := b5.ISR_put_task_TowerStart false
  let b7 := b6.ISR_put_TowerArrived false
  let b8 := b7.ISR_put_task_CommStart false
  b8.ISR_put_CommReady false

end task_SlaveInit

/-- The master node while it starts: what the shared variables hold (before the first
write of a variable, whatever its storage holds) and the variables written so far, oldest
first. -/
structure MasterBoot where
  sh : MasterShares
  written : List MasterVar

namespace MasterBoot

/-- The call `task_MasterMindStart.ISR_put(v)`. -/
def ISR_put_task_MasterMindStart (b : MasterBoot) (v : Bool) : MasterBoot :=
  { sh := { b.sh with task_MasterMindStart := b.sh.task_MasterMindStart.ISR_put v }
    written := b.written ++ [MasterVar.task_MasterMindStart] }

/-- The call `task_CommStart.ISR_put(v)`. -/
def ISR_put_task_CommStart (b : MasterBoot) (v : Bool) : MasterBoot :=
  { sh := { b.sh with task_CommStart := b.sh.task_CommStart.ISR_put v }
    written := b.written ++ [MasterVar.task_CommStart] }

/-- The call `task_NavStart.ISR_put(v)`. -/
def ISR_put_task_NavStart (b : MasterBoot) (v : Bool) : MasterBoot :=
  { sh := { b.sh with task_NavStart := b.sh.task_NavStart.ISR_put v }
    written := b.written ++ [MasterVar.task_NavStart] }

end MasterBoot

namespace task_MasterInit

/-- `void StartupHook(void)` of the master. -/
def StartupHook (b : MasterBoot) : MasterBoot :=
  let b1 := b.ISR_put_task_MasterMindStart false
  let b2 := b1.ISR_put_task_CommStart false
  b2.ISR_put_task_NavStart false

end task_MasterInit

/-! ## Vocabulary for the statements about the master comm task -/

namespace task_MComm

open Master

/-- Whether an event is a write of the inbound slot: a `put` on `ShareMsgID` or on
`MsgReady2Get`. -/
def isPublish : Event → Bool
  | Event.put_ShareMsgID _ => true
  | Event.put_MsgReady2Get _ => true
  | _ => false

/-- The writes of the inbound slot in a record, oldest first. -/
def publishes (log : List Event) : List Event :=
  log.filter isPublish

end task_MComm

/-! ## Vocabulary for the statement about the command dispatch of the slave -/

namespace task_SlaveMind

/-- The sequencer with the shared variable `MsgReady2Get` holding `b` and everything else
as it is. -/
def withReady2Get (w : SlaveMindTask) (b : Bool) : SlaveMindTask :=
  { w with ctx := { w.ctx with sh := { w.ctx.sh with MsgReady2Get := { data := b } } } }

/-- Whether a write is a `put` on `MsgReady2Get`. -/
def isReady2GetWrite : SlaveWrite → Bool
  | SlaveWrite.MsgReady2Get _ => true
  | _ => false

end task_SlaveMind

/-! ## `Slave/task_Lifter.cpp`: `LifterConstructor` -/

namespace task_Lifter

/-- The loop `while (BaseTouch.isPressed() == true) sleep(1)` of `LifterConstructor`;
`readings` are the values successive calls of `isPressed()` return. The readings left over
are returned. -/
def waitReleased : List Bool → Outcome (List Bool)
  | [] => Outcome.waiting []
  | r :: rs => if r = true then waitReleased rs else Outcome.done rs

/-- The loop `while (BaseTouch.isPressed() == false) sleep(1)` of `LifterConstructor`. -/
def waitPressed : List Bool → Outcome (List Bool)
  | [] => Outcome.waiting []
  | r :: rs => if r = false then waitPressed rs else Outcome.done rs

/-- `void LifterConstructor(void)`; `readings` are the values successive calls of
`BaseTouch.isPressed()` return. `Lifter.reset()` stops the motor; the writes to the LCD are
left out. -/
def LifterConstructor (Lifter : Motor) (ctx : SlaveCtx) (readings : List Bool) :
    Outcome (Motor × SlaveCtx) :=
  let m1 : Motor := { Lifter with pwm := 0 }
  let m2 := m1.setPWM UP_MAX
  match waitReleased readings with
  | Outcome.waiting _ => Outcome.waiting (m2, ctx)
  | Outcome.done rs =>
    let m3 := m2.setPWM OFF
    let m4 := m3.setPWM DOWN_MAX
    match waitPressed rs with
    | Outcome.waiting _ => Outcome.waiting (m4, ctx)
    | Outcome.done _ =>
      let m5 : Motor := { m4 with pwm := 0 }
      let c1 := ctx.put_moveLifterAbs 0
      let c2 := c1.put_LifterArrived true
      Outcome.done (m5, c2)

end task_Lifter

/-! ## `Master/task_Navigation.cpp` -/

/-- Conversion of an integer value to `S16`. -/
def wrapS16 (z : Int) : Int := (z + 32768) % 65536 - 32768

/-- Conversion of a `double` to `S16`: truncation toward zero. -/
def truncS16 (q : ℚ) : Int := wrapS16 (Int.tdiv q.num q.den)

namespace Master

def NAV_IDLE : Nat := 0
def NAV_TO_SUPPLY : Nat := 1
def NAV_APPROACH_WALL : Nat := 2
def NAV_BACK_UP : Nat := 3
def NAV_TURN_AROUND : Nat := 4
def NAV_TO_SCORE : Nat := 5

end Master

namespace task_Navigation

open Master

def Kp_STRAIGHT : ℚ := 0.1
def Ki_STRAIGHT : Int := 1
def MIN_DELTA : Int := -10
def MAX_DELTA : Int := 10
def FORWARD_SPEED : Int := 25
def INCH2CM : ℚ := 2.54
def DIST_FROM_WALL : Int := 3
def BACK_DIST : Int := 9
def BACKUP_SPEED : Int := -20
def NUM_LOOPS : Nat := 15

/-- What the navigation task does besides driving the two wheel motors, in the order in
which it does it: its `put` calls, its calls of `goStraight` with their arguments, and its
tones. -/
inductive Event where
  | put_task_NavDone (v : Bool)
  | put_task_LFStart (v : Bool)
  | put_task_NavState (v : Nat)
  | goStraight (power : Int) (reset : Bool)
  | playTone (freq ms vol : Nat)
  deriving DecidableEq, Repr

/-- What `NavRun` and `goStraight` work on: the locals of `NavRun` that are carried from one
pass to the next, the function-local static `RLerror_sum` of `goStraight`, the two wheel
motors, the shared variables (with `task_NavDone`, which `Master/shares.hpp` does not
declare), and the record of what the task has done. The local `currentTime`, which every
pass overwrites before it is used, is not carried. -/
structure NavTask where
  curDist : Int
  stage : Nat
  firstPass : Bool
  power : Int
  error : Int
  error_sum : Int
  at_Wall : Nat
  loop_count : Nat
  RLerror_sum : Int
  RightWheel : Motor
  LeftWheel : Motor
  sh : MasterShares
  task_NavDone : TaskShare Bool
  log : List Event

/-- What one pass of `NavRun` reads from the hardware: the brightness `AuxLight` reports
when the pass tests it, the distance the sonar reports, the encoder counts the call
`goStraight(0, true)` of a first pass reads and those the other call of `goStraight` reads
(right, left), and what the storage of the locals `Rpow` and `Lpow` of `goStraight` holds
when it is entered. -/
structure NavInput where
  brightness : Nat
  distance : Int
  Rcount0 : Int
  Lcount0 : Int
  Rcount : Int
  Lcount : Int
  Rpow : Int
  Lpow : Int

/-- The state in which `NavRun` enters its loop; `power`, `error`, `error_sum`, `at_Wall`
and `curDist` are not initialised and hold what their storage holds. -/
def NavRun_init (curDist power error error_sum : Int) (at_Wall : Nat)
    (RightWheel LeftWheel : Motor) (sh : MasterShares) (task_NavDone : TaskShare Bool) :
    NavTask :=
  { curDist := curDist, stage := 0, firstPass := true, power := power, error := error,
    error_sum := error_sum, at_Wall := at_Wall, loop_count := 0, RLerror_sum := 0,
    RightWheel := RightWheel, LeftWheel := LeftWheel, sh := sh,
    task_NavDone := task_NavDone, log := [] }

/-- The call `task_LFStart.put(v)`. -/
def put_task_LFStart (w : NavTask) (v : Bool) : NavTask :=
  { w with sh := { w.sh with task_LFStart := w.sh.task_LFStart.put v }
           log := w.log ++ [Event.put_task_LFStart v] }

/-- The call `task_NavState.put(v)`. -/
def put_task_NavState (w : NavTask) (v : Nat) : NavTask :=
  { w with sh := { w.sh with task_NavState := w.sh.task_NavState.put v }
           log := w.log ++ [Event.put_task_NavState v] }

/-- The call `task_NavDone.put(v)`. -/
def put_task_NavDone (w : NavTask) (v : Bool) : NavTask :=
  { w with task_NavDone := w.task_NavDone.put v
           log := w.log ++ [Event.put_task_NavDone v] }

/-- The correction `deltaP` of `goStraight` after the two clamps: `Kp_STRAIGHT * RLerror` is
computed in `double`, `Ki_STRAIGHT * RLerror_sum / 1024` in `S32` (the division truncates),
and the sum is converted to `S32`. -/
def deltaP (RLerror RLerror_sum : Int) : Int :=
  let d0 := truncS32 (Kp_STRAIGHT * (RLerror : ℚ)
    + ((Int.tdiv (wrapS32 (Ki_STRAIGHT * RLerror_sum)) 1024 : Int) : ℚ))
  let d1 := if d0 > MAX_DELTA then MAX_DELTA else d0
  if d1 < MIN_DELTA then MIN_DELTA else d1

/-- `void goStraight(S8 power, bool reset = false)`; `Rcount` and `Lcount` are what the two
calls of `getCount()` return, `Rpow` and `Lpow` what the storage of the two locals of these
names holds on entry (they are assigned only when `power` is not 0). -/
def goStraight (w : NavTask) (power : Int) (reset : Bool) (Rcount Lcount Rpow Lpow : Int) :
    NavTask :=
  let w0 := { w with log := w.log ++ [Event.goStraight power reset] }
  let w1 := if reset = true then { w0 with RLerror_sum := 0 } else w0
  let RLerror := wrapS32 (Rcount - Lcount)
  let w2 := { w1 with RLerror_sum := wrapS32 (w1.RLerror_sum + RLerror) }
  let d := deltaP RLerror w2.RLerror_sum
  let p1 : Int × Int := if power > 0 then (power - d, power + d) else (Rpow, Lpow)
  let p2 : Int × Int := if power < 0 then (power + d, power - d) else p1
  let w3 := { w2 with RightWheel := w2.RightWheel.setPWM (wrapS8 p2.1) }
  { w3 with LeftWheel := w3.LeftWheel.setPWM (wrapS8 p2.2) }

/-- The block `if(firstPass == true) { ... }` of the cases `NAV_APPROACH_WALL` and
`NAV_BACK_UP`; `reset()` stops a motor. -/
def firstPassBlock (w : NavTask) (i : NavInput) : NavTask :=
  if w.firstPass = true then
    let a := { w with error := 0, error_sum := 0, at_Wall := 0 }
    let b := { a with RightWheel := { a.RightWheel with pwm := 0 } }
    let c := { b with LeftWheel := { b.LeftWheel with pwm := 0 } }
    let d := goStraight c 0 true i.Rcount0 i.Lcount0 i.Rpow i.Lpow
    { d with firstPass := false }
  else w

/-- The block `if (error <= 0) { ... }` that ends the cases `NAV_APPROACH_WALL` and
`NAV_BACK_UP`. -/
def stopBlock (w : NavTask) : NavTask :=
  if w.error ≤ 0 then
    let a := put_task_NavState w NAV_IDLE
    let b := { a with RightWheel := a.RightWheel.setPWM 0 }
    let c := { b with LeftWheel := b.LeftWheel.setPWM 0 }
    { c with log := c.log ++ [Event.playTone 500 50 20] }
  else w

/-- The `case NAV_TO_SUPPLY` of `NavRun`; `IDLE` is the value of the identifier `IDLE` the
case passes to `task_NavState.put`, which no file among the sources defines for
`task_Navigation.cpp`. -/
def case_NAV_TO_SUPPLY (IDLE : Nat) (w : NavTask) (i : NavInput) : NavTask :=
  match w.stage with
  | 0 =>
    let w1 := put_task_LFStart w true
    if toU8 i.brightness > 100 then
      let w2 := { w1 with stage := 1 }
      put_task_LFStart w2 false
    else w1
  | 1 =>
    let w1 := goStraight w 50 false i.Rcount i.Lcount i.Rpow i.Lpow
    let w2 := { w1 with loop_count := toU8 (w1.loop_count + 1) }
    if w2.loop_count > NUM_LOOPS then { w2 with stage := 2 } else w2
  | 2 =>
    let w1 := put_task_LFStart w true
    if toU8 i.brightness > 100 then
      let w2 := { w1 with stage := 0 }
      let w3 := put_task_LFStart w2 false
      put_task_NavState w3 (toU8 IDLE)
    else w1
  | _ => w

/-- The `case NAV_APPROACH_WALL` of `NavRun`. -/
def case_NAV_APPROACH_WALL (w : NavTask) (i : NavInput) : NavTask :=
  let w1 := firstPassBlock w i
  let w2 := { w1 with curDist := i.distance }
  let w3 := { w2 with
    error := truncS16 ((w2.curDist : ℚ) - (DIST_FROM_WALL : ℚ) * INCH2CM) }
  let w4 := goStraight w3 FORWARD_SPEED false i.Rcount i.Lcount i.Rpow i.Lpow
  stopBlock w4

/-- The `case NAV_BACK_UP` of `NavRun`. -/
def case_NAV_BACK_UP (w : NavTask) (i : NavInput) : NavTask :=
  let w1 := firstPassBlock w i
  let w2 := { w1 with curDist := i.distance }
  let w3 := { w2 with
    error := truncS16 ((BACK_DIST : ℚ) * INCH2CM - (w2.curDist : ℚ)) }
  let w4 := goStraight w3 BACKUP_SPEED false i.Rcount i.Lcount i.Rpow i.Lpow
  stopBlock w4

/-- One pass through the `while(true)` body of `NavRun`: the `switch` on
`task_NavState.get()`, in source order; the cases `NAV_TO_SCORE` and `NAV_TURN_AROUND` are
empty and the `switch` has no default. -/
def NavRun_cycle (IDLE : Nat) (w : NavTask) (i : NavInput) : NavTask :=
  if w.sh.task_NavState.get = NAV_IDLE then
    put_task_NavDone { w with firstPass := true } false
  else if w.sh.task_NavState.get = NAV_TO_SUPPLY then case_NAV_TO_SUPPLY IDLE w i
  else if w.sh.task_NavState.get = NAV_TO_SCORE then w
  else if w.sh.task_NavState.get = NAV_APPROACH_WALL then case_NAV_APPROACH_WALL w i
  else if w.sh.task_NavState.get = NAV_BACK_UP then case_NAV_BACK_UP w i
  else if w.sh.task_NavState.get = NAV_TURN_AROUND then w
  else w

/-- Several passes of the navigation task with no other task writing in between, one per
input. -/
def NavRun_cycles (IDLE : Nat) (w : NavTask) (inputs : List NavInput) : NavTask :=
  inputs.foldl (NavRun_cycle IDLE) w

/-- The call `task_NavState.put(v)` of another task, the master mind, between two passes of
the navigation task. -/
def command (w : NavTask) (v : Nat) : NavTask :=
  { w with sh := { w.sh with task_NavState := w.sh.task_NavState.put v } }

/-- What a pass reads when `AuxLight` reports a crossing (brightness 150) and the wheels
have not turned. -/
def crossing : NavInput :=
  { brightness := 150, distance := 0, Rcount0 := 0, Lcount0 := 0, Rcount := 0, Lcount := 0,
    Rpow := 0, Lpow := 0 }

/-- What a pass reads when `AuxLight` reports no crossing (brightness 20) and the wheels
have not turned. -/
def noCrossing : NavInput :=
  { brightness := 20, distance := 0, Rcount0 := 0, Lcount0 := 0, Rcount := 0, Lcount := 0,
    Rpow := 0, Lpow := 0 }

/-- The navigation task as it enters its loop with both motors at rest, zeros in the
locals that are not initialised, and `task_NavState` at `state`. -/
def startedAt (state : Nat) : NavTask :=
  NavRun_init 0 0 0 0 0 { pwm := 0, commands := [] } { pwm := 0, commands := [] }
    { MasterShares.allClear with task_NavState := { data := state } } { data := false }

/-- The base powers handed to `goStraight` in a record, oldest first. -/
def basePowers : List Event → List Int
  | [] => []
  | Event.goStraight power _ :: rest => power :: basePowers rest
  | _ :: rest => basePowers rest

end task_Navigation

/-! ## `Master/RobotClass.hpp`, `Master/RobotClass.cpp` -/

/-- Conversion of a non-negative `double` to `U8`: truncation toward zero. -/
def truncU8 (q : ℚ) : Nat := toU8 (Int.tdiv q.num q.den).toNat

/-- The struct `RobotClass::LocalData`. -/
structure LocalData where
  vel : Int
  pos_new : Int
  pos_old : Int

/-- The struct `RobotClass::RectData`. -/
structure RectData where
  x : Int
  y : Int
  xdot : Int
  ydot : Int
  theta : Int
  thetadot : Int

/-- The data members of `class RobotClass` (the two motor pointers apart: the counts read
through them are arguments of `Update`). -/
structure RobotClass where
  lData : LocalData
  rData : LocalData
  OldTime : Nat
  NewTime : Nat
  deltaTime : Nat
  BotData : RectData
  BotDataOld : RectData

namespace RobotClass

/-- Storage that holds zeros throughout. -/
def zeroed : RobotClass :=
  { lData := { vel := 0, pos_new := 0, pos_old := 0 }
    rData := { vel := 0, pos_new := 0, pos_old := 0 }
    OldTime := 0
    NewTime := 0
    deltaTime := 0
    BotData := { x := 0, y := 0, xdot := 0, ydot := 0, theta := 0, thetadot := 0 }
    BotDataOld := { x := 0, y := 0, xdot := 0, ydot := 0, theta := 0, thetadot := 0 } }

/-- `static const U8 WHEEL_RAD = 0.75;` -/
def WHEEL_RAD : Nat := truncU8 0.75

/-- `static const U8 WHEEL_BASE = 4.4;` -/
def WHEEL_BASE : Nat := truncU8 4.4

/-- `void RobotClass::Reset(void)`; `tick` is what `NNxt::getTick()` returns. -/
def Reset (r : RobotClass) (tick : Nat) : RobotClass :=
  let BotData : RectData := { x := 0, y := 0, xdot := 0, ydot := 0, theta := 0, thetadot := 0 }
  let lData : LocalData := { vel := 0, pos_old := 0, pos_new := 0 }
  { r with BotData := BotData, BotDataOld := BotData, lData := lData, rData := lData,
           NewTime := tick, OldTime := tick }

/-- `RobotClass::RobotClass(ecrobot::Motor*, ecrobot::Motor*)`; `uninit` is what the storage
of the object holds (the constructor does not assign `deltaTime`). -/
def new (uninit : RobotClass) (tick : Nat) : RobotClass :=
  let BotData : RectData := { x := 0, y := 0, xdot := 0, ydot := 0, theta := 0, thetadot := 0 }
  let lData : LocalData := { vel := 0, pos_old := 0, pos_new := 0 }
  { uninit with BotData := BotData, BotDataOld := BotData, lData := lData, rData := lData,
                NewTime := tick, OldTime := tick }

/-- `void RobotClass::Update(void)`; `tick` is what `NNxt::getTick()` returns, `Rcount` and
`Lcount` what the two calls of `getCount()` return, and `cos` and `sin` give the `double`
the library functions return for an angle. A quotient of an `S32` by the `U32` `deltaTime`
is an unsigned division; with `deltaTime` zero it is a division by zero, and the function
has no result. A product with a `double` is converted to `S32` by truncation. -/
def Update (r : RobotClass) (tick : Nat) (Rcount Lcount : Int) (cos sin : Int → ℚ) :
    Option RobotClass :=
  let r1 := { r with NewTime := tick }
  let r2 := { r1 with deltaTime := toU32 ((r1.NewTime : Int) - r1.OldTime) }
  let r3 := { r2 with rData := { r2.rData with pos_new := Rcount } }
  let r4 := { r3 with lData := { r3.lData with pos_new := Lcount } }
  if r4.deltaTime = 0 then none
  else
    let r5 := { r4 with rData := { r4.rData with
      vel := wrapS32 (toU32 (wrapS32 (r4.rData.pos_new - r4.rData.pos_old)) / r4.deltaTime) } }
    let r6 := { r5 with lData := { r5.lData with
      vel := wrapS32 (toU32 (wrapS32 (r5.lData.pos_new - r5.lData.pos_old)) / r5.deltaTime) } }
    let xdot := truncS32 (((wrapS32 ((WHEEL_RAD / 2 : Nat)
      * wrapS32 (r6.rData.vel + r6.lData.vel)) : Int) : ℚ) * cos r6.BotData.theta)
    let ydot := truncS32 (((wrapS32 ((WHEEL_RAD / 2 : Nat)
      * wrapS32 (r6.rData.vel + r6.lData.vel)) : Int) : ℚ) * sin r6.BotData.theta)
    let thetadot := wrapS32 ((WHEEL_RAD / WHEEL_BASE : Nat)
      * wrapS32 (r6.rData.vel - r6.lData.vel))
    let r7 := { r6 with BotData := { r6.BotData with
      xdot := xdot, ydot := ydot, thetadot := thetadot } }
    let x := wrapS32 (toU32 (r7.BotDataOld.xdot + toU32 (r7.BotData.xdot * r7.deltaTime)))
    let y := wrapS32 (toU32 (r7.BotDataOld.ydot + toU32 (r7.BotData.ydot * r7.deltaTime)))
    let theta := wrapS32
      (toU32 (r7.BotDataOld.thetadot + toU32 (r7.BotData.thetadot * r7.deltaTime)))
    let r8 := { r7 with BotData := { r7.BotData with x := x, y := y, theta := theta } }
    some { r8 with OldTime := r8.NewTime, BotDataOld := r8.BotData }

end RobotClass

/-! ## Theorems -/

/-- Writes by a loop over `List.range n` at offsets `base + i` leave other offsets alone and
put `f i` at offset `base + i`. -/
theorem foldl_store_range (f : Nat → Nat) (base : Nat) (n : Nat) (d : Nat → Nat) (j : Nat) :
    (List.range n).foldl (fun d i => store d (base + i) (f i)) d j
      = if base ≤ j ∧ j < base + n then f (j - base) else d j := by
  induction n with
  | zero =>
    have h : ¬ (base ≤ j ∧ j < base + 0) := by omega
    rw [if_neg h]
    rfl
  | succ n ih =>
    rw [List.range_succ, List.foldl_append]
    simp only [List.foldl_cons, List.foldl_nil, store]
    by_cases hj : j = base + n
    · subst hj
      simp
    · rw [if_neg hj, ih]
      by_cases h1 : base ≤ j ∧ j < base + n
      · have h2 : base ≤ j ∧ j < base + (n + 1) := ⟨h1.1, by omega⟩
        rw [if_pos h1, if_pos h2]
      · have h2 : ¬ (base ≤ j ∧ j < base + (n + 1)) := by
          intro h; apply h1; exact ⟨h.1, by omega⟩
        rw [if_neg h1, if_neg h2]

namespace MessageClass

/-- The buffer after `BuildMsg`, byte by byte: header, payload, and around them the result
of the `memset`. -/
theorem BuildMsg_MsgData (m : MessageClass) (payload : Nat → Nat) (dType dID L j : Nat) :
    (BuildMsg m payload dType dID L).1.MsgData j =
      if 3 ≤ j ∧ j < 3 + L then payload (j - 3)
      else if j = 0 then toU8 dType
      else if j = 1 then L
      else if j = 2 then toU8 dID
      else if j < m.BufferSize then 0 else m.MsgData j := by
  simp only [BuildMsg, HEADER_LENGTH]
  rw [foldl_store_range]
  by_cases h : 3 ≤ j ∧ j < 3 + L
  · rw [if_pos h, if_pos h]
  · rw [if_neg h, if_neg h]
    have hr : List.range 3 = [0, 1, 2] := by decide
    rw [hr]
    simp only [List.foldl_cons, List.foldl_nil, store, memset, RS485_Header.asbyte]
    by_cases h2 : j = 2
    · subst h2; simp
    · by_cases h1 : j = 1
      · subst h1; simp
      · by_cases h0 : j = 0
        · subst h0; simp
        · simp [h0, h1, h2]

/-- The header `DecodeMsg` reads is the first three bytes of the buffer. -/
theorem DecodeMsg_header (m : MessageClass) :
    (DecodeMsg m).2.dType = m.MsgData 0 ∧ (DecodeMsg m).2.len = m.MsgData 1 ∧
      (DecodeMsg m).2.dID = m.MsgData 2 ∧
      (DecodeMsg m).2.data = (List.range (m.MsgData 1)).map (fun i => m.MsgData (3 + i)) := by
  have hr : List.range 3 = [0, 1, 2] := by decide
  simp [DecodeMsg, HEADER_LENGTH, hr, RS485_Header.setByte]

/-- C1. Frame round trip: for a datatype and a dataID that fit a byte and a payload length
`L` with `L + 3 <= BufferSize`, `BuildMsg` followed by `DecodeMsg` on the same object gives
back the datatype, the dataID, `len = L` and a copy of `payload[0..L)`; the build wrote
nothing outside the buffer. -/
theorem C1_frame_round_trip (m : MessageClass) (payload : Nat → Nat)
    (dType : comDatatype) (dID : comDataID) (L : Nat)
    (hT : dType < 256) (hID : dID < 256) (hL : L + HEADER_LENGTH ≤ m.BufferSize) :
    (DecodeMsg (BuildMsg m payload dType dID L).1).2.dType = dType ∧
    (DecodeMsg (BuildMsg m payload dType dID L).1).2.dID = dID ∧
    (DecodeMsg (BuildMsg m payload dType dID L).1).2.len = L ∧
    (DecodeMsg (BuildMsg m payload dType dID L).1).2.data = (List.range L).map payload ∧
    (DecodeMsg (BuildMsg m payload dType dID L).1).1.MsgLen = L ∧
    (∀ j, m.BufferSize ≤ j → (BuildMsg m payload dType dID L).1.MsgData j = m.MsgData j) := by
  obtain ⟨h1, h2, h3, h4⟩ := DecodeMsg_header (BuildMsg m payload dType dID L).1
  have e0 : (BuildMsg m payload dType dID L).1.MsgData 0 = dType := by
    rw [BuildMsg_MsgData]; simp [toU8, Nat.mod_eq_of_lt hT]
  have e1 : (BuildMsg m payload dType dID L).1.MsgData 1 = L := by
    rw [BuildMsg_MsgData]; simp
  have e2 : (BuildMsg m payload dType dID L).1.MsgData 2 = dID := by
    rw [BuildMsg_MsgData]; simp [toU8, Nat.mod_eq_of_lt hID]
  refine ⟨by rw [h1, e0], by rw [h3, e2], by rw [h2, e1], ?_, ?_, ?_⟩
  · rw [h4, e1]
    apply List.map_congr_left
    intro i hi
    have hi2 : i < L := List.mem_range.mp hi
    rw [BuildMsg_MsgData]
    have hc : 3 ≤ 3 + i ∧ 3 + i < 3 + L := by omega
    rw [if_pos hc]
    congr 1
    omega
  · show (DecodeMsg (BuildMsg m payload dType dID L).1).2.len = L
    rw [h2, e1]
  · intro j hj
    rw [BuildMsg_MsgData]
    simp only [HEADER_LENGTH] at hL
    have hc : ¬ (3 ≤ j ∧ j < 3 + L) := by omega
    rw [if_neg hc, if_neg (by omega), if_neg (by omega), if_neg (by omega), if_neg (by omega)]

/-- C1 at the default buffer of 15 bytes with the longest payload, 12 bytes. -/
theorem C1_frame_round_trip_witness :
    typeU8 < 256 ∧ idGrabRings < 256 ∧ 12 + HEADER_LENGTH ≤ (new zeroed).BufferSize ∧
    (DecodeMsg (BuildMsg (new zeroed) (fun i => 7 * i + 1) typeU8 idGrabRings 12).1).2.dType
      = typeU8 ∧
    (DecodeMsg (BuildMsg (new zeroed) (fun i => 7 * i + 1) typeU8 idGrabRings 12).1).2.dID
      = idGrabRings ∧
    (DecodeMsg (BuildMsg (new zeroed) (fun i => 7 * i + 1) typeU8 idGrabRings 12).1).2.len
      = 12 ∧
    (DecodeMsg (BuildMsg (new zeroed) (fun i => 7 * i + 1) typeU8 idGrabRings 12).1).2.data
      = [1, 8, 15, 22, 29, 36, 43, 50, 57, 64, 71, 78] :=
  have h := C1_frame_round_trip (new zeroed) (fun i => 7 * i + 1) typeU8 idGrabRings 12
    (by decide) (by decide) (by decide)
  ⟨by decide, by decide, by decide, h.1, h.2.1, h.2.2.1, h.2.2.2.1.trans (by decide)⟩

/-- C2, counterexample. `idWakeMsg` is received successfully (it was the only pending
byte); of the two calls that follow with no new byte available, neither returns
`idWakeMsg`: both return `idNoMsg`. -/
theorem C2_counterexample :
    idWakeMsg ≠ idNoMsg ∧
    (GetMsgSimple zeroed { rx := [idWakeMsg], tx := [] }).2.2 = idWakeMsg ∧
    (GetMsgSimple zeroed { rx := [idWakeMsg], tx := [] }).2.1.rx = [] ∧
    (GetMsgSimple (GetMsgSimple zeroed { rx := [idWakeMsg], tx := [] }).1
      { rx := [], tx := [] }).2.2 ≠ idWakeMsg ∧
    (GetMsgSimple
      (GetMsgSimple (GetMsgSimple zeroed { rx := [idWakeMsg], tx := [] }).1
        { rx := [], tx := [] }).1
      { rx := [], tx := [] }).2.2 ≠ idWakeMsg := by
  decide

/-- C2, amended. When `GetMsgSimple` receives the single pending byte `X`, that call returns
`X` and empties the channel; every later call made while the channel is still empty, the
next two in particular, returns `idNoMsg`, whatever `X` was: an id is returned by the call
that received it and by no later one. -/
theorem C2_no_memoization (m : MessageClass) (c : Rs485) (X : comDataID)
    (hrx : c.rx = [X]) :
    (GetMsgSimple m c).2.2 = X ∧
    (GetMsgSimple m c).2.1.rx = [] ∧
    (GetMsgSimple (GetMsgSimple m c).1 (GetMsgSimple m c).2.1).2.2 = idNoMsg ∧
    (GetMsgSimple (GetMsgSimple m c).1 (GetMsgSimple m c).2.1).2.1.rx = [] ∧
    (GetMsgSimple (GetMsgSimple (GetMsgSimple m c).1 (GetMsgSimple m c).2.1).1
      (GetMsgSimple (GetMsgSimple m c).1 (GetMsgSimple m c).2.1).2.1).2.2 = idNoMsg := by
  simp [GetMsgSimple, Rs485.receive, hrx]

/-- C2, amended, at the channel holding the single byte `idInitDone`. -/
theorem C2_no_memoization_witness :
    (GetMsgSimple zeroed { rx := [idInitDone], tx := [] }).2.2 = idInitDone ∧
    (GetMsgSimple (GetMsgSimple zeroed { rx := [idInitDone], tx := [] }).1
      (GetMsgSimple zeroed { rx := [idInitDone], tx := [] }).2.1).2.2 = idNoMsg :=
  have h := C2_no_memoization zeroed { rx := [idInitDone], tx := [] } idInitDone rfl
  ⟨h.1, h.2.2.1⟩

/-- C3, counterexample. The stored id is `idAckMsg`; a call of `GetMsgSimple` with no byte
available changes what `GetMsgDataSimple` and `isEmptySimple` report. -/
theorem C3_counterexample :
    GetMsgDataSimple { zeroed with SimpleID := idAckMsg } = idAckMsg ∧
    isEmptySimple { zeroed with SimpleID := idAckMsg } = false ∧
    (GetMsgSimple { zeroed with SimpleID := idAckMsg } { rx := [], tx := [] }).2.2 = idNoMsg ∧
    GetMsgDataSimple
      (GetMsgSimple { zeroed with SimpleID := idAckMsg } { rx := [], tx := [] }).1
        ≠ GetMsgDataSimple { zeroed with SimpleID := idAckMsg } ∧
    isEmptySimple
      (GetMsgSimple { zeroed with SimpleID := idAckMsg } { rx := [], tx := [] }).1
        ≠ isEmptySimple { zeroed with SimpleID := idAckMsg } := by
  decide

/-- C3, amended. When the one-byte receive of `GetMsgSimple` fails (no byte is available),
the call returns `idNoMsg` and stores `idNoMsg` as the last id: afterwards
`GetMsgDataSimple` returns `idNoMsg` and `isEmptySimple` returns true, whatever they
reported before; nothing else of the object and nothing of the channel changes. -/
theorem C3_failed_receive_resets (m : MessageClass) (c : Rs485) (hrx : c.rx = []) :
    (GetMsgSimple m c).2.2 = idNoMsg ∧
    GetMsgDataSimple (GetMsgSimple m c).1 = idNoMsg ∧
    isEmptySimple (GetMsgSimple m c).1 = true ∧
    (GetMsgSimple m c).1 = clearDataSimple m ∧
    (GetMsgSimple m c).2.1.rx = [] ∧ (GetMsgSimple m c).2.1.tx = c.tx := by
  simp [GetMsgSimple, Rs485.receive, hrx, GetMsgDataSimple, isEmptySimple, clearDataSimple]

/-- C3, amended, at an object whose stored id is `idGrabbedRings`. -/
theorem C3_failed_receive_resets_witness :
    (GetMsgSimple { zeroed with SimpleID := idGrabbedRings } { rx := [], tx := [7] }).2.2
      = idNoMsg ∧
    GetMsgDataSimple
      (GetMsgSimple { zeroed with SimpleID := idGrabbedRings } { rx := [], tx := [7] }).1
      = idNoMsg ∧
    isEmptySimple
      (GetMsgSimple { zeroed with SimpleID := idGrabbedRings } { rx := [], tx := [7] }).1
      = true :=
  have h := C3_failed_receive_resets { zeroed with SimpleID := idGrabbedRings }
    { rx := [], tx := [7] } rfl
  ⟨h.1, h.2.1, h.2.2.1⟩

/-- C4. Simple-message round trip. The enumerators of `comDataID` have the wire values
0, 1, 2, 3, 10..13, 50..53 and fit a byte. For every id that fits a byte,
`SendMsgSimple id` hands the transport exactly one byte, of value `id`, and changes nothing
else; and when that byte is the next pending byte of a channel, `GetMsgSimple` consumes
exactly it and returns `id`, `GetMsgDataSimple` then returns `id`, and `isEmptySimple` is
false exactly when `id` is not `idNoMsg`. -/
theorem C4_simple_round_trip (id : comDataID) (hid : id < 256) :
    comDataID_enumerators = [0, 1, 2, 3, 10, 11, 12, 13, 50, 51, 52, 53] ∧
    (∀ e ∈ comDataID_enumerators, e < 256) ∧
    (∀ (m : MessageClass) (c : Rs485),
      (SendMsgSimple m c id).2.tx = c.tx ++ [id] ∧
      (SendMsgSimple m c id).2.rx = c.rx ∧
      (SendMsgSimple m c id).1 = m) ∧
    (∀ (m : MessageClass) (c : Rs485) (rest : List Nat), c.rx = id :: rest →
      (GetMsgSimple m c).2.2 = id ∧
      (GetMsgSimple m c).2.1.rx = rest ∧
      GetMsgDataSimple (GetMsgSimple m c).1 = id ∧
      (isEmptySimple (GetMsgSimple m c).1 = false ↔ id ≠ idNoMsg)) := by
  refine ⟨by decide, by decide, ?_, ?_⟩
  · intro m c
    simp [SendMsgSimple, Rs485.send, toU8, Nat.mod_eq_of_lt hid]
  · intro m c rest hrx
    simp [GetMsgSimple, Rs485.receive, hrx, GetMsgDataSimple, isEmptySimple]

/-- C4 at `idPlacedRings`, sent over an idle channel and received from a channel on which
it is the only pending byte. -/
theorem C4_simple_round_trip_witness :
    idPlacedRings < 256 ∧
    (SendMsgSimple zeroed { rx := [], tx := [] } idPlacedRings).2.tx = [53] ∧
    (GetMsgSimple zeroed { rx := [53], tx := [] }).2.2 = idPlacedRings ∧
    GetMsgDataSimple (GetMsgSimple zeroed { rx := [53], tx := [] }).1 = idPlacedRings :=
  have h := C4_simple_round_trip idPlacedRings (by decide)
  ⟨by decide, (h.2.2.1 zeroed { rx := [], tx := [] }).1,
    (h.2.2.2 zeroed { rx := [53], tx := [] } [] rfl).1,
    (h.2.2.2 zeroed { rx := [53], tx := [] } [] rfl).2.2.1⟩

end MessageClass

namespace task_Claw

/-- C5, counterexample. A claw cycle in `CHECKTOUCH` with the touch sensor reading pressed:
the next state is `OPENING`. -/
theorem C5_counterexample :
    (ClawRun_cycle
      { state := state_t.CHECKTOUCH, Claw := { pwm := HOLDING_SPEED, commands := [] },
        ctx := { sh := SlaveShares.allClear, writes := [] } } true).state = state_t.OPENING := by
  decide

/-- C5, amended. For every claw cycle executed in `CHECKTOUCH`: while the touch sensor reads
released the state stays `CHECKTOUCH` and opening power is commanded; when it reads pressed
the state becomes `OPENING` and no motor command is issued; in neither case is a shared
variable written. So `CHECKTOUCH` moves to `OPENING` exactly when the sensor reads pressed.
`OPENING` in turn commands opening power, stays while the sensor reads pressed, and moves
to `OPEN` (motor off, `ClawArrived` put true) once it reads released. -/
theorem C5_checktouch_waits_for_press (w : ClawTask) (pressed : Bool) :
    (w.state = state_t.CHECKTOUCH →
      ((ClawRun_cycle w pressed).state = state_t.OPENING ↔ pressed = true) ∧
      (pressed = false →
        (ClawRun_cycle w pressed).state = state_t.CHECKTOUCH ∧
        (ClawRun_cycle w pressed).Claw.pwm = OPENING_SPEED ∧
        (ClawRun_cycle w pressed).Claw.commands = w.Claw.commands ++ [OPENING_SPEED]) ∧
      (pressed = true → (ClawRun_cycle w pressed).Claw = w.Claw) ∧
      (ClawRun_cycle w pressed).ctx = w.ctx) ∧
    (w.state = state_t.OPENING →
      (pressed = true →
        (ClawRun_cycle w pressed).state = state_t.OPENING ∧
        (ClawRun_cycle w pressed).Claw.pwm = OPENING_SPEED ∧
        (ClawRun_cycle w pressed).ctx = w.ctx) ∧
      (pressed = false →
        (ClawRun_cycle w pressed).state = state_t.OPEN ∧
        (ClawRun_cycle w pressed).Claw.pwm = OFF ∧
        (ClawRun_cycle w pressed).ctx = w.ctx.put_ClawArrived true)) := by
  constructor
  · intro h
    cases pressed <;> simp [ClawRun_cycle, h, Motor.setPWM]
  · intro h
    cases pressed <;> simp [ClawRun_cycle, h, Motor.setPWM]

/-- C5, amended, at a claw in `CHECKTOUCH` whose sensor reads released. -/
theorem C5_checktouch_waits_for_press_witness :
    (ClawRun_cycle
      { state := state_t.CHECKTOUCH, Claw := { pwm := HOLDING_SPEED, commands := [] },
        ctx := { sh := SlaveShares.allClear, writes := [] } } false).state
      = state_t.CHECKTOUCH ∧
    (ClawRun_cycle
      { state := state_t.CHECKTOUCH, Claw := { pwm := HOLDING_SPEED, commands := [] },
        ctx := { sh := SlaveShares.allClear, writes := [] } } false).Claw.pwm
      = OPENING_SPEED :=
  have h := (C5_checktouch_waits_for_press
    { state := state_t.CHECKTOUCH, Claw := { pwm := HOLDING_SPEED, commands := [] },
      ctx := { sh := SlaveShares.allClear, writes := [] } } false).1 rfl
  ⟨(h.2.1 rfl).1, (h.2.1 rfl).2.1⟩

/-- C6. The claw leaves a rest state only on the opposite command. From `CLOSED` the next
state is never `CLOSING`; it is `CHECKTOUCH` (with `ClawArrived` put false) when `moveClaw`
reads `OPENCLAW`, and for every other value of `moveClaw` the state stays `CLOSED` and no
shared variable is written. From `OPEN` the next state is `CLOSING` (with `ClawArrived` put
false) when `moveClaw` reads `CLOSECLAW`, and for every other value the state stays `OPEN`
and no shared variable is written. The reading of the touch sensor plays no part. -/
theorem C6_rest_states_need_command (w : ClawTask) (pressed : Bool) :
    (w.state = state_t.CLOSED →
      (ClawRun_cycle w pressed).state ≠ state_t.CLOSING ∧
      ((ClawRun_cycle w pressed).state ≠ state_t.CLOSED →
        w.ctx.sh.moveClaw.get = OPENCLAW) ∧
      (w.ctx.sh.moveClaw.get = OPENCLAW →
        (ClawRun_cycle w pressed).state = state_t.CHECKTOUCH ∧
        (ClawRun_cycle w pressed).ctx = w.ctx.put_ClawArrived false) ∧
      (w.ctx.sh.moveClaw.get ≠ OPENCLAW →
        (ClawRun_cycle w pressed).state = state_t.CLOSED ∧
        (ClawRun_cycle w pressed).ctx = w.ctx ∧
        (ClawRun_cycle w pressed).ctx.sh.ClawArrived.get = w.ctx.sh.ClawArrived.get)) ∧
    (w.state = state_t.OPEN →
      ((ClawRun_cycle w pressed).state ≠ state_t.OPEN →
        w.ctx.sh.moveClaw.get = CLOSECLAW) ∧
      (w.ctx.sh.moveClaw.get = CLOSECLAW →
        (ClawRun_cycle w pressed).state = state_t.CLOSING ∧
        (ClawRun_cycle w pressed).ctx = w.ctx.put_ClawArrived false) ∧
      (w.ctx.sh.moveClaw.get ≠ CLOSECLAW →
        (ClawRun_cycle w pressed).state = state_t.OPEN ∧
        (ClawRun_cycle w pressed).ctx = w.ctx ∧
        (ClawRun_cycle w pressed).ctx.sh.ClawArrived.get = w.ctx.sh.ClawArrived.get)) ∧
    ((w.state = state_t.CLOSED ∨ w.state = state_t.OPEN) →
      ClawRun_cycle w pressed = ClawRun_cycle w (!pressed)) := by
  refine ⟨?_, ?_, ?_⟩
  · intro h
    by_cases hc : w.ctx.sh.moveClaw.get = OPENCLAW <;> simp [ClawRun_cycle, h, hc]
  · intro h
    by_cases hc : w.ctx.sh.moveClaw.get = CLOSECLAW <;> simp [ClawRun_cycle, h, hc]
  · intro h
    rcases h with h | h <;> simp [ClawRun_cycle, h]

/-- C6 at a closed claw that is commanded to close again while the sensor reads pressed:
it stays `CLOSED`. -/
theorem C6_rest_states_need_command_witness :
    (ClawRun_cycle
      { state := state_t.CLOSED, Claw := { pwm := HOLDING_SPEED, commands := [] },
        ctx := { sh := { SlaveShares.allClear with
                          moveClaw := { data := CLOSECLAW }, ClawArrived := { data := true } },
                 writes := [] } } true).state = state_t.CLOSED ∧
    (ClawRun_cycle
      { state := state_t.CLOSED, Claw := { pwm := HOLDING_SPEED, commands := [] },
        ctx := { sh := { SlaveShares.allClear with
                          moveClaw := { data := CLOSECLAW }, ClawArrived := { data := true } },
                 writes := [] } } true).ctx.sh.ClawArrived.get = true :=
  have h := ((C6_rest_states_need_command
    { state := state_t.CLOSED, Claw := { pwm := HOLDING_SPEED, commands := [] },
      ctx := { sh := { SlaveShares.allClear with
                        moveClaw := { data := CLOSECLAW }, ClawArrived := { data := true } },
               writes := [] } } true).1 rfl).2.2.2 (by decide)
  ⟨h.1, h.2.2⟩

end task_Claw

namespace task_Lifter

/-- A difference that fits `S32` is not changed by the conversion to `S32`. -/
theorem wrapS32_of_fits (z : Int) (h1 : -2147483648 ≤ z) (h2 : z < 2147483648) :
    wrapS32 z = z := by
  unfold wrapS32
  omega

/-- On a difference whose absolute value fits `S32`, the error the task computes is the
difference itself and `std::abs` gives its absolute value. -/
theorem abs_error_of_fits (z : Int) (h1 : -2147483648 < z) (h2 : z < 2147483648) :
    std.abs (wrapS32 z) = |z| := by
  rw [wrapS32_of_fits z (le_of_lt h1) h2]
  unfold std.abs wrapS32
  rcases abs_cases z with ⟨h, _⟩ | ⟨h, _⟩ <;> rw [h] <;> omega

/-- At the one difference that fits `S32` while its absolute value does not, `std::abs`
gives a negative result, which is below `CLOSE_ENOUGH`. -/
theorem abs_error_edge :
    std.abs (wrapS32 (-2147483648)) = -2147483648 ∧
    std.abs (wrapS32 (-2147483648)) < CLOSE_ENOUGH := by
  have h : std.abs (wrapS32 (-2147483648)) = -2147483648 := by
    norm_num [std.abs, wrapS32]
  exact ⟨h, by rw [h]; decide⟩

/-- The count of consecutive samples within tolerance after one more sample. -/
theorem consecutive_append (xs : List (Int × Int)) (x : Int × Int) :
    consecutive (xs ++ [x]) = if inTolerance x = true then consecutive xs + 1 else 0 := by
  unfold consecutive
  rw [List.reverse_append]
  by_cases h : inTolerance x = true
  · simp [List.takeWhile, h]
  · simp [List.takeWhile, h]

/-- Running one more sample is one more pass. -/
theorem LifterRun_cycles_append (w : LifterTask) (xs : List (Int × Int)) (x : Int × Int) :
    LifterRun_cycles w (xs ++ [x]) = LifterRun_step (LifterRun_cycles w xs) x := by
  simp [LifterRun_cycles, List.foldl_append]

/-- Passes in `MOVING` with the target -2147483648 and the encoder at 0, where the result
of `std::abs` is negative: each passes the test against `CLOSE_ENOUGH`, so that five of
them leave the lifter in `MOVING` and the sixth declares the motion complete. -/
theorem LifterRun_cycles_at_edge :
    (LifterRun_cycles
      { LifterRun_init { pwm := 0, commands := [] }
          { sh := SlaveShares.allClear, writes := [] } with state := state_t.MOVING }
      (List.replicate 5 (-2147483648, 0))).state = state_t.MOVING ∧
    (LifterRun_cycles
      { LifterRun_init { pwm := 0, commands := [] }
          { sh := SlaveShares.allClear, writes := [] } with state := state_t.MOVING }
      (List.replicate 6 (-2147483648, 0))).state = state_t.IDLE := by
  constructor <;> decide

/-- One pass in `MOVING` on a sample within tolerance, the counter being at most
`LONG_ENOUGH`: the counter goes up by one, and the motion is declared complete exactly
when the counter was at `LONG_ENOUGH`. -/
theorem LifterRun_step_inTolerance (w : LifterTask) (s : Int × Int)
    (hst : w.state = state_t.MOVING) (hat : w.at_dPos ≤ LONG_ENOUGH)
    (h1 : -2147483648 < s.1 - s.2) (h2 : s.1 - s.2 < 2147483648)
    (hin : inTolerance s = true) :
    (w.at_dPos = LONG_ENOUGH →
      (LifterRun_step w s).state = state_t.IDLE ∧
      (LifterRun_step w s).ctx.writes = w.ctx.writes ++ [SlaveWrite.LifterArrived true] ∧
      (LifterRun_step w s).ctx.sh.LifterArrived.get = true) ∧
    (w.at_dPos < LONG_ENOUGH →
      (LifterRun_step w s).state = state_t.MOVING ∧
      (LifterRun_step w s).at_dPos = w.at_dPos + 1 ∧
      (LifterRun_step w s).ctx.writes = w.ctx.writes ∧
      (LifterRun_step w s).ctx.sh.LifterArrived.get = w.ctx.sh.LifterArrived.get) := by
  have hin2 : std.abs (wrapS32 (s.1 - s.2)) < CLOSE_ENOUGH := by
    rw [abs_error_of_fits _ h1 h2]
    simpa [inTolerance] using hin
  simp only [LONG_ENOUGH] at hat
  constructor
  · intro h5
    simp only [LONG_ENOUGH] at h5
    simp [LifterRun_step, LifterRun_cycle, hst, TaskShare.put, TaskShare.get, hin2, h5,
      toU8, LONG_ENOUGH, SlaveCtx.put_LifterArrived]
  · intro h5
    simp only [LONG_ENOUGH] at h5
    have hmod : (w.at_dPos + 1) % 256 = w.at_dPos + 1 := by omega
    have hle : ¬ (5 < w.at_dPos + 1) := by omega
    simp [LifterRun_step, LifterRun_cycle, hst, TaskShare.put, TaskShare.get, hin2,
      toU8, LONG_ENOUGH, hmod, hle]

/-- One pass in `MOVING` on a sample out of tolerance: the counter is reset to zero and the
motion goes on. -/
theorem LifterRun_step_outOfTolerance (w : LifterTask) (s : Int × Int)
    (hst : w.state = state_t.MOVING)
    (h1 : -2147483648 < s.1 - s.2) (h2 : s.1 - s.2 < 2147483648)
    (hout : inTolerance s = false) :
    (LifterRun_step w s).state = state_t.MOVING ∧
    (LifterRun_step w s).at_dPos = 0 ∧
    (LifterRun_step w s).ctx.writes = w.ctx.writes ∧
    (LifterRun_step w s).ctx.sh.LifterArrived.get = w.ctx.sh.LifterArrived.get := by
  have hout2 : ¬ std.abs (wrapS32 (s.1 - s.2)) < CLOSE_ENOUGH := by
    rw [abs_error_of_fits _ h1 h2]
    simpa [inTolerance] using hout
  simp [LifterRun_step, LifterRun_cycle, hst, TaskShare.put, TaskShare.get, hout2,
    LONG_ENOUGH]

/-- The pass that finds a new target in `IDLE` enters `MOVING` with the counter at zero and
`LifterArrived` put false. -/
theorem LifterRun_step_enter (w : LifterTask) (first : Int × Int)
    (hidle : w.state = state_t.IDLE) (hnew : first.1 ≠ w.oPos) :
    (LifterRun_step w first).state = state_t.MOVING ∧
    (LifterRun_step w first).at_dPos = 0 ∧
    (LifterRun_step w first).ctx.sh.LifterArrived.get = false ∧
    (LifterRun_step w first).ctx.writes = w.ctx.writes ++ [SlaveWrite.LifterArrived false] := by
  simp [LifterRun_step, LifterRun_cycle, hidle, hnew, TaskShare.put, TaskShare.get,
    SlaveCtx.put_LifterArrived]

/-- While no run of more than `LONG_ENOUGH` consecutive samples within tolerance has
occurred, the lifter stays in `MOVING`, its counter is the number of consecutive samples
within tolerance, and it writes nothing. -/
theorem LifterRun_cycles_moving (w : LifterTask) (samples : List (Int × Int))
    (hst : w.state = state_t.MOVING) (hat : w.at_dPos = 0)
    (hfits : ∀ x ∈ samples, -2147483648 < x.1 - x.2 ∧ x.1 - x.2 < 2147483648)
    (hno : ∀ n, n ≤ samples.length → consecutive (samples.take n) ≤ LONG_ENOUGH) :
    (LifterRun_cycles w samples).state = state_t.MOVING ∧
    (LifterRun_cycles w samples).at_dPos = consecutive samples ∧
    (LifterRun_cycles w samples).ctx.writes = w.ctx.writes ∧
    (LifterRun_cycles w samples).ctx.sh.LifterArrived.get = w.ctx.sh.LifterArrived.get := by
  induction samples using List.reverseRecOn with
  | nil => exact ⟨hst, by simpa [consecutive, LifterRun_cycles] using hat, rfl, rfl⟩
  | append_singleton xs x ih =>
    have hfits2 : ∀ y ∈ xs, -2147483648 < y.1 - y.2 ∧ y.1 - y.2 < 2147483648 :=
      fun y hy => hfits y (List.mem_append_left _ hy)
    have hno2 : ∀ n, n ≤ xs.length → consecutive (xs.take n) ≤ LONG_ENOUGH := by
      intro n hn
      have h := hno n (by simp; omega)
      rwa [List.take_append_of_le_length hn] at h
    obtain ⟨i1, i2, i3, i4⟩ := ih hfits2 hno2
    have hx := hfits x (by simp)
    have hall := hno (xs ++ [x]).length (le_refl _)
    rw [List.take_length, consecutive_append] at hall
    rw [LifterRun_cycles_append, consecutive_append]
    by_cases hin : inTolerance x = true
    · rw [if_pos hin] at hall
      have hlt : (LifterRun_cycles w xs).at_dPos < LONG_ENOUGH := by omega
      obtain ⟨j1, j2, j3, j4⟩ :=
        (LifterRun_step_inTolerance _ x i1 (by omega) hx.1 hx.2 hin).2 hlt
      rw [if_pos hin]
      exact ⟨j1, by rw [j2, i2], by rw [j3, i3], by rw [j4, i4]⟩
    · have hout : inTolerance x = false := by simpa using hin
      obtain ⟨j1, j2, j3, j4⟩ := LifterRun_step_outOfTolerance _ x i1 hx.1 hx.2 hout
      rw [if_neg hin]
      exact ⟨j1, j2, by rw [j3, i3], by rw [j4, i4]⟩

/-- C7. Lifter debounce. The lifter is in `IDLE` and finds a new target (`first`), which
enters `MOVING`. Then come the samples `samples` (target and encoder count of each pass,
the difference and its absolute value fitting `S32`, so that neither the subtraction nor
`std::abs` overflows), among which no run of more than `LONG_ENOUGH` consecutive samples
within `CLOSE_ENOUGH` has occurred, and then the sample `s`. Up to `s` the lifter
is still `MOVING`, `LifterArrived` is false and the counter equals the number of
consecutive samples within tolerance. The pass on `s` puts `LifterArrived` true exactly
when the number of consecutive samples within tolerance, `s` included, exceeds
`LONG_ENOUGH`, and then that number is 6; otherwise it writes nothing, stays `MOVING`, and
its counter is that number, which is zero when `s` is out of tolerance. In particular a
count of one never sets the flag. -/
theorem C7_lifter_debounce (w : LifterTask) (first : Int × Int) (samples : List (Int × Int))
    (s : Int × Int)
    (hidle : w.state = state_t.IDLE) (hnew : first.1 ≠ w.oPos)
    (hfits : ∀ x ∈ samples ++ [s], -2147483648 < x.1 - x.2 ∧ x.1 - x.2 < 2147483648)
    (hno : ∀ n, n ≤ samples.length → consecutive (samples.take n) ≤ LONG_ENOUGH) :
    (LifterRun_cycles w (first :: samples)).state = state_t.MOVING ∧
    (LifterRun_cycles w (first :: samples)).at_dPos = consecutive samples ∧
    (LifterRun_cycles w (first :: samples)).ctx.sh.LifterArrived.get = false ∧
    ((LifterRun_cycles w (first :: (samples ++ [s]))).ctx.sh.LifterArrived.get = true ↔
      LONG_ENOUGH < consecutive (samples ++ [s])) ∧
    (LONG_ENOUGH < consecutive (samples ++ [s]) →
      consecutive (samples ++ [s]) = 6 ∧
      (LifterRun_cycles w (first :: (samples ++ [s]))).state = state_t.IDLE ∧
      (LifterRun_cycles w (first :: (samples ++ [s]))).ctx.writes =
        (LifterRun_cycles w (first :: samples)).ctx.writes ++ [SlaveWrite.LifterArrived true]) ∧
    (consecutive (samples ++ [s]) ≤ LONG_ENOUGH →
      (LifterRun_cycles w (first :: (samples ++ [s]))).state = state_t.MOVING ∧
      (LifterRun_cycles w (first :: (samples ++ [s]))).at_dPos = consecutive (samples ++ [s]) ∧
      (LifterRun_cycles w (first :: (samples ++ [s]))).ctx.writes =
        (LifterRun_cycles w (first :: samples)).ctx.writes) ∧
    (inTolerance s = false →
      consecutive (samples ++ [s]) = 0 ∧
      (LifterRun_cycles w (first :: (samples ++ [s]))).at_dPos = 0) ∧
    (consecutive (samples ++ [s]) = 1 →
      (LifterRun_cycles w (first :: (samples ++ [s]))).ctx.sh.LifterArrived.get = false) := by
  obtain ⟨e1, e2, e3, _⟩ := LifterRun_step_enter w first hidle hnew
  have hfits2 : ∀ y ∈ samples, -2147483648 < y.1 - y.2 ∧ y.1 - y.2 < 2147483648 :=
    fun y hy => hfits y (List.mem_append_left _ hy)
  have hs := hfits s (by simp)
  have hrun : ∀ l, LifterRun_cycles w (first :: l) = LifterRun_cycles (LifterRun_step w first) l :=
    fun l => rfl
  obtain ⟨i1, i2, i3, i4⟩ := LifterRun_cycles_moving (LifterRun_step w first) samples e1 e2
    hfits2 hno
  have hlast : LifterRun_cycles w (first :: (samples ++ [s])) =
      LifterRun_step (LifterRun_cycles w (first :: samples)) s := by
    rw [hrun, hrun, LifterRun_cycles_append]
  rw [hlast, hrun samples, consecutive_append]
  have hle := hno samples.length (le_refl _)
  rw [List.take_length] at hle
  have hat : (LifterRun_cycles (LifterRun_step w first) samples).at_dPos ≤ LONG_ENOUGH := by
    rw [i2]; exact hle
  have hfalse : (LifterRun_cycles (LifterRun_step w first) samples).ctx.sh.LifterArrived.get
      = false := by rw [i4, e3]
  refine ⟨i1, i2, hfalse, ?_⟩
  by_cases hin : inTolerance s = true
  · obtain ⟨k1, k2⟩ := LifterRun_step_inTolerance _ s i1 hat hs.1 hs.2 hin
    simp only [if_pos hin]
    by_cases h5 : (LifterRun_cycles (LifterRun_step w first) samples).at_dPos = LONG_ENOUGH
    · obtain ⟨a1, a2, a3⟩ := k1 h5
      have hc : consecutive samples = 5 := by rw [← i2, h5]; rfl
      simp [hc, LONG_ENOUGH, a1, a2, a3, hin]
    · have hlt : (LifterRun_cycles (LifterRun_step w first) samples).at_dPos < LONG_ENOUGH :=
        lt_of_le_of_ne hat h5
      obtain ⟨a1, a2, a3, a4⟩ := k2 hlt
      have hc : consecutive samples < 5 := by rw [← i2]; exact hlt
      have hc2 : ¬ (5 < consecutive samples + 1) := by omega
      have hc3 : consecutive samples + 1 ≤ 5 := by omega
      simp [LONG_ENOUGH, a1, a2, a3, a4, hfalse, hin, hc2, hc3, i2]
  · have hout : inTolerance s = false := by simpa using hin
    obtain ⟨a1, a2, a3, a4⟩ := LifterRun_step_outOfTolerance _ s i1 hs.1 hs.2 hout
    simp [LONG_ENOUGH, a1, a2, a3, a4, hfalse, hout]

/-- C7 on a run that enters `MOVING` toward the target 100, sees five samples within
tolerance and then a sixth: the sixth sets `LifterArrived`. -/
theorem C7_lifter_debounce_witness :
    (LifterRun_cycles (LifterRun_init { pwm := 0, commands := [] }
        { sh := SlaveShares.allClear, writes := [] })
      ((100, 0) :: [(100, 95), (100, 96), (100, 97), (100, 98), (100, 99)])).state
      = state_t.MOVING ∧
    ((LifterRun_cycles (LifterRun_init { pwm := 0, commands := [] }
        { sh := SlaveShares.allClear, writes := [] })
      ((100, 0) :: ([(100, 95), (100, 96), (100, 97), (100, 98), (100, 99)] ++ [(100, 100)]))
      ).ctx.sh.LifterArrived.get = true ↔
      LONG_ENOUGH <
        consecutive ([(100, 95), (100, 96), (100, 97), (100, 98), (100, 99)] ++ [(100, 100)])) ∧
    LONG_ENOUGH <
      consecutive ([(100, 95), (100, 96), (100, 97), (100, 98), (100, 99)] ++ [(100, 100)]) :=
  have h := C7_lifter_debounce
    (LifterRun_init { pwm := 0, commands := [] } { sh := SlaveShares.allClear, writes := [] })
    (100, 0) [(100, 95), (100, 96), (100, 97), (100, 98), (100, 99)] (100, 100)
    rfl (by decide) (by decide) (by decide)
  ⟨h.1, h.2.2.2.1, by decide⟩

end task_Lifter

namespace task_SlaveMind

/-- What `ReadyToCheck` returns: a resetting call returns false; another call returns true
exactly when the call counter is above two. -/
theorem ReadyToCheck_result (w : SlaveMindTask) :
    (ReadyToCheck w true).2 = false ∧
    ((ReadyToCheck w false).2 = true ↔ 2 < w.times_called) := by
  by_cases h : 2 < w.times_called <;> simp [ReadyToCheck, h]

/-- A pass in `IDLE` with no command pending changes nothing and publishes nothing. -/
theorem step_atRest (w : SlaveMindTask) (e : SlaveMindEnv)
    (hw : AtRest w) (he : e.command = none) :
    AtRest (SlaveMindRun_step w e) ∧ published (SlaveMindRun_step w e).ctx.writes = [] := by
  obtain ⟨st, cur, g, p, tc, ok, ctx⟩ := w
  obtain ⟨c, l, k⟩ := e
  obtain ⟨h1, h2, h3, h4, h5⟩ := hw
  simp only at he h1 h2 h3 h4
  simp only [TaskShare.get] at h5
  subst he h1 h2 h3
  simp [SlaveMindRun_step, SlaveMindRun_cycle, case_IDLE, SlaveMindEnv.apply, TaskShare.get,
    TaskShare.put, AtRest, published, h4, h5]

/-- A pass in `IDLE` that finds one of the four commands enters the mission state of the
command, consumes the command and publishes nothing. -/
theorem step_command (cmd : comDataID) (w : SlaveMindTask) (e : SlaveMindEnv)
    (hc : isCommand cmd) (hw : AtRest w) (he : e.command = some cmd) :
    Serving cmd (SlaveMindRun_step w e) ∧ (SlaveMindRun_step w e).times_called ≤ 1 ∧
    (SlaveMindRun_step w e).grabStage = 0 ∧ (SlaveMindRun_step w e).placeStage = 0 ∧
    published (SlaveMindRun_step w e).ctx.writes = [] := by
  obtain ⟨st, cur, g, p, tc, ok, ctx⟩ := w
  obtain ⟨c, l, k⟩ := e
  obtain ⟨h1, h2, h3, h4, h5⟩ := hw
  simp only at he h1 h2 h3 h4
  subst he h1 h2 h3
  have h43 : tc ≤ 3 := by omega
  rcases hc with hc | hc | hc | hc <;> subst hc <;>
    simp [SlaveMindRun_step, SlaveMindRun_cycle, case_IDLE, SlaveMindEnv.apply, TaskShare.get,
      TaskShare.put, Serving, missionState, published, h4, h43, SlaveCtx.put_MsgReady2Get,
      SlaveCtx.put_ShareMsgID, MessageClass.idPrepForGrabRings, MessageClass.idGrabRings,
      MessageClass.idPrepForPlacement, MessageClass.idPlaceRings]

/-- A pass while serving a command, no new command being delivered: either the command is
finished in this pass (the sequencer is at rest again and exactly the matching response
was published), or the sequencer keeps serving and publishes nothing; in the latter case,
if both actuators reported arrival, the bound on the passes still needed went down. -/
theorem step_serving (cmd : comDataID) (w : SlaveMindTask) (e : SlaveMindEnv)
    (hc : isCommand cmd) (hs : Serving cmd w) (he : e.command = none) :
    (AtRest (SlaveMindRun_step w e) ∧
      published (SlaveMindRun_step w e).ctx.writes = [responseTo cmd]) ∨
    (Serving cmd (SlaveMindRun_step w e) ∧ published (SlaveMindRun_step w e).ctx.writes = [] ∧
      (e = arrived → passesLeft (SlaveMindRun_step w e) < passesLeft w)) := by
  obtain ⟨st, cur, g, p, tc, ok, ctx⟩ := w
  obtain ⟨c, l, k⟩ := e
  simp only at he
  subst he
  obtain ⟨h1, h2, h3, h4, h5, h6, h7⟩ := hs
  simp only [TaskShare.get] at h3
  simp only at h1 h2 h4 h5 h6 h7
  rcases hc with hc | hc | hc | hc <;> subst hc
  · simp [missionState, MessageClass.idPrepForGrabRings] at h1
    subst h1
    simp at h5 h7
    subst h5 h7
    interval_cases tc <;> cases l <;> cases k <;>
      simp [SlaveMindRun_step, SlaveMindRun_cycle, case_PREP2GRAB, MoveLift, ReadyToCheck,
        SlaveMindEnv.apply, TaskShare.get, TaskShare.put, SlaveCtx.put_moveLifterAbs,
        SlaveCtx.put_moveClaw, SlaveCtx.put_ShareMsgID, SlaveCtx.put_MsgReady2Send, toU8,
        published, AtRest, Serving, missionState, responseTo, passesLeft, arrived, h3,
        MessageClass.idPrepForGrabRings, MessageClass.idReadytoGrab]
  · simp [missionState, MessageClass.idPrepForGrabRings, MessageClass.idGrabRings] at h1
    subst h1
    simp at h4 h7
    subst h7
    interval_cases g <;> interval_cases tc <;> cases l <;> cases k <;>
      simp [SlaveMindRun_step, SlaveMindRun_cycle, case_GRAB, MoveLift, ReadyToCheck,
        SlaveMindEnv.apply, TaskShare.get, TaskShare.put, SlaveCtx.put_moveLifterAbs,
        SlaveCtx.put_moveClaw, SlaveCtx.put_ShareMsgID, SlaveCtx.put_MsgReady2Send, toU8,
        published, AtRest, Serving, missionState, responseTo, passesLeft, arrived, h3,
        MessageClass.idPrepForGrabRings, MessageClass.idGrabRings, MessageClass.idGrabbedRings]
  · simp [missionState, MessageClass.idPrepForGrabRings, MessageClass.idGrabRings,
      MessageClass.idPrepForPlacement] at h1
    subst h1
    simp at h5 h7
    subst h5 h7
    interval_cases tc <;> cases l <;> cases k <;>
      simp [SlaveMindRun_step, SlaveMindRun_cycle, case_PREP2PLACE, MoveLift, ReadyToCheck,
        SlaveMindEnv.apply, TaskShare.get, TaskShare.put, SlaveCtx.put_moveLifterAbs,
        SlaveCtx.put_moveClaw, SlaveCtx.put_ShareMsgID, SlaveCtx.put_MsgReady2Send, toU8,
        published, AtRest, Serving, missionState, responseTo, passesLeft, arrived, h3,
        MessageClass.idPrepForGrabRings, MessageClass.idGrabRings,
        MessageClass.idPrepForPlacement, MessageClass.idReadytoPlace]
  · simp [missionState, MessageClass.idPrepForGrabRings, MessageClass.idGrabRings,
      MessageClass.idPrepForPlacement, MessageClass.idPlaceRings] at h1
    subst h1
    simp at h5 h6
    subst h5
    interval_cases p <;> interval_cases tc <;> cases l <;> cases k <;>
      simp [SlaveMindRun_step, SlaveMindRun_cycle, case_PLACE, MoveLift, ReadyToCheck,
        SlaveMindEnv.apply, TaskShare.get, TaskShare.put, SlaveCtx.put_moveLifterAbs,
        SlaveCtx.put_moveClaw, SlaveCtx.put_ShareMsgID, SlaveCtx.put_MsgReady2Send, toU8,
        published, AtRest, Serving, missionState, responseTo, passesLeft, arrived, h3,
        MessageClass.idPrepForGrabRings, MessageClass.idGrabRings,
        MessageClass.idPrepForPlacement, MessageClass.idPlaceRings, MessageClass.idPlacedRings]

end task_SlaveMind

namespace task_SlaveMind

/-- Passes over two lists of environments, one after the other. -/
theorem SlaveMindRun_cycles_append (w : SlaveMindTask) (xs ys : List SlaveMindEnv) :
    SlaveMindRun_cycles w (xs ++ ys) =
      ((SlaveMindRun_cycles (SlaveMindRun_cycles w xs).1 ys).1,
       (SlaveMindRun_cycles w xs).2 ++ (SlaveMindRun_cycles (SlaveMindRun_cycles w xs).1 ys).2) := by
  induction xs generalizing w with
  | nil => simp [SlaveMindRun_cycles]
  | cons x xs ih => simp [SlaveMindRun_cycles, ih, List.append_assoc]

/-- At rest and with no command delivered, the sequencer stays at rest and publishes
nothing. -/
theorem cycles_atRest (es : List SlaveMindEnv) (w : SlaveMindTask)
    (hw : AtRest w) (hno : ∀ e ∈ es, e.command = none) :
    AtRest (SlaveMindRun_cycles w es).1 ∧ (SlaveMindRun_cycles w es).2 = [] := by
  induction es generalizing w with
  | nil => exact ⟨hw, rfl⟩
  | cons e es ih =>
    obtain ⟨a1, a2⟩ := step_atRest w e hw (hno e (by simp))
    obtain ⟨b1, b2⟩ := ih (SlaveMindRun_step w e) a1 (fun x hx => hno x (by simp [hx]))
    exact ⟨b1, by simp [SlaveMindRun_cycles, a2, b2]⟩

/-- While serving a command and with no further command delivered, the sequencer publishes
nothing until it publishes the matching response, after which it is at rest. -/
theorem cycles_serving (cmd : comDataID) (hc : isCommand cmd) (es : List SlaveMindEnv)
    (w : SlaveMindTask) (hs : Serving cmd w) (hno : ∀ e ∈ es, e.command = none) :
    (AtRest (SlaveMindRun_cycles w es).1 ∧ (SlaveMindRun_cycles w es).2 = [responseTo cmd]) ∨
    (Serving cmd (SlaveMindRun_cycles w es).1 ∧ (SlaveMindRun_cycles w es).2 = []) := by
  induction es generalizing w with
  | nil => exact Or.inr ⟨hs, rfl⟩
  | cons e es ih =>
    have hno2 : ∀ x ∈ es, x.command = none := fun x hx => hno x (by simp [hx])
    rcases step_serving cmd w e hc hs (hno e (by simp)) with ⟨a1, a2⟩ | ⟨a1, a2, _⟩
    · obtain ⟨b1, b2⟩ := cycles_atRest es (SlaveMindRun_step w e) a1 hno2
      exact Or.inl ⟨b1, by simp [SlaveMindRun_cycles, a2, b2]⟩
    · rcases ih (SlaveMindRun_step w e) a1 hno2 with ⟨b1, b2⟩ | ⟨b1, b2⟩
      · exact Or.inl ⟨b1, by simp [SlaveMindRun_cycles, a2, b2]⟩
      · exact Or.inr ⟨b1, by simp [SlaveMindRun_cycles, a2, b2]⟩

/-- While serving one of the four commands at least one more pass is needed, and at most
eight. -/
theorem passesLeft_bounds (cmd : comDataID) (hc : isCommand cmd) (w : SlaveMindTask)
    (hs : Serving cmd w) : 1 ≤ passesLeft w ∧ passesLeft w ≤ 8 := by
  obtain ⟨h1, h2, _, _, _, _, _⟩ := hs
  rcases hc with hc | hc | hc | hc <;> subst hc <;>
    simp [missionState, MessageClass.idPrepForGrabRings, MessageClass.idGrabRings,
      MessageClass.idPrepForPlacement, MessageClass.idPlaceRings] at h1 <;>
    simp only [passesLeft, h1] <;> (try split_ifs) <;> omega

/-- A pass while serving a command, no new command being delivered, does not raise the
bound on the passes still needed, whatever the arrived flags read. -/
theorem step_serving_mono (cmd : comDataID) (w : SlaveMindTask) (e : SlaveMindEnv)
    (hc : isCommand cmd) (hs : Serving cmd w) (he : e.command = none) :
    passesLeft (SlaveMindRun_step w e) ≤ passesLeft w := by
  obtain ⟨st, cur, g, p, tc, ok, ctx⟩ := w
  obtain ⟨c, l, k⟩ := e
  simp only at he
  subst he
  obtain ⟨h1, h2, h3, h4, h5, h6, h7⟩ := hs
  simp only [TaskShare.get] at h3
  simp only at h1 h2 h4 h5 h6 h7
  rcases hc with hc | hc | hc | hc <;> subst hc
  · simp [missionState, MessageClass.idPrepForGrabRings] at h1
    subst h1
    simp at h5 h7
    subst h5 h7
    interval_cases tc <;> cases l <;> cases k <;>
      simp [SlaveMindRun_step, SlaveMindRun_cycle, case_PREP2GRAB, MoveLift, ReadyToCheck,
        SlaveMindEnv.apply, TaskShare.get, TaskShare.put, SlaveCtx.put_moveLifterAbs,
        SlaveCtx.put_moveClaw, SlaveCtx.put_ShareMsgID, SlaveCtx.put_MsgReady2Send, toU8,
        passesLeft]
  · simp [missionState, MessageClass.idPrepForGrabRings, MessageClass.idGrabRings] at h1
    subst h1
    simp at h4 h7
    subst h7
    interval_cases g <;> interval_cases tc <;> cases l <;> cases k <;>
      simp [SlaveMindRun_step, SlaveMindRun_cycle, case_GRAB, MoveLift, ReadyToCheck,
        SlaveMindEnv.apply, TaskShare.get, TaskShare.put, SlaveCtx.put_moveLifterAbs,
        SlaveCtx.put_moveClaw, SlaveCtx.put_ShareMsgID, SlaveCtx.put_MsgReady2Send, toU8,
        passesLeft]
  · simp [missionState, MessageClass.idPrepForGrabRings, MessageClass.idGrabRings,
      MessageClass.idPrepForPlacement] at h1
    subst h1
    simp at h5 h7
    subst h5 h7
    interval_cases tc <;> cases l <;> cases k <;>
      simp [SlaveMindRun_step, SlaveMindRun_cycle, case_PREP2PLACE, MoveLift, ReadyToCheck,
        SlaveMindEnv.apply, TaskShare.get, TaskShare.put, SlaveCtx.put_moveLifterAbs,
        SlaveCtx.put_moveClaw, SlaveCtx.put_ShareMsgID, SlaveCtx.put_MsgReady2Send, toU8,
        passesLeft]
  · simp [missionState, MessageClass.idPrepForGrabRings, MessageClass.idGrabRings,
      MessageClass.idPrepForPlacement, MessageClass.idPlaceRings] at h1
    subst h1
    simp at h5 h6
    subst h5
    interval_cases p <;> interval_cases tc <;> cases l <;> cases k <;>
      simp [SlaveMindRun_step, SlaveMindRun_cycle, case_PLACE, MoveLift, ReadyToCheck,
        SlaveMindEnv.apply, TaskShare.get, TaskShare.put, SlaveCtx.put_moveLifterAbs,
        SlaveCtx.put_moveClaw, SlaveCtx.put_ShareMsgID, SlaveCtx.put_MsgReady2Send, toU8,
        passesLeft]

/-- Progress: a command being served is finished once both arrived flags have read true in
as many passes as the bound `passesLeft` says, whatever they read in the other passes. -/
theorem cycles_progress (cmd : comDataID) (hc : isCommand cmd) (es : List SlaveMindEnv)
    (w : SlaveMindTask) (hs : Serving cmd w) (hno : ∀ e ∈ es, e.command = none)
    (hn : passesLeft w ≤ arrivedCount es) :
    AtRest (SlaveMindRun_cycles w es).1 ∧ (SlaveMindRun_cycles w es).2 = [responseTo cmd] := by
  induction es generalizing w with
  | nil =>
    have := (passesLeft_bounds cmd hc w hs).1
    simp only [arrivedCount, List.filter_nil, List.length_nil] at hn
    omega
  | cons e es ih =>
    have hno2 : ∀ x ∈ es, x.command = none := fun x hx => hno x (by simp [hx])
    have he : e.command = none := hno e (by simp)
    rcases step_serving cmd w e hc hs he with ⟨a1, a2⟩ | ⟨a1, a2, a3⟩
    · obtain ⟨b1, b2⟩ := cycles_atRest es (SlaveMindRun_step w e) a1 hno2
      exact ⟨b1, by simp [SlaveMindRun_cycles, a2, b2]⟩
    · have hm := step_serving_mono cmd w e hc hs he
      have hcount : passesLeft (SlaveMindRun_step w e) ≤ arrivedCount es := by
        by_cases hb : (e.LifterArrived && e.ClawArrived) = true
        · have hea : e = arrived := by
            obtain ⟨c, l, k⟩ := e
            simp only at he
            simp only [Bool.and_eq_true] at hb
            simp [arrived, he, hb.1, hb.2]
          have hlt := a3 hea
          have hc2 : arrivedCount (e :: es) = arrivedCount es + 1 := by
            simp [arrivedCount, List.filter_cons, hb]
          omega
        · have hc2 : arrivedCount (e :: es) = arrivedCount es := by
            simp [arrivedCount, List.filter_cons, hb]
          omega
      obtain ⟨b1, b2⟩ := ih (SlaveMindRun_step w e) a1 hno2 hcount
      exact ⟨b1, by simp [SlaveMindRun_cycles, a2, b2]⟩

/-- One episode: a command delivered to the sequencer at rest, followed by passes without a
further command. Either exactly the matching response has been published and the
sequencer is at rest again, or nothing has been published and the command is still being
served; and it is the former once both arrived flags have read true in eight passes. -/
theorem cycles_episode (cmd : comDataID) (hc : isCommand cmd) (w : SlaveMindTask)
    (k : SlaveMindEnv) (rest : List SlaveMindEnv)
    (hw : AtRest w) (hk : k.command = some cmd) (hno : ∀ e ∈ rest, e.command = none) :
    ((AtRest (SlaveMindRun_cycles w (k :: rest)).1 ∧
        (SlaveMindRun_cycles w (k :: rest)).2 = [responseTo cmd]) ∨
      (Serving cmd (SlaveMindRun_cycles w (k :: rest)).1 ∧
        (SlaveMindRun_cycles w (k :: rest)).2 = [])) ∧
    (8 ≤ arrivedCount rest →
      AtRest (SlaveMindRun_cycles w (k :: rest)).1 ∧
      (SlaveMindRun_cycles w (k :: rest)).2 = [responseTo cmd]) := by
  obtain ⟨a1, _, _, _, a2⟩ := step_command cmd w k hc hw hk
  have hrun : SlaveMindRun_cycles w (k :: rest) =
      ((SlaveMindRun_cycles (SlaveMindRun_step w k) rest).1,
        published (SlaveMindRun_step w k).ctx.writes ++
          (SlaveMindRun_cycles (SlaveMindRun_step w k) rest).2) := rfl
  rw [hrun, a2]
  simp only [List.nil_append]
  exact ⟨cycles_serving cmd hc rest _ a1 hno,
    fun h8 => cycles_progress cmd hc rest _ a1 hno
      (le_trans (passesLeft_bounds cmd hc _ a1).2 h8)⟩

/-- One more episode after a run that left the sequencer at rest, with the response out by
its end (one more id has been published, or both arrived flags have read true in eight of
its passes): the matching response is added to what was published, and the sequencer is at
rest again. -/
theorem cycles_extend (cmd : comDataID) (hc : isCommand cmd) (w : SlaveMindTask)
    (xs : List SlaveMindEnv) (P : List comDataID) (k : SlaveMindEnv) (rest : List SlaveMindEnv)
    (hx : AtRest (SlaveMindRun_cycles w xs).1 ∧ (SlaveMindRun_cycles w xs).2 = P)
    (hk : k.command = some cmd) (hno : ∀ e ∈ rest, e.command = none)
    (hdone : P.length + 1 ≤ (SlaveMindRun_cycles w (xs ++ k :: rest)).2.length ∨
      8 ≤ arrivedCount rest) :
    AtRest (SlaveMindRun_cycles w (xs ++ k :: rest)).1 ∧
    (SlaveMindRun_cycles w (xs ++ k :: rest)).2 = P ++ [responseTo cmd] := by
  obtain ⟨a1, a2⟩ := cycles_episode cmd hc _ k rest hx.1 hk hno
  rw [SlaveMindRun_cycles_append] at hdone ⊢
  simp only [hx.2] at hdone ⊢
  rcases hdone with hd | hd
  · rcases a1 with ⟨b1, b2⟩ | ⟨b1, b2⟩
    · exact ⟨b1, by rw [b2]⟩
    · rw [b2] at hd
      simp at hd
  · obtain ⟨b1, b2⟩ := a2 hd
    exact ⟨b1, by rw [b2]⟩

/-- C9. End-to-end mission. The sequencer starts as `SlaveMindRun` starts it, in `IDLE`
with no command pending. After any number of passes without a command, the four commands
`idPrepForGrabRings`, `idGrabRings`, `idPrepForPlacement`, `idPlaceRings` are delivered
through `ShareMsgID` and `MsgReady2Get`, one at a time (`k1` to `k4`); each is followed by
passes without a further command (`r1` to `r4`), during which the arrived flags read
whatever the actuators make them read. The next command comes only after the response to
the previous one: when the passes that follow the command number `i` end, `i` ids have been
published, or else both arrived flags have read true in eight of these passes, which
brings the response about. Then the ids published are exactly `idReadytoGrab`,
`idGrabbedRings`, `idReadytoPlace`, `idPlacedRings`, in that order, one per command, and
after each the sequencer is in `IDLE` with both sub-stage counters at zero. -/
theorem C9_end_to_end_mission (ctx : SlaveCtx) (r0 r1 r2 r3 r4 : List SlaveMindEnv)
    (k1 k2 k3 k4 : SlaveMindEnv)
    (hget : ctx.sh.MsgReady2Get.get = false)
    (h0 : ∀ e ∈ r0, e.command = none)
    (hk1 : k1.command = some MessageClass.idPrepForGrabRings)
    (h1 : ∀ e ∈ r1, e.command = none)
    (a1 : 1 ≤ (SlaveMindRun_cycles (SlaveMindRun_init ctx) (r0 ++ k1 :: r1)).2.length ∨
      8 ≤ arrivedCount r1)
    (hk2 : k2.command = some MessageClass.idGrabRings)
    (h2 : ∀ e ∈ r2, e.command = none)
    (a2 : 2 ≤ (SlaveMindRun_cycles (SlaveMindRun_init ctx)
        (r0 ++ k1 :: r1 ++ k2 :: r2)).2.length ∨ 8 ≤ arrivedCount r2)
    (hk3 : k3.command = some MessageClass.idPrepForPlacement)
    (h3 : ∀ e ∈ r3, e.command = none)
    (a3 : 3 ≤ (SlaveMindRun_cycles (SlaveMindRun_init ctx)
        (r0 ++ k1 :: r1 ++ k2 :: r2 ++ k3 :: r3)).2.length ∨ 8 ≤ arrivedCount r3)
    (hk4 : k4.command = some MessageClass.idPlaceRings)
    (h4 : ∀ e ∈ r4, e.command = none)
    (a4 : 4 ≤ (SlaveMindRun_cycles (SlaveMindRun_init ctx)
        (r0 ++ k1 :: r1 ++ k2 :: r2 ++ k3 :: r3 ++ k4 :: r4)).2.length ∨
      8 ≤ arrivedCount r4) :
    ((SlaveMindRun_cycles (SlaveMindRun_init ctx) (r0 ++ k1 :: r1)).2
        = [MessageClass.idReadytoGrab] ∧
      AtRest (SlaveMindRun_cycles (SlaveMindRun_init ctx) (r0 ++ k1 :: r1)).1) ∧
    ((SlaveMindRun_cycles (SlaveMindRun_init ctx) (r0 ++ k1 :: r1 ++ k2 :: r2)).2
        = [MessageClass.idReadytoGrab, MessageClass.idGrabbedRings] ∧
      AtRest (SlaveMindRun_cycles (SlaveMindRun_init ctx) (r0 ++ k1 :: r1 ++ k2 :: r2)).1) ∧
    ((SlaveMindRun_cycles (SlaveMindRun_init ctx) (r0 ++ k1 :: r1 ++ k2 :: r2 ++ k3 :: r3)).2
        = [MessageClass.idReadytoGrab, MessageClass.idGrabbedRings,
            MessageClass.idReadytoPlace] ∧
      AtRest
        (SlaveMindRun_cycles (SlaveMindRun_init ctx) (r0 ++ k1 :: r1 ++ k2 :: r2 ++ k3 :: r3)).1) ∧
    (SlaveMindRun_cycles (SlaveMindRun_init ctx)
        (r0 ++ k1 :: r1 ++ k2 :: r2 ++ k3 :: r3 ++ k4 :: r4)).2
      = [MessageClass.idReadytoGrab, MessageClass.idGrabbedRings,
          MessageClass.idReadytoPlace, MessageClass.idPlacedRings] ∧
    (SlaveMindRun_cycles (SlaveMindRun_init ctx)
        (r0 ++ k1 :: r1 ++ k2 :: r2 ++ k3 :: r3 ++ k4 :: r4)).1.state = state_t.IDLE ∧
    (SlaveMindRun_cycles (SlaveMindRun_init ctx)
        (r0 ++ k1 :: r1 ++ k2 :: r2 ++ k3 :: r3 ++ k4 :: r4)).1.grabStage = 0 ∧
    (SlaveMindRun_cycles (SlaveMindRun_init ctx)
        (r0 ++ k1 :: r1 ++ k2 :: r2 ++ k3 :: r3 ++ k4 :: r4)).1.placeStage = 0 := by
  have hinit : AtRest (SlaveMindRun_init ctx) := ⟨rfl, rfl, rfl, by simp [SlaveMindRun_init], hget⟩
  have s0 := cycles_atRest r0 _ hinit h0
  have s1 := cycles_extend _ (Or.inl rfl) _ r0 [] k1 r1 s0 hk1 h1 a1
  have s2 := cycles_extend _ (Or.inr (Or.inl rfl)) _ _ _ k2 r2 s1 hk2 h2 a2
  have s3 := cycles_extend _ (Or.inr (Or.inr (Or.inl rfl))) _ _ _ k3 r3 s2 hk3 h3 a3
  have s4 := cycles_extend _ (Or.inr (Or.inr (Or.inr rfl))) _ _ _ k4 r4 s3 hk4 h4 a4
  exact ⟨⟨s1.2, s1.1⟩, ⟨s2.2, s2.1⟩, ⟨s3.2, s3.1⟩, s4.2, s4.1.1, s4.1.2.1, s4.1.2.2.1⟩

/-- C9 on a run in which each command is delivered in the pass after the one that
published the previous response: `idReadytoGrab` is out two passes after its command,
`idGrabbedRings` seven, `idReadytoPlace` two; the last command is followed by eight passes
with both arrived flags true. -/
theorem C9_end_to_end_mission_witness :
    (SlaveMindRun_cycles (SlaveMindRun_init { sh := SlaveShares.allClear, writes := [] })
        ([] ++
          { command := some MessageClass.idPrepForGrabRings, LifterArrived := false,
            ClawArrived := false } :: [arrived, arrived] ++
          { command := some MessageClass.idGrabRings, LifterArrived := true,
            ClawArrived := true } :: List.replicate 7 arrived ++
          { command := some MessageClass.idPrepForPlacement, LifterArrived := true,
            ClawArrived := true } :: [arrived, arrived] ++
          { command := some MessageClass.idPlaceRings, LifterArrived := true,
            ClawArrived := true } :: List.replicate 8 arrived)).2
      = [MessageClass.idReadytoGrab, MessageClass.idGrabbedRings,
          MessageClass.idReadytoPlace, MessageClass.idPlacedRings] :=
  (C9_end_to_end_mission { sh := SlaveShares.allClear, writes := [] } []
    [arrived, arrived] (List.replicate 7 arrived) [arrived, arrived]
    (List.replicate 8 arrived)
    { command := some MessageClass.idPrepForGrabRings, LifterArrived := false,
      ClawArrived := false }
    { command := some MessageClass.idGrabRings, LifterArrived := true, ClawArrived := true }
    { command := some MessageClass.idPrepForPlacement, LifterArrived := true,
      ClawArrived := true }
    { command := some MessageClass.idPlaceRings, LifterArrived := true, ClawArrived := true }
    rfl (fun _ he => absurd he (List.not_mem_nil _))
    rfl (by decide) (Or.inl (by decide))
    rfl (by decide) (Or.inl (by decide))
    rfl (by decide) (Or.inl (by decide))
    rfl (by decide) (Or.inr (by decide))).2.2.2.1

end task_SlaveMind

namespace task_SlaveMind

/-- A pass in `PREP2GRAB` or `PREP2PLACE` with the call counter at most one accepts no
arrival, whatever the flags read. -/
theorem step_prep_first (w : SlaveMindTask) (e : SlaveMindEnv)
    (hst : w.state = state_t.PREP2GRAB ∨ w.state = state_t.PREP2PLACE)
    (htc : w.times_called ≤ 1) :
    (SlaveMindRun_step w e).state = w.state ∧
    published (SlaveMindRun_step w e).ctx.writes = [] ∧
    (SlaveMindRun_step w e).grabStage = w.grabStage ∧
    (SlaveMindRun_step w e).placeStage = w.placeStage := by
  obtain ⟨st, cur, g, p, tc, ok, ctx⟩ := w
  obtain ⟨c, l, k⟩ := e
  simp only at hst htc
  rcases hst with hst | hst <;> subst hst <;> interval_cases tc <;> cases l <;> cases k <;>
    simp [SlaveMindRun_step, SlaveMindRun_cycle, case_PREP2GRAB, case_PREP2PLACE, MoveLift,
      ReadyToCheck, SlaveMindEnv.apply, TaskShare.get, TaskShare.put,
      SlaveCtx.put_moveLifterAbs, SlaveCtx.put_moveClaw, toU8, published]

/-- A pass in `GRAB` or `PLACE` with the call counter at most two advances no sub-stage and
publishes nothing, whatever the flags read, and raises the counter by at most one. -/
theorem step_stage_early (w : SlaveMindTask) (e : SlaveMindEnv)
    (hst : (w.state = state_t.GRAB ∧ w.grabStage ≤ 2) ∨
      (w.state = state_t.PLACE ∧ w.placeStage ≤ 2))
    (htc : w.times_called ≤ 2) :
    (SlaveMindRun_step w e).state = w.state ∧
    published (SlaveMindRun_step w e).ctx.writes = [] ∧
    (SlaveMindRun_step w e).grabStage = w.grabStage ∧
    (SlaveMindRun_step w e).placeStage = w.placeStage ∧
    (SlaveMindRun_step w e).times_called ≤ w.times_called + 1 := by
  obtain ⟨st, cur, g, p, tc, ok, ctx⟩ := w
  obtain ⟨c, l, k⟩ := e
  simp only at hst htc
  rcases hst with ⟨hst, hg⟩ | ⟨hst, hg⟩ <;> subst hst
  · interval_cases g <;> interval_cases tc <;> cases l <;> cases k <;>
      simp [SlaveMindRun_step, SlaveMindRun_cycle, case_GRAB, MoveLift,
        ReadyToCheck, SlaveMindEnv.apply, TaskShare.get, TaskShare.put,
        SlaveCtx.put_moveLifterAbs, SlaveCtx.put_moveClaw, toU8, published]
  · interval_cases p <;> interval_cases tc <;> cases l <;> cases k <;>
      simp [SlaveMindRun_step, SlaveMindRun_cycle, case_PLACE, MoveLift,
        ReadyToCheck, SlaveMindEnv.apply, TaskShare.get, TaskShare.put,
        SlaveCtx.put_moveLifterAbs, SlaveCtx.put_moveClaw, toU8, published]

/-- A pass in `GRAB` or `PLACE` that moves on to the next sub-stage (and so issues the
target of that sub-stage) leaves the call counter at most two. -/
theorem step_stage_advance (w : SlaveMindTask) (e : SlaveMindEnv) :
    (w.state = state_t.GRAB → (SlaveMindRun_step w e).state = state_t.GRAB →
      (SlaveMindRun_step w e).grabStage ≠ w.grabStage →
      (SlaveMindRun_step w e).grabStage ≤ 2 ∧ (SlaveMindRun_step w e).times_called ≤ 2) ∧
    (w.state = state_t.PLACE → (SlaveMindRun_step w e).state = state_t.PLACE →
      (SlaveMindRun_step w e).placeStage ≠ w.placeStage →
      (SlaveMindRun_step w e).placeStage ≤ 2 ∧ (SlaveMindRun_step w e).times_called ≤ 2) := by
  obtain ⟨st, cur, g, p, tc, ok, ctx⟩ := w
  obtain ⟨c, l, k⟩ := e
  constructor
  · intro hst
    simp only at hst
    subst hst
    obtain _ | _ | _ | g := g <;> obtain _ | _ | _ | tc := tc <;> cases l <;> cases k <;>
      simp [SlaveMindRun_step, SlaveMindRun_cycle, case_GRAB, MoveLift,
        ReadyToCheck, SlaveMindEnv.apply, TaskShare.get, TaskShare.put,
        SlaveCtx.put_moveLifterAbs, SlaveCtx.put_moveClaw, SlaveCtx.put_ShareMsgID,
        SlaveCtx.put_MsgReady2Send, toU8]
  · intro hst
    simp only at hst
    subst hst
    obtain _ | _ | _ | p := p <;> obtain _ | _ | _ | tc := tc <;> cases l <;> cases k <;>
      simp [SlaveMindRun_step, SlaveMindRun_cycle, case_PLACE, MoveLift,
        ReadyToCheck, SlaveMindEnv.apply, TaskShare.get, TaskShare.put,
        SlaveCtx.put_moveLifterAbs, SlaveCtx.put_moveClaw, SlaveCtx.put_ShareMsgID,
        SlaveCtx.put_MsgReady2Send, toU8]

end task_SlaveMind

namespace task_SlaveMind

/-- C8. The sequencer starts as `SlaveMindRun` starts it and is handed a command, with
both arrived flags reading true throughout. With `idPrepForGrabRings` the first pass
consumes the command. The second pass is the first in `PREP2GRAB` and issues the targets
(claw open, lifter to the pre-grab height); it publishes nothing, and it calls
`ReadyToCheck` twice, once through `MoveLift`, whose result it discards, and once in its
own condition. The third pass, one polling cycle after the targets were first issued,
accepts the arrival and publishes `idReadytoGrab`. `PREP2PLACE` does the same on
`idPrepForPlacement`. `GRAB` and `PLACE`, which call `ReadyToCheck` once in a pass, have not
accepted an arrival after three passes in the state and accept it in the fourth, three
polling cycles after the target was first issued. -/
theorem C8_prep_accepts_after_one_cycle :
    ((SlaveMindRun_cycles (SlaveMindRun_init { sh := SlaveShares.allClear, writes := [] })
        [{ command := some MessageClass.idPrepForGrabRings, LifterArrived := true,
           ClawArrived := true }]).1.state = state_t.PREP2GRAB ∧
      (SlaveMindRun_cycles (SlaveMindRun_init { sh := SlaveShares.allClear, writes := [] })
        [{ command := some MessageClass.idPrepForGrabRings, LifterArrived := true,
           ClawArrived := true }, arrived]).1.ctx.writes
        = [SlaveWrite.moveClaw OPENCLAW,
           SlaveWrite.moveLifterAbs (InchestoDegrees PRE_GRAB_HEIGHT)] ∧
      (SlaveMindRun_cycles (SlaveMindRun_init { sh := SlaveShares.allClear, writes := [] })
        [{ command := some MessageClass.idPrepForGrabRings, LifterArrived := true,
           ClawArrived := true }, arrived]).2 = [] ∧
      (SlaveMindRun_cycles (SlaveMindRun_init { sh := SlaveShares.allClear, writes := [] })
        [{ command := some MessageClass.idPrepForGrabRings, LifterArrived := true,
           ClawArrived := true }, arrived]).1.times_called = 2 ∧
      (SlaveMindRun_cycles (SlaveMindRun_init { sh := SlaveShares.allClear, writes := [] })
        [{ command := some MessageClass.idPrepForGrabRings, LifterArrived := true,
           ClawArrived := true }, arrived, arrived]).2 = [MessageClass.idReadytoGrab] ∧
      (SlaveMindRun_cycles (SlaveMindRun_init { sh := SlaveShares.allClear, writes := [] })
        [{ command := some MessageClass.idPrepForGrabRings, LifterArrived := true,
           ClawArrived := true }, arrived, arrived]).1.state = state_t.IDLE) ∧
    ((SlaveMindRun_cycles (SlaveMindRun_init { sh := SlaveShares.allClear, writes := [] })
        [{ command := some MessageClass.idPrepForPlacement, LifterArrived := true,
           ClawArrived := true }]).1.state = state_t.PREP2PLACE ∧
      (SlaveMindRun_cycles (SlaveMindRun_init { sh := SlaveShares.allClear, writes := [] })
        [{ command := some MessageClass.idPrepForPlacement, LifterArrived := true,
           ClawArrived := true }, arrived]).1.ctx.writes
        = [SlaveWrite.moveLifterAbs (InchestoDegrees PRE_RELEASE_HEIGHT)] ∧
      (SlaveMindRun_cycles (SlaveMindRun_init { sh := SlaveShares.allClear, writes := [] })
        [{ command := some MessageClass.idPrepForPlacement, LifterArrived := true,
           ClawArrived := true }, arrived]).2 = [] ∧
      (SlaveMindRun_cycles (SlaveMindRun_init { sh := SlaveShares.allClear, writes := [] })
        [{ command := some MessageClass.idPrepForPlacement, LifterArrived := true,
           ClawArrived := true }, arrived]).1.times_called = 2 ∧
      (SlaveMindRun_cycles (SlaveMindRun_init { sh := SlaveShares.allClear, writes := [] })
        [{ command := some MessageClass.idPrepForPlacement, LifterArrived := true,
           ClawArrived := true }, arrived, arrived]).2 = [MessageClass.idReadytoPlace] ∧
      (SlaveMindRun_cycles (SlaveMindRun_init { sh := SlaveShares.allClear, writes := [] })
        [{ command := some MessageClass.idPrepForPlacement, LifterArrived := true,
           ClawArrived := true }, arrived, arrived]).1.state = state_t.IDLE) ∧
    ((SlaveMindRun_cycles (SlaveMindRun_init { sh := SlaveShares.allClear, writes := [] })
        [{ command := some MessageClass.idGrabRings, LifterArrived := true,
           ClawArrived := true }, arrived]).1.times_called = 1 ∧
      (SlaveMindRun_cycles (SlaveMindRun_init { sh := SlaveShares.allClear, writes := [] })
        [{ command := some MessageClass.idGrabRings, LifterArrived := true,
           ClawArrived := true }, arrived, arrived, arrived]).1.state = state_t.GRAB ∧
      (SlaveMindRun_cycles (SlaveMindRun_init { sh := SlaveShares.allClear, writes := [] })
        [{ command := some MessageClass.idGrabRings, LifterArrived := true,
           ClawArrived := true }, arrived, arrived, arrived]).1.grabStage = 0 ∧
      (SlaveMindRun_cycles (SlaveMindRun_init { sh := SlaveShares.allClear, writes := [] })
        [{ command := some MessageClass.idGrabRings, LifterArrived := true,
           ClawArrived := true }, arrived, arrived, arrived]).2 = [] ∧
      (SlaveMindRun_cycles (SlaveMindRun_init { sh := SlaveShares.allClear, writes := [] })
        [{ command := some MessageClass.idGrabRings, LifterArrived := true,
           ClawArrived := true }, arrived, arrived, arrived, arrived]).1.grabStage = 1) ∧
    ((SlaveMindRun_cycles (SlaveMindRun_init { sh := SlaveShares.allClear, writes := [] })
        [{ command := some MessageClass.idPlaceRings, LifterArrived := true,
           ClawArrived := true }, arrived]).1.times_called = 1 ∧
      (SlaveMindRun_cycles (SlaveMindRun_init { sh := SlaveShares.allClear, writes := [] })
        [{ command := some MessageClass.idPlaceRings, LifterArrived := true,
           ClawArrived := true }, arrived, arrived, arrived]).1.state = state_t.PLACE ∧
      (SlaveMindRun_cycles (SlaveMindRun_init { sh := SlaveShares.allClear, writes := [] })
        [{ command := some MessageClass.idPlaceRings, LifterArrived := true,
           ClawArrived := true }, arrived, arrived, arrived]).1.placeStage = 0 ∧
      (SlaveMindRun_cycles (SlaveMindRun_init { sh := SlaveShares.allClear, writes := [] })
        [{ command := some MessageClass.idPlaceRings, LifterArrived := true,
           ClawArrived := true }, arrived, arrived, arrived]).2 = [] ∧
      (SlaveMindRun_cycles (SlaveMindRun_init { sh := SlaveShares.allClear, writes := [] })
        [{ command := some MessageClass.idPlaceRings, LifterArrived := true,
           ClawArrived := true }, arrived, arrived, arrived, arrived]).1.placeStage = 1) := by
  refine ⟨⟨by decide, by rfl, by decide, by decide, by decide, by decide⟩,
    ⟨by decide, by rfl, by decide, by decide, by decide, by decide⟩,
    ⟨by decide, by decide, by decide, by decide, by decide⟩,
    ⟨by decide, by decide, by decide, by decide, by decide⟩⟩

/-- What every mission state keeps of the debounce. A command is delivered to the
sequencer at rest (`k`); `e1` and `e2` are the next passes, with the arrived flags reading
anything. The pass after the delivery is the first in the mission state and the one that
first issues the target: it accepts no arrival (the state stays, no sub-stage advances,
nothing is published). In `GRAB` and `PLACE` the pass after it accepts none either. And
when a pass in `GRAB` or `PLACE` moves on to the next sub-stage, issuing its target, the
following pass neither advances the sub-stage nor publishes. -/
theorem stage_debounce (cmd : comDataID) (w v : SlaveMindTask)
    (k e1 e2 : SlaveMindEnv)
    (hc : isCommand cmd) (hw : AtRest w) (hk : k.command = some cmd) :
    ((SlaveMindRun_cycles w [k]).1.state = missionState cmd ∧
      (SlaveMindRun_cycles w [k]).2 = []) ∧
    ((SlaveMindRun_cycles w [k, e1]).1.state = missionState cmd ∧
      (SlaveMindRun_cycles w [k, e1]).2 = [] ∧
      (SlaveMindRun_cycles w [k, e1]).1.grabStage = 0 ∧
      (SlaveMindRun_cycles w [k, e1]).1.placeStage = 0) ∧
    (cmd = MessageClass.idGrabRings ∨ cmd = MessageClass.idPlaceRings →
      (SlaveMindRun_cycles w [k, e1, e2]).1.state = missionState cmd ∧
      (SlaveMindRun_cycles w [k, e1, e2]).2 = [] ∧
      (SlaveMindRun_cycles w [k, e1, e2]).1.grabStage = 0 ∧
      (SlaveMindRun_cycles w [k, e1, e2]).1.placeStage = 0) ∧
    (v.state = state_t.GRAB → (SlaveMindRun_step v e1).state = state_t.GRAB →
      (SlaveMindRun_step v e1).grabStage ≠ v.grabStage →
      (SlaveMindRun_step (SlaveMindRun_step v e1) e2).state = state_t.GRAB ∧
      (SlaveMindRun_step (SlaveMindRun_step v e1) e2).grabStage
        = (SlaveMindRun_step v e1).grabStage ∧
      published (SlaveMindRun_step (SlaveMindRun_step v e1) e2).ctx.writes = []) ∧
    (v.state = state_t.PLACE → (SlaveMindRun_step v e1).state = state_t.PLACE →
      (SlaveMindRun_step v e1).placeStage ≠ v.placeStage →
      (SlaveMindRun_step (SlaveMindRun_step v e1) e2).state = state_t.PLACE ∧
      (SlaveMindRun_step (SlaveMindRun_step v e1) e2).placeStage
        = (SlaveMindRun_step v e1).placeStage ∧
      published (SlaveMindRun_step (SlaveMindRun_step v e1) e2).ctx.writes = []) := by
  obtain ⟨a1, a2, a3, a4, a5⟩ := step_command cmd w k hc hw hk
  have hk1 : SlaveMindRun_cycles w [k] = (SlaveMindRun_step w k, published
      (SlaveMindRun_step w k).ctx.writes ++ []) := rfl
  have hk2 : SlaveMindRun_cycles w [k, e1] = (SlaveMindRun_step (SlaveMindRun_step w k) e1,
      published (SlaveMindRun_step w k).ctx.writes ++
        (published (SlaveMindRun_step (SlaveMindRun_step w k) e1).ctx.writes ++ [])) := rfl
  have hk3 : SlaveMindRun_cycles w [k, e1, e2] =
      (SlaveMindRun_step (SlaveMindRun_step (SlaveMindRun_step w k) e1) e2,
      published (SlaveMindRun_step w k).ctx.writes ++
        (published (SlaveMindRun_step (SlaveMindRun_step w k) e1).ctx.writes ++
          (published (SlaveMindRun_step (SlaveMindRun_step (SlaveMindRun_step w k) e1)
            e2).ctx.writes ++ []))) := rfl
  have vG : v.state = state_t.GRAB → (SlaveMindRun_step v e1).state = state_t.GRAB →
      (SlaveMindRun_step v e1).grabStage ≠ v.grabStage →
      (SlaveMindRun_step (SlaveMindRun_step v e1) e2).state = state_t.GRAB ∧
      (SlaveMindRun_step (SlaveMindRun_step v e1) e2).grabStage
        = (SlaveMindRun_step v e1).grabStage ∧
      published (SlaveMindRun_step (SlaveMindRun_step v e1) e2).ctx.writes = [] := by
    intro h1 h2 h3
    obtain ⟨s1, s2⟩ := (step_stage_advance v e1).1 h1 h2 h3
    obtain ⟨c1, c2, c3, _, _⟩ := step_stage_early (SlaveMindRun_step v e1) e2
      (Or.inl ⟨h2, s1⟩) s2
    exact ⟨c1.trans h2, c3, c2⟩
  have vP : v.state = state_t.PLACE → (SlaveMindRun_step v e1).state = state_t.PLACE →
      (SlaveMindRun_step v e1).placeStage ≠ v.placeStage →
      (SlaveMindRun_step (SlaveMindRun_step v e1) e2).state = state_t.PLACE ∧
      (SlaveMindRun_step (SlaveMindRun_step v e1) e2).placeStage
        = (SlaveMindRun_step v e1).placeStage ∧
      published (SlaveMindRun_step (SlaveMindRun_step v e1) e2).ctx.writes = [] := by
    intro h1 h2 h3
    obtain ⟨s1, s2⟩ := (step_stage_advance v e1).2 h1 h2 h3
    obtain ⟨c1, c2, _, c4, _⟩ := step_stage_early (SlaveMindRun_step v e1) e2
      (Or.inr ⟨h2, s1⟩) s2
    exact ⟨c1.trans h2, c4, c2⟩
  refine ⟨⟨by rw [hk1]; exact a1.1, by rw [hk1, a5]; rfl⟩, ?_, ?_, vG, vP⟩
  · rw [hk2, a5]
    rcases hc with h | h | h | h
    · have hst : (SlaveMindRun_step w k).state = state_t.PREP2GRAB := by rw [a1.1, h]; rfl
      obtain ⟨b1, b2, b3, b4⟩ := step_prep_first _ e1 (Or.inl hst) a2
      exact ⟨by rw [← a1.1]; exact b1, by rw [b2]; rfl, by rw [← a3]; exact b3,
        by rw [← a4]; exact b4⟩
    · have hst : (SlaveMindRun_step w k).state = state_t.GRAB := by rw [a1.1, h]; rfl
      obtain ⟨b1, b2, b3, b4, _⟩ := step_stage_early _ e1 (Or.inl ⟨hst, by omega⟩) (by omega)
      exact ⟨by rw [← a1.1]; exact b1, by rw [b2]; rfl, by rw [← a3]; exact b3,
        by rw [← a4]; exact b4⟩
    · have hst : (SlaveMindRun_step w k).state = state_t.PREP2PLACE := by rw [a1.1, h]; rfl
      obtain ⟨b1, b2, b3, b4⟩ := step_prep_first _ e1 (Or.inr hst) a2
      exact ⟨by rw [← a1.1]; exact b1, by rw [b2]; rfl, by rw [← a3]; exact b3,
        by rw [← a4]; exact b4⟩
    · have hst : (SlaveMindRun_step w k).state = state_t.PLACE := by rw [a1.1, h]; rfl
      obtain ⟨b1, b2, b3, b4, _⟩ := step_stage_early _ e1 (Or.inr ⟨hst, by omega⟩) (by omega)
      exact ⟨by rw [← a1.1]; exact b1, by rw [b2]; rfl, by rw [← a3]; exact b3,
        by rw [← a4]; exact b4⟩
  · intro hgp
    rw [hk3, a5]
    rcases hgp with h | h
    · have hst : (SlaveMindRun_step w k).state = state_t.GRAB := by rw [a1.1, h]; rfl
      obtain ⟨b1, b2, b3, b4, b5⟩ := step_stage_early _ e1 (Or.inl ⟨hst, by omega⟩) (by omega)
      obtain ⟨c1, c2, c3, c4, _⟩ := step_stage_early _ e2
        (Or.inl ⟨b1.trans hst, by omega⟩) (by omega)
      exact ⟨by rw [← a1.1, c1, b1], by rw [b2, c2]; rfl, by rw [c3, b3, a3],
        by rw [c4, b4, a4]⟩
    · have hst : (SlaveMindRun_step w k).state = state_t.PLACE := by rw [a1.1, h]; rfl
      obtain ⟨b1, b2, b3, b4, b5⟩ := step_stage_early _ e1 (Or.inr ⟨hst, by omega⟩) (by omega)
      obtain ⟨c1, c2, c3, c4, _⟩ := step_stage_early _ e2
        (Or.inr ⟨b1.trans hst, by omega⟩) (by omega)
      exact ⟨by rw [← a1.1, c1, b1], by rw [b2, c2]; rfl, by rw [c3, b3, a3],
        by rw [c4, b4, a4]⟩

end task_SlaveMind

namespace task_SlaveMind

/-- A pass in `IDLE` leaves the sub-stage counters alone and publishes nothing. -/
theorem case_IDLE_keeps (w : SlaveMindTask) (hw : w.ctx.writes = []) :
    (case_IDLE w).grabStage = w.grabStage ∧ (case_IDLE w).placeStage = w.placeStage ∧
    published (case_IDLE w).ctx.writes = [] := by
  by_cases hg : w.ctx.sh.MsgReady2Get.get = true
  · by_cases h1 : w.ctx.sh.ShareMsgID.get = 10 <;>
    by_cases h2 : w.ctx.sh.ShareMsgID.get = 11 <;>
    by_cases h3 : w.ctx.sh.ShareMsgID.get = 12 <;>
    by_cases h4 : w.ctx.sh.ShareMsgID.get = 13 <;>
      simp [case_IDLE, hg, h1, h2, h3, h4, SlaveCtx.put_MsgReady2Get, SlaveCtx.put_ShareMsgID,
        published, hw, MessageClass.idPrepForGrabRings, MessageClass.idGrabRings,
        MessageClass.idPrepForPlacement, MessageClass.idPlaceRings]
  · simp [case_IDLE, hg, published, hw]

/-- What one pass publishes, state by state: at most one id, one of the four responses, and
only with the flags and the call counter as required. -/
theorem step_published (w : SlaveMindTask) (e : SlaveMindEnv) :
    (published (SlaveMindRun_step w e).ctx.writes = [] ∨
      (published (SlaveMindRun_step w e).ctx.writes = [MessageClass.idReadytoGrab] ∧
        w.state = state_t.PREP2GRAB ∧ (SlaveMindRun_step w e).state = state_t.IDLE ∧
        e.ClawArrived = true ∧ e.LifterArrived = true ∧ 2 ≤ w.times_called) ∨
      (published (SlaveMindRun_step w e).ctx.writes = [MessageClass.idGrabbedRings] ∧
        w.state = state_t.GRAB ∧ (SlaveMindRun_step w e).state = state_t.IDLE ∧
        w.grabStage = 2 ∧ e.LifterArrived = true ∧ 2 < w.times_called) ∨
      (published (SlaveMindRun_step w e).ctx.writes = [MessageClass.idReadytoPlace] ∧
        w.state = state_t.PREP2PLACE ∧ (SlaveMindRun_step w e).state = state_t.IDLE ∧
        e.LifterArrived = true ∧ 2 ≤ w.times_called) ∨
      (published (SlaveMindRun_step w e).ctx.writes = [MessageClass.idPlacedRings] ∧
        w.state = state_t.PLACE ∧ (SlaveMindRun_step w e).state = state_t.IDLE ∧
        w.placeStage = 2 ∧ e.LifterArrived = true ∧ 2 < w.times_called)) := by
  obtain ⟨st, cur, g, p, tc, ok, ctx⟩ := w
  obtain ⟨c, l, k⟩ := e
  cases st
  · left
    exact (case_IDLE_keeps _ rfl).2.2
  · obtain _ | _ | _ | tc := tc <;> cases l <;> cases k <;>
      simp [SlaveMindRun_step, SlaveMindRun_cycle, case_PREP2GRAB, MoveLift, ReadyToCheck,
        SlaveMindEnv.apply, TaskShare.get, TaskShare.put, SlaveCtx.put_moveLifterAbs,
        SlaveCtx.put_moveClaw, SlaveCtx.put_ShareMsgID, SlaveCtx.put_MsgReady2Send, toU8,
        published, MessageClass.idReadytoGrab, MessageClass.idGrabbedRings,
        MessageClass.idReadytoPlace, MessageClass.idPlacedRings]
  · obtain _ | _ | _ | g := g <;> obtain _ | _ | _ | tc := tc <;> cases l <;> cases k <;>
      simp [SlaveMindRun_step, SlaveMindRun_cycle, case_GRAB, MoveLift, ReadyToCheck,
        SlaveMindEnv.apply, TaskShare.get, TaskShare.put, SlaveCtx.put_moveLifterAbs,
        SlaveCtx.put_moveClaw, SlaveCtx.put_ShareMsgID, SlaveCtx.put_MsgReady2Send, toU8,
        published, MessageClass.idReadytoGrab, MessageClass.idGrabbedRings,
        MessageClass.idReadytoPlace, MessageClass.idPlacedRings]
  · obtain _ | _ | _ | tc := tc <;> cases l <;> cases k <;>
      simp [SlaveMindRun_step, SlaveMindRun_cycle, case_PREP2PLACE, MoveLift, ReadyToCheck,
        SlaveMindEnv.apply, TaskShare.get, TaskShare.put, SlaveCtx.put_moveLifterAbs,
        SlaveCtx.put_moveClaw, SlaveCtx.put_ShareMsgID, SlaveCtx.put_MsgReady2Send, toU8,
        published, MessageClass.idReadytoGrab, MessageClass.idGrabbedRings,
        MessageClass.idReadytoPlace, MessageClass.idPlacedRings]
  · obtain _ | _ | _ | p := p <;> obtain _ | _ | _ | tc := tc <;> cases l <;> cases k <;>
      simp [SlaveMindRun_step, SlaveMindRun_cycle, case_PLACE, MoveLift, ReadyToCheck,
        SlaveMindEnv.apply, TaskShare.get, TaskShare.put, SlaveCtx.put_moveLifterAbs,
        SlaveCtx.put_moveClaw, SlaveCtx.put_ShareMsgID, SlaveCtx.put_MsgReady2Send, toU8,
        published, MessageClass.idReadytoGrab, MessageClass.idGrabbedRings,
        MessageClass.idReadytoPlace, MessageClass.idPlacedRings]

/-- How one pass moves the sub-stage counter of `GRAB`: by one step at a time, in the order
0, 1, 2, 0, and only with the flag of the sub-stage read true and the call counter above
two; the step from 2 to 0 is the one that publishes `idGrabbedRings`. Any other pass leaves
the counter alone. -/
theorem step_grabStage (w : SlaveMindTask) (e : SlaveMindEnv) :
    (SlaveMindRun_step w e).grabStage = w.grabStage ∨
    (w.state = state_t.GRAB ∧ 2 < w.times_called ∧
      ((w.grabStage = 0 ∧ (SlaveMindRun_step w e).grabStage = 1 ∧ e.LifterArrived = true) ∨
       (w.grabStage = 1 ∧ (SlaveMindRun_step w e).grabStage = 2 ∧ e.ClawArrived = true) ∨
       (w.grabStage = 2 ∧ (SlaveMindRun_step w e).grabStage = 0 ∧ e.LifterArrived = true ∧
         published (SlaveMindRun_step w e).ctx.writes = [MessageClass.idGrabbedRings]))) := by
  obtain ⟨st, cur, g, p, tc, ok, ctx⟩ := w
  obtain ⟨c, l, k⟩ := e
  cases st
  · left
    exact (case_IDLE_keeps _ rfl).1
  · left
    obtain _ | _ | _ | tc := tc <;> cases l <;> cases k <;>
      simp [SlaveMindRun_step, SlaveMindRun_cycle, case_PREP2GRAB, MoveLift, ReadyToCheck,
        SlaveMindEnv.apply, TaskShare.get, TaskShare.put, SlaveCtx.put_moveLifterAbs,
        SlaveCtx.put_moveClaw, SlaveCtx.put_ShareMsgID, SlaveCtx.put_MsgReady2Send, toU8]
  · obtain _ | _ | _ | g := g <;> obtain _ | _ | _ | tc := tc <;> cases l <;> cases k <;>
      simp [SlaveMindRun_step, SlaveMindRun_cycle, case_GRAB, MoveLift, ReadyToCheck,
        SlaveMindEnv.apply, TaskShare.get, TaskShare.put, SlaveCtx.put_moveLifterAbs,
        SlaveCtx.put_moveClaw, SlaveCtx.put_ShareMsgID, SlaveCtx.put_MsgReady2Send, toU8,
        published, MessageClass.idGrabbedRings]
  · left
    obtain _ | _ | _ | tc := tc <;> cases l <;> cases k <;>
      simp [SlaveMindRun_step, SlaveMindRun_cycle, case_PREP2PLACE, MoveLift, ReadyToCheck,
        SlaveMindEnv.apply, TaskShare.get, TaskShare.put, SlaveCtx.put_moveLifterAbs,
        SlaveCtx.put_moveClaw, SlaveCtx.put_ShareMsgID, SlaveCtx.put_MsgReady2Send, toU8]
  · left
    obtain _ | _ | _ | p := p <;> obtain _ | _ | _ | tc := tc <;> cases l <;> cases k <;>
      simp [SlaveMindRun_step, SlaveMindRun_cycle, case_PLACE, MoveLift, ReadyToCheck,
        SlaveMindEnv.apply, TaskShare.get, TaskShare.put, SlaveCtx.put_moveLifterAbs,
        SlaveCtx.put_moveClaw, SlaveCtx.put_ShareMsgID, SlaveCtx.put_MsgReady2Send, toU8]

/-- How one pass moves the sub-stage counter of `PLACE`: by one step at a time, in the order
0, 1, 2, 0, and only with the flag of the sub-stage read true and the call counter above
two; the step from 2 to 0 is the one that publishes `idPlacedRings`. Any other pass leaves
the counter alone. -/
theorem step_placeStage (w : SlaveMindTask) (e : SlaveMindEnv) :
    (SlaveMindRun_step w e).placeStage = w.placeStage ∨
    (w.state = state_t.PLACE ∧ 2 < w.times_called ∧
      ((w.placeStage = 0 ∧ (SlaveMindRun_step w e).placeStage = 1 ∧ e.LifterArrived = true) ∨
       (w.placeStage = 1 ∧ (SlaveMindRun_step w e).placeStage = 2 ∧ e.ClawArrived = true) ∨
       (w.placeStage = 2 ∧ (SlaveMindRun_step w e).placeStage = 0 ∧ e.LifterArrived = true ∧
         published (SlaveMindRun_step w e).ctx.writes = [MessageClass.idPlacedRings]))) := by
  obtain ⟨st, cur, g, p, tc, ok, ctx⟩ := w
  obtain ⟨c, l, k⟩ := e
  cases st
  · left
    exact (case_IDLE_keeps _ rfl).2.1
  · left
    obtain _ | _ | _ | tc := tc <;> cases l <;> cases k <;>
      simp [SlaveMindRun_step, SlaveMindRun_cycle, case_PREP2GRAB, MoveLift, ReadyToCheck,
        SlaveMindEnv.apply, TaskShare.get, TaskShare.put, SlaveCtx.put_moveLifterAbs,
        SlaveCtx.put_moveClaw, SlaveCtx.put_ShareMsgID, SlaveCtx.put_MsgReady2Send, toU8]
  · left
    obtain _ | _ | _ | g := g <;> obtain _ | _ | _ | tc := tc <;> cases l <;> cases k <;>
      simp [SlaveMindRun_step, SlaveMindRun_cycle, case_GRAB, MoveLift, ReadyToCheck,
        SlaveMindEnv.apply, TaskShare.get, TaskShare.put, SlaveCtx.put_moveLifterAbs,
        SlaveCtx.put_moveClaw, SlaveCtx.put_ShareMsgID, SlaveCtx.put_MsgReady2Send, toU8]
  · left
    obtain _ | _ | _ | tc := tc <;> cases l <;> cases k <;>
      simp [SlaveMindRun_step, SlaveMindRun_cycle, case_PREP2PLACE, MoveLift, ReadyToCheck,
        SlaveMindEnv.apply, TaskShare.get, TaskShare.put, SlaveCtx.put_moveLifterAbs,
        SlaveCtx.put_moveClaw, SlaveCtx.put_ShareMsgID, SlaveCtx.put_MsgReady2Send, toU8]
  · obtain _ | _ | _ | p := p <;> obtain _ | _ | _ | tc := tc <;> cases l <;> cases k <;>
      simp [SlaveMindRun_step, SlaveMindRun_cycle, case_PLACE, MoveLift, ReadyToCheck,
        SlaveMindEnv.apply, TaskShare.get, TaskShare.put, SlaveCtx.put_moveLifterAbs,
        SlaveCtx.put_moveClaw, SlaveCtx.put_ShareMsgID, SlaveCtx.put_MsgReady2Send, toU8,
        published, MessageClass.idPlacedRings]

/-- C10. In every pass of the sequencer, whatever state it is in and whatever the other
tasks wrote: at most one id is published, and it is one of the four responses.
`idReadytoGrab` is published only from `PREP2GRAB` with `ClawArrived` and `LifterArrived`
read true; `idReadytoPlace` only from `PREP2PLACE` with `LifterArrived` read true; in both
the call counter of `ReadyToCheck` was at least two when the pass began, so that the call
made by the state itself found it above two and returned true. `idGrabbedRings` and
`idPlacedRings` are published only from sub-stage 2 of `GRAB` and `PLACE`, with
`LifterArrived` read true and the counter above two. The publishing pass returns to
`IDLE`. The sub-stage counters (zero when `SlaveMindRun` starts) move only from 0 to 1 with
`LifterArrived` read true, from 1 to 2 with `ClawArrived` read true, and from 2 to 0 in the
publishing pass, each time with the counter above two. `ReadyToCheck()` returns true
exactly when the counter is above two. -/
theorem C10_publish_only_after_arrival (w : SlaveMindTask) (e : SlaveMindEnv) :
    (published (SlaveMindRun_step w e).ctx.writes = [] ∨
      (published (SlaveMindRun_step w e).ctx.writes = [MessageClass.idReadytoGrab] ∧
        w.state = state_t.PREP2GRAB ∧ (SlaveMindRun_step w e).state = state_t.IDLE ∧
        e.ClawArrived = true ∧ e.LifterArrived = true ∧ 2 ≤ w.times_called) ∨
      (published (SlaveMindRun_step w e).ctx.writes = [MessageClass.idGrabbedRings] ∧
        w.state = state_t.GRAB ∧ (SlaveMindRun_step w e).state = state_t.IDLE ∧
        w.grabStage = 2 ∧ e.LifterArrived = true ∧ 2 < w.times_called) ∨
      (published (SlaveMindRun_step w e).ctx.writes = [MessageClass.idReadytoPlace] ∧
        w.state = state_t.PREP2PLACE ∧ (SlaveMindRun_step w e).state = state_t.IDLE ∧
        e.LifterArrived = true ∧ 2 ≤ w.times_called) ∨
      (published (SlaveMindRun_step w e).ctx.writes = [MessageClass.idPlacedRings] ∧
        w.state = state_t.PLACE ∧ (SlaveMindRun_step w e).state = state_t.IDLE ∧
        w.placeStage = 2 ∧ e.LifterArrived = true ∧ 2 < w.times_called)) ∧
    ((SlaveMindRun_step w e).grabStage = w.grabStage ∨
      (w.state = state_t.GRAB ∧ 2 < w.times_called ∧
        ((w.grabStage = 0 ∧ (SlaveMindRun_step w e).grabStage = 1 ∧ e.LifterArrived = true) ∨
         (w.grabStage = 1 ∧ (SlaveMindRun_step w e).grabStage = 2 ∧ e.ClawArrived = true) ∨
         (w.grabStage = 2 ∧ (SlaveMindRun_step w e).grabStage = 0 ∧ e.LifterArrived = true ∧
           published (SlaveMindRun_step w e).ctx.writes = [MessageClass.idGrabbedRings])))) ∧
    ((SlaveMindRun_step w e).placeStage = w.placeStage ∨
      (w.state = state_t.PLACE ∧ 2 < w.times_called ∧
        ((w.placeStage = 0 ∧ (SlaveMindRun_step w e).placeStage = 1 ∧ e.LifterArrived = true) ∨
         (w.placeStage = 1 ∧ (SlaveMindRun_step w e).placeStage = 2 ∧ e.ClawArrived = true) ∨
         (w.placeStage = 2 ∧ (SlaveMindRun_step w e).placeStage = 0 ∧ e.LifterArrived = true ∧
           published (SlaveMindRun_step w e).ctx.writes = [MessageClass.idPlacedRings])))) ∧
    ((ReadyToCheck w false).2 = true ↔ 2 < w.times_called) :=
  ⟨step_published w e, step_grabStage w e, step_placeStage w e, (ReadyToCheck_result w).2⟩

end task_SlaveMind

namespace MessageClass

/-- C15, the code at a failing input. The default buffer of 15 bytes and a payload of 13
bytes: `BuildMsg` stores all 13 payload bytes, the last of them at index 15, which is
outside the buffer; it writes the length field 13 and returns 16. -/
theorem C15_BuildMsg_does_not_clamp :
    (new zeroed).BufferSize = 15 ∧
    (BuildMsg (new zeroed) (fun i => 100 + i) typeU8 idGrabRings 13).1.MsgData 1 = 13 ∧
    (BuildMsg (new zeroed) (fun i => 100 + i) typeU8 idGrabRings 13).1.MsgData 14 = 111 ∧
    (BuildMsg (new zeroed) (fun i => 100 + i) typeU8 idGrabRings 13).1.MsgData 15 = 112 ∧
    (new zeroed).MsgData 15 = 0 ∧
    (BuildMsg (new zeroed) (fun i => 100 + i) typeU8 idGrabRings 13).1.MsgLen = 13 ∧
    (BuildMsg (new zeroed) (fun i => 100 + i) typeU8 idGrabRings 13).2 = 16 := by
  refine ⟨rfl, ?_, ?_, ?_, rfl, rfl, by decide⟩
  · rw [BuildMsg_MsgData]; decide
  · rw [BuildMsg_MsgData]; decide
  · rw [BuildMsg_MsgData]; decide

/-- C16. Frame layout. After `BuildMsg` with a datatype and a dataID that fit a byte and a
payload length `L` with `L + 3 <= BufferSize` (the buffer size being a `U8`), byte 0 of the
buffer is the datatype, byte 1 is `L`, byte 2 is the dataID, the bytes 3 to `3 + L - 1` are
`payload[0..L)`, every other byte of the buffer is 0, the bytes after the buffer are
untouched, and the value returned is `L + 3`. -/
theorem C16_frame_layout (m : MessageClass) (payload : Nat → Nat)
    (t : comDatatype) (id : comDataID) (L : Nat)
    (ht : t < 256) (hid : id < 256) (hB : m.BufferSize < 256)
    (hL : L + HEADER_LENGTH ≤ m.BufferSize) :
    (BuildMsg m payload t id L).1.MsgData 0 = t ∧
    (BuildMsg m payload t id L).1.MsgData 1 = L ∧
    (BuildMsg m payload t id L).1.MsgData 2 = id ∧
    (∀ i, i < L → (BuildMsg m payload t id L).1.MsgData (HEADER_LENGTH + i) = payload i) ∧
    (∀ j, HEADER_LENGTH + L ≤ j → j < m.BufferSize →
      (BuildMsg m payload t id L).1.MsgData j = 0) ∧
    (∀ j, m.BufferSize ≤ j → (BuildMsg m payload t id L).1.MsgData j = m.MsgData j) ∧
    (BuildMsg m payload t id L).2 = L + 3 ∧
    (BuildMsg m payload t id L).1.BufferSize = m.BufferSize := by
  simp only [HEADER_LENGTH] at hL
  refine ⟨?_, ?_, ?_, ?_, ?_, ?_, ?_, rfl⟩
  · rw [BuildMsg_MsgData]; simp [toU8, Nat.mod_eq_of_lt ht]
  · rw [BuildMsg_MsgData]; simp
  · rw [BuildMsg_MsgData]; simp [toU8, Nat.mod_eq_of_lt hid]
  · intro i hi
    rw [BuildMsg_MsgData]
    simp only [HEADER_LENGTH]
    have hc : 3 ≤ 3 + i ∧ 3 + i < 3 + L := by omega
    rw [if_pos hc]
    congr 1
    omega
  · intro j h1 h2
    rw [BuildMsg_MsgData]
    simp only [HEADER_LENGTH] at h1
    have hc : ¬ (3 ≤ j ∧ j < 3 + L) := by omega
    rw [if_neg hc, if_neg (by omega), if_neg (by omega), if_neg (by omega), if_pos h2]
  · intro j hj
    rw [BuildMsg_MsgData]
    have hc : ¬ (3 ≤ j ∧ j < 3 + L) := by omega
    rw [if_neg hc, if_neg (by omega), if_neg (by omega), if_neg (by omega), if_neg (by omega)]
  · simp only [BuildMsg, HEADER_LENGTH, toU8]
    omega

/-- C16 at the default buffer with a payload of two bytes. -/
theorem C16_frame_layout_witness :
    typeBool < 256 ∧ idAckMsg < 256 ∧ (new zeroed).BufferSize < 256 ∧
    2 + HEADER_LENGTH ≤ (new zeroed).BufferSize ∧
    (BuildMsg (new zeroed) (fun i => 40 + i) typeBool idAckMsg 2).1.MsgData 0 = typeBool ∧
    (BuildMsg (new zeroed) (fun i => 40 + i) typeBool idAckMsg 2).1.MsgData 1 = 2 ∧
    (BuildMsg (new zeroed) (fun i => 40 + i) typeBool idAckMsg 2).1.MsgData 2 = idAckMsg ∧
    (BuildMsg (new zeroed) (fun i => 40 + i) typeBool idAckMsg 2).1.MsgData 4 = 41 ∧
    (BuildMsg (new zeroed) (fun i => 40 + i) typeBool idAckMsg 2).1.MsgData 5 = 0 ∧
    (BuildMsg (new zeroed) (fun i => 40 + i) typeBool idAckMsg 2).2 = 5 :=
  have h := C16_frame_layout (new zeroed) (fun i => 40 + i) typeBool idAckMsg 2
    (by decide) (by decide) (by decide) (by decide)
  ⟨by decide, by decide, by decide, by decide, h.1, h.2.1, h.2.2.1,
    h.2.2.2.1 1 (by decide), h.2.2.2.2.1 5 (by decide) (by decide), h.2.2.2.2.2.2.1⟩

end MessageClass

namespace task_Lifter

/-- The three `if` statements that cap the power leave a value between `DOWN_MAX` and
`UP_MAX` that is not strictly between 0 and `MIN_POWER`; a positive value below
`MIN_POWER` becomes `MIN_POWER`, and a value that is negative or zero is only capped at
`DOWN_MAX`. -/
theorem capPower_spec (power : Int) :
    DOWN_MAX ≤ capPower power ∧ capPower power ≤ UP_MAX ∧
    ¬ (0 < capPower power ∧ capPower power < MIN_POWER) ∧
    (0 < power → power < MIN_POWER → capPower power = MIN_POWER) ∧
    (power ≤ 0 → DOWN_MAX ≤ power → capPower power = power) := by
  unfold capPower
  simp only [DOWN_MAX, UP_MAX, MIN_POWER]
  split_ifs <;> omega

/-- A value between `DOWN_MAX` and `UP_MAX` is not changed by the conversion to `S8`. -/
theorem wrapS8_of_capped (p : Int) (h1 : DOWN_MAX ≤ p) (h2 : p ≤ UP_MAX) : wrapS8 p = p := by
  simp only [DOWN_MAX, UP_MAX] at h1 h2
  unfold wrapS8
  omega

/-- What one pass in `MOVING` sends to the motor: exactly one command; `OFF` when the pass
declares the motion complete, and otherwise the capped power of the control law. -/
theorem LifterRun_cycle_moving_pwm (w : LifterTask) (count : Int)
    (hst : w.state = state_t.MOVING) :
    ((LifterRun_cycle w count).state = state_t.IDLE ∧
      (LifterRun_cycle w count).Lifter = w.Lifter.setPWM OFF) ∨
    ((LifterRun_cycle w count).state = state_t.MOVING ∧
      (LifterRun_cycle w count).power =
        capPower (controlLaw (LifterRun_cycle w count).error
          (LifterRun_cycle w count).error_sum) ∧
      (LifterRun_cycle w count).Lifter =
        w.Lifter.setPWM (wrapS8 (LifterRun_cycle w count).power)) := by
  by_cases ht : std.abs (wrapS32 (w.ctx.sh.moveLifterAbs.get - count)) < CLOSE_ENOUGH
  · by_cases ha : LONG_ENOUGH < toU8 (w.at_dPos + 1)
    · left
      simp [LifterRun_cycle, hst, ht, ha]
    · right
      simp [LifterRun_cycle, hst, ht, ha]
  · right
    simp [LifterRun_cycle, hst, ht, LONG_ENOUGH]

/-- C17, counterexample. A pass in `MOVING` with the target 0 and the encoder at 15: the
control law computes the power -15, which is not zero and smaller in magnitude than
`MIN_POWER`; the pass does not declare arrival and sends the PWM value -15, whose magnitude
is neither `MIN_POWER` nor outside the open range from 0 to 20. -/
theorem C17_counterexample :
    ({ LifterRun_init { pwm := 0, commands := [] }
          { sh := SlaveShares.allClear, writes := [] } with
        state := state_t.MOVING } : LifterTask).state = state_t.MOVING ∧
    controlLaw (-15) (-15) = -15 ∧
    (LifterRun_cycle
      { LifterRun_init { pwm := 0, commands := [] }
          { sh := SlaveShares.allClear, writes := [] } with
        state := state_t.MOVING } 15).state = state_t.MOVING ∧
    (LifterRun_cycle
      { LifterRun_init { pwm := 0, commands := [] }
          { sh := SlaveShares.allClear, writes := [] } with
        state := state_t.MOVING } 15).Lifter.commands = [-15] := by
  have hc : controlLaw (-15) (-15) = -15 := by
    simp only [controlLaw, Kp, Ki, truncS32]
    norm_num
    decide
  refine ⟨rfl, hc, ?_, ?_⟩
  · simp [LifterRun_cycle, LifterRun_init, SlaveShares.allClear, TaskShare.get, wrapS32,
      std.abs, CLOSE_ENOUGH, LONG_ENOUGH]
  · simp [LifterRun_cycle, LifterRun_init, SlaveShares.allClear, TaskShare.get, wrapS32,
      std.abs, CLOSE_ENOUGH, LONG_ENOUGH, Motor.setPWM, hc, capPower, UP_MAX, DOWN_MAX,
      MIN_POWER, wrapS8]

end task_Lifter

namespace task_Lifter

/-- C17, amended. In every pass in `MOVING` that does not declare arrival exactly one PWM
value is sent; whenever the power computed by the control law is positive but smaller than
`MIN_POWER`, the value sent is `MIN_POWER`; and the value sent is never strictly between 0
and `MIN_POWER`. -/
theorem C17_min_power_floor (w : LifterTask) (count : Int)
    (hst : w.state = state_t.MOVING)
    (hgo : (LifterRun_cycle w count).state = state_t.MOVING) :
    (LifterRun_cycle w count).Lifter.commands
      = w.Lifter.commands ++ [(LifterRun_cycle w count).Lifter.pwm] ∧
    (0 < controlLaw (LifterRun_cycle w count).error (LifterRun_cycle w count).error_sum →
      controlLaw (LifterRun_cycle w count).error (LifterRun_cycle w count).error_sum
        < MIN_POWER →
      (LifterRun_cycle w count).Lifter.pwm = MIN_POWER) ∧
    ¬ (0 < (LifterRun_cycle w count).Lifter.pwm ∧
        (LifterRun_cycle w count).Lifter.pwm < MIN_POWER) := by
  rcases LifterRun_cycle_moving_pwm w count hst with ⟨h1, _⟩ | ⟨_, h2, h3⟩
  · rw [h1] at hgo
    exact absurd hgo (by decide)
  · obtain ⟨c1, c2, c3, c4, _⟩ := capPower_spec
      (controlLaw (LifterRun_cycle w count).error (LifterRun_cycle w count).error_sum)
    have hw : wrapS8 (LifterRun_cycle w count).power = (LifterRun_cycle w count).power := by
      rw [h2]; exact wrapS8_of_capped _ c1 c2
    rw [h3, hw, h2]
    exact ⟨rfl, fun a b => c4 a b, c3⟩

/-- C17, amended, at a pass in `MOVING` with the target 5 and the encoder at 0, which does
not declare arrival: one value is sent, and it is not strictly between 0 and
`MIN_POWER`. -/
theorem C17_min_power_floor_witness :
    (LifterRun_cycle
      { LifterRun_init { pwm := 0, commands := [] }
          { sh := { SlaveShares.allClear with moveLifterAbs := { data := 5 } },
            writes := [] } with
        state := state_t.MOVING } 0).Lifter.commands
      = [] ++ [(LifterRun_cycle
      { LifterRun_init { pwm := 0, commands := [] }
          { sh := { SlaveShares.allClear with moveLifterAbs := { data := 5 } },
            writes := [] } with
        state := state_t.MOVING } 0).Lifter.pwm] ∧
    ¬ (0 < (LifterRun_cycle
      { LifterRun_init { pwm := 0, commands := [] }
          { sh := { SlaveShares.allClear with moveLifterAbs := { data := 5 } },
            writes := [] } with
        state := state_t.MOVING } 0).Lifter.pwm ∧
      (LifterRun_cycle
      { LifterRun_init { pwm := 0, commands := [] }
          { sh := { SlaveShares.allClear with moveLifterAbs := { data := 5 } },
            writes := [] } with
        state := state_t.MOVING } 0).Lifter.pwm < MIN_POWER) :=
  have h := C17_min_power_floor
    { LifterRun_init { pwm := 0, commands := [] }
        { sh := { SlaveShares.allClear with moveLifterAbs := { data := 5 } },
          writes := [] } with
      state := state_t.MOVING } 0 rfl
    (by simp [LifterRun_cycle, LifterRun_init, TaskShare.get, wrapS32, std.abs,
          CLOSE_ENOUGH, LONG_ENOUGH, toU8])
  ⟨h.1, h.2.2⟩

/-- What one pass sends to the motor, whatever the state: nothing, or one value between
`DOWN_MAX` and `UP_MAX`. -/
theorem LifterRun_step_commands (w : LifterTask) (s : Int × Int) :
    (LifterRun_step w s).Lifter.commands = w.Lifter.commands ∨
    ∃ p, (LifterRun_step w s).Lifter.commands = w.Lifter.commands ++ [p] ∧
      DOWN_MAX ≤ p ∧ p ≤ UP_MAX := by
  cases hst : w.state
  · left
    by_cases hn : s.1 = w.oPos <;>
      simp [LifterRun_step, LifterRun_cycle, hst, hn, TaskShare.get, TaskShare.put]
  · right
    have hstep : LifterRun_step w s = LifterRun_cycle
        { w with ctx := { w.ctx with sh := { w.ctx.sh with
          moveLifterAbs := w.ctx.sh.moveLifterAbs.put s.1 } } } s.2 := rfl
    have hL : ({ w with ctx := { w.ctx with sh := { w.ctx.sh with
          moveLifterAbs := w.ctx.sh.moveLifterAbs.put s.1 } } } : LifterTask).Lifter
        = w.Lifter := rfl
    rcases LifterRun_cycle_moving_pwm
      { w with ctx := { w.ctx with sh := { w.ctx.sh with
          moveLifterAbs := w.ctx.sh.moveLifterAbs.put s.1 } } } s.2 hst with
      ⟨_, h1⟩ | ⟨_, h2, h3⟩
    · rw [← hstep, hL] at h1
      exact ⟨OFF, by rw [h1]; rfl, by decide, by decide⟩
    · rw [← hstep] at h2
      rw [← hstep, hL] at h3
      obtain ⟨c1, c2, _⟩ := capPower_spec
        (controlLaw (LifterRun_step w s).error (LifterRun_step w s).error_sum)
      have hw : wrapS8 (LifterRun_step w s).power = (LifterRun_step w s).power := by
        rw [h2]; exact wrapS8_of_capped _ c1 c2
      rw [hw] at h3
      refine ⟨(LifterRun_step w s).power, by rw [h3]; rfl, ?_, ?_⟩
      · rw [h2]; exact c1
      · rw [h2]; exact c2

/-- Every value sent to the motor over several passes lies between `DOWN_MAX` and
`UP_MAX`. -/
theorem LifterRun_cycles_commands (samples : List (Int × Int)) (w : LifterTask) :
    ∀ p ∈ (LifterRun_cycles w samples).Lifter.commands,
      p ∈ w.Lifter.commands ∨ (DOWN_MAX ≤ p ∧ p ≤ UP_MAX) := by
  induction samples using List.reverseRecOn with
  | nil => intro p hp; exact Or.inl hp
  | append_singleton xs x ih =>
    intro p hp
    rw [LifterRun_cycles_append] at hp
    rcases LifterRun_step_commands (LifterRun_cycles w xs) x with h | ⟨q, h, h1, h2⟩
    · rw [h] at hp; exact ih p hp
    · rw [h, List.mem_append] at hp
      rcases hp with hp | hp
      · exact ih p hp
      · rw [List.mem_singleton] at hp
        right; rw [hp]; exact ⟨h1, h2⟩

/-- C18. Lifter output clamp. A pass in `MOVING`, for every target, encoder count and
accumulated error, sends exactly one PWM value, and it lies between `DOWN_MAX` = -70 and
`UP_MAX` = 70; when the pass goes on controlling, the value is the variable `power`, which
the conversion to `S8` leaves unchanged. A pass in `IDLE` sends nothing. So every value
sent over any number of passes lies in that range. -/
theorem C18_output_clamp (w : LifterTask) (count : Int) (samples : List (Int × Int)) :
    (w.state = state_t.MOVING →
      (LifterRun_cycle w count).Lifter.commands
        = w.Lifter.commands ++ [(LifterRun_cycle w count).Lifter.pwm] ∧
      -70 ≤ (LifterRun_cycle w count).Lifter.pwm ∧
      (LifterRun_cycle w count).Lifter.pwm ≤ 70 ∧
      ((LifterRun_cycle w count).state = state_t.MOVING →
        (LifterRun_cycle w count).Lifter.pwm = (LifterRun_cycle w count).power ∧
        wrapS8 (LifterRun_cycle w count).power = (LifterRun_cycle w count).power)) ∧
    (w.state = state_t.IDLE → (LifterRun_cycle w count).Lifter = w.Lifter) ∧
    (∀ p ∈ (LifterRun_cycles w samples).Lifter.commands,
      p ∈ w.Lifter.commands ∨ (-70 ≤ p ∧ p ≤ 70)) := by
  refine ⟨?_, ?_, LifterRun_cycles_commands samples w⟩
  · intro hst
    rcases LifterRun_cycle_moving_pwm w count hst with ⟨h0, h1⟩ | ⟨h0, h2, h3⟩
    · rw [h1, h0]
      exact ⟨rfl, by simp [Motor.setPWM, OFF], by simp [Motor.setPWM, OFF],
        fun h => absurd h (by decide)⟩
    · obtain ⟨c1, c2, _⟩ := capPower_spec
        (controlLaw (LifterRun_cycle w count).error (LifterRun_cycle w count).error_sum)
      have hw : wrapS8 (LifterRun_cycle w count).power = (LifterRun_cycle w count).power := by
        rw [h2]; exact wrapS8_of_capped _ c1 c2
      rw [h3, hw]
      refine ⟨rfl, ?_, ?_, fun _ => ⟨rfl, rfl⟩⟩
      · show DOWN_MAX ≤ (LifterRun_cycle w count).power
        rw [h2]; exact c1
      · show (LifterRun_cycle w count).power ≤ UP_MAX
        rw [h2]; exact c2
  · intro hst
    by_cases hn : w.ctx.sh.moveLifterAbs.get = w.oPos <;>
      simp [LifterRun_cycle, hst, hn]

end task_Lifter

namespace task_Lifter

/-- C18 at a pass in `MOVING` with the target 0 and the encoder at 15. -/
theorem C18_output_clamp_witness :
    -70 ≤ (LifterRun_cycle
      { LifterRun_init { pwm := 0, commands := [] }
          { sh := SlaveShares.allClear, writes := [] } with
        state := state_t.MOVING } 15).Lifter.pwm ∧
    (LifterRun_cycle
      { LifterRun_init { pwm := 0, commands := [] }
          { sh := SlaveShares.allClear, writes := [] } with
        state := state_t.MOVING } 15).Lifter.pwm ≤ 70 :=
  have h := (C18_output_clamp
    { LifterRun_init { pwm := 0, commands := [] }
        { sh := SlaveShares.allClear, writes := [] } with
      state := state_t.MOVING } 15 []).1 rfl
  ⟨h.2.1, h.2.2.1⟩

/-- One pass in `MOVING` whose error is out of tolerance: the lifter stays in `MOVING` and
writes no shared variable. -/
theorem LifterRun_step_far (w : LifterTask) (s : Int × Int)
    (hst : w.state = state_t.MOVING)
    (hfar : CLOSE_ENOUGH ≤ std.abs (wrapS32 (s.1 - s.2))) :
    (LifterRun_step w s).state = state_t.MOVING ∧
    (LifterRun_step w s).ctx.writes = w.ctx.writes ∧
    (LifterRun_step w s).ctx.sh.LifterArrived.get = w.ctx.sh.LifterArrived.get := by
  have hnot : ¬ std.abs (wrapS32 (s.1 - s.2)) < CLOSE_ENOUGH := not_lt.mpr hfar
  simp [LifterRun_step, LifterRun_cycle, hst, TaskShare.put, TaskShare.get, hnot, LONG_ENOUGH]

/-- Any number of passes in `MOVING` whose error is out of tolerance leave the lifter in
`MOVING`, without a write to a shared variable. -/
theorem LifterRun_cycles_far (samples : List (Int × Int)) (w : LifterTask)
    (hst : w.state = state_t.MOVING)
    (hfar : ∀ s ∈ samples, CLOSE_ENOUGH ≤ std.abs (wrapS32 (s.1 - s.2))) :
    (LifterRun_cycles w samples).state = state_t.MOVING ∧
    (LifterRun_cycles w samples).ctx.writes = w.ctx.writes ∧
    (LifterRun_cycles w samples).ctx.sh.LifterArrived.get = w.ctx.sh.LifterArrived.get := by
  induction samples using List.reverseRecOn with
  | nil => exact ⟨hst, rfl, rfl⟩
  | append_singleton xs x ih =>
    obtain ⟨a1, a2, a3⟩ := ih (fun s hs => hfar s (List.mem_append_left _ hs))
    obtain ⟨b1, b2, b3⟩ := LifterRun_step_far (LifterRun_cycles w xs) x a1 (hfar x (by simp))
    rw [LifterRun_cycles_append]
    exact ⟨b1, b2.trans a2, b3.trans a3⟩

end task_Lifter

namespace task_Claw

/-- Running one more pass of the claw task. -/
theorem ClawRun_cycles_append (w : ClawTask) (es : List ClawEnv) (e : ClawEnv) :
    ClawRun_cycles w (es ++ [e]) = ClawRun_step (ClawRun_cycles w es) e := by
  simp [ClawRun_cycles, List.foldl_append]

/-- What one pass of the claw task writes, whatever its state: `ClawArrived` true when the
pass enters a rest state, `ClawArrived` false when it leaves one, nothing otherwise; and
the flag agrees with the state afterwards if it did before. -/
theorem ClawRun_step_writes (w : ClawTask) (e : ClawEnv) :
    (ClawRun_step w e).ctx.writes = w.ctx.writes ++
      (if atRestState w.state = false ∧ atRestState (ClawRun_step w e).state = true then
        [SlaveWrite.ClawArrived true]
      else if atRestState w.state = true ∧ atRestState (ClawRun_step w e).state = false then
        [SlaveWrite.ClawArrived false]
      else []) ∧
    (w.ctx.sh.ClawArrived.get = atRestState w.state →
      (ClawRun_step w e).ctx.sh.ClawArrived.get = atRestState (ClawRun_step w e).state) := by
  obtain ⟨st, m, ctx⟩ := w
  obtain ⟨mc, pressed⟩ := e
  cases st <;> cases pressed <;> by_cases ho : mc = 0 <;> by_cases hcl : mc = 1 <;>
    first
    | omega
    | simp [ClawRun_step, ClawRun_cycle, atRestState, TaskShare.get, TaskShare.put,
        SlaveCtx.put_ClawArrived, ho, hcl, OPENCLAW, CLOSECLAW]

/-- Over any number of passes the flag `ClawArrived` agrees with the state if it did at the
start. -/
theorem ClawRun_cycles_flag (es : List ClawEnv) (w : ClawTask)
    (hw : w.ctx.sh.ClawArrived.get = atRestState w.state) :
    (ClawRun_cycles w es).ctx.sh.ClawArrived.get = atRestState (ClawRun_cycles w es).state := by
  induction es using List.reverseRecOn with
  | nil => exact hw
  | append_singleton xs x ih =>
    rw [ClawRun_cycles_append]
    exact (ClawRun_step_writes _ x).2 ih

/-- When `ClawConstructor` returns, it has put 0 to `moveClaw` and then true to
`ClawArrived`, and the motor is off. -/
theorem ClawConstructor_done (Claw : Motor) (ctx : SlaveCtx) (readings : List Bool)
    (m0 : Motor) (c0 : SlaveCtx)
    (h : ClawConstructor Claw ctx readings = Outcome.done (m0, c0)) :
    c0 = (ctx.put_moveClaw 0).put_ClawArrived true ∧ m0.pwm = OFF := by
  unfold ClawConstructor at h
  simp only at h
  split at h
  · exact absurd h (by simp)
  · split at h
    · exact absurd h (by simp)
    · simp only [Outcome.done.injEq, Prod.mk.injEq] at h
      exact ⟨h.2.symm, by rw [← h.1]; rfl⟩

end task_Claw

namespace task_Claw

/-- C19. Claw arrived flag. `ClawConstructor` has returned, leaving `ClawArrived` true, and
`ClawRun` starts in `OPEN`. After any number of passes, whatever the sequencer writes to
`moveClaw` and whatever the touch sensor reads, `ClawArrived` is true if and only if the
state is `OPEN` or `CLOSED`. And the next pass puts `ClawArrived` true exactly when it
enters one of these two states, puts it false exactly when it leaves one, and otherwise
writes nothing. -/
theorem C19_claw_arrived_flag (Claw : Motor) (ctx : SlaveCtx) (readings : List Bool)
    (m0 : Motor) (c0 : SlaveCtx) (es : List ClawEnv) (e : ClawEnv)
    (h : ClawConstructor Claw ctx readings = Outcome.done (m0, c0)) :
    c0.sh.ClawArrived.get = true ∧
    (ClawRun_init m0 c0).state = state_t.OPEN ∧
    ((ClawRun_cycles (ClawRun_init m0 c0) es).ctx.sh.ClawArrived.get = true ↔
      (ClawRun_cycles (ClawRun_init m0 c0) es).state = state_t.OPEN ∨
      (ClawRun_cycles (ClawRun_init m0 c0) es).state = state_t.CLOSED) ∧
    (ClawRun_step (ClawRun_cycles (ClawRun_init m0 c0) es) e).ctx.writes =
      (ClawRun_cycles (ClawRun_init m0 c0) es).ctx.writes ++
        (if atRestState (ClawRun_cycles (ClawRun_init m0 c0) es).state = false ∧
            atRestState (ClawRun_step (ClawRun_cycles (ClawRun_init m0 c0) es) e).state = true
          then [SlaveWrite.ClawArrived true]
        else if atRestState (ClawRun_cycles (ClawRun_init m0 c0) es).state = true ∧
            atRestState (ClawRun_step (ClawRun_cycles (ClawRun_init m0 c0) es) e).state = false
          then [SlaveWrite.ClawArrived false]
        else []) := by
  obtain ⟨hc, _⟩ := ClawConstructor_done Claw ctx readings m0 c0 h
  have h0 : c0.sh.ClawArrived.get = true := by rw [hc]; rfl
  have hflag := ClawRun_cycles_flag es (ClawRun_init m0 c0) (h0.trans rfl)
  refine ⟨h0, rfl, ?_, (ClawRun_step_writes _ e).1⟩
  rw [hflag]
  cases (ClawRun_cycles (ClawRun_init m0 c0) es).state <;> simp [atRestState]

/-- C19 on a start-up in which the sensor reads released, pressed, pressed, released,
followed by a command to close with the sensor released. -/
theorem C19_claw_arrived_flag_witness :
    ClawConstructor { pwm := 0, commands := [] } { sh := SlaveShares.allClear, writes := [] }
        [false, true, true, false]
      = Outcome.done ({ pwm := 0, commands := [OPENING_SPEED, OFF] },
          SlaveCtx.put_ClawArrived
            (SlaveCtx.put_moveClaw { sh := SlaveShares.allClear, writes := [] } 0) true) ∧
    ((ClawRun_cycles
        (ClawRun_init { pwm := 0, commands := [OPENING_SPEED, OFF] }
          (SlaveCtx.put_ClawArrived
            (SlaveCtx.put_moveClaw { sh := SlaveShares.allClear, writes := [] } 0) true))
        [{ moveClaw := CLOSECLAW, pressed := false }]).ctx.sh.ClawArrived.get = true ↔
      (ClawRun_cycles
        (ClawRun_init { pwm := 0, commands := [OPENING_SPEED, OFF] }
          (SlaveCtx.put_ClawArrived
            (SlaveCtx.put_moveClaw { sh := SlaveShares.allClear, writes := [] } 0) true))
        [{ moveClaw := CLOSECLAW, pressed := false }]).state = state_t.OPEN ∨
      (ClawRun_cycles
        (ClawRun_init { pwm := 0, commands := [OPENING_SPEED, OFF] }
          (SlaveCtx.put_ClawArrived
            (SlaveCtx.put_moveClaw { sh := SlaveShares.allClear, writes := [] } 0) true))
        [{ moveClaw := CLOSECLAW, pressed := false }]).state = state_t.CLOSED) :=
  ⟨rfl,
    (C19_claw_arrived_flag { pwm := 0, commands := [] }
      { sh := SlaveShares.allClear, writes := [] } [false, true, true, false]
      { pwm := 0, commands := [OPENING_SPEED, OFF] }
      (SlaveCtx.put_ClawArrived
        (SlaveCtx.put_moveClaw { sh := SlaveShares.allClear, writes := [] } 0) true)
      [{ moveClaw := CLOSECLAW, pressed := false }]
      { moveClaw := CLOSECLAW, pressed := false } rfl).2.2.1⟩

/-- Any number of passes in `CLOSING` with the sensor unpressed, or in `OPENING` with the
sensor pressed, leave the state and write no shared variable. -/
theorem ClawRun_cycles_blocked (es : List ClawEnv) (w : ClawTask)
    (hb : (w.state = state_t.CLOSING ∧ ∀ e ∈ es, e.pressed = false) ∨
      (w.state = state_t.OPENING ∧ ∀ e ∈ es, e.pressed = true)) :
    (ClawRun_cycles w es).state = w.state ∧
    (ClawRun_cycles w es).ctx.writes = w.ctx.writes ∧
    (ClawRun_cycles w es).ctx.sh.ClawArrived.get = w.ctx.sh.ClawArrived.get := by
  induction es using List.reverseRecOn with
  | nil => exact ⟨rfl, rfl, rfl⟩
  | append_singleton xs x ih =>
    rw [ClawRun_cycles_append]
    rcases hb with ⟨hs, hp⟩ | ⟨hs, hp⟩
    · obtain ⟨a1, a2, a3⟩ := ih (Or.inl ⟨hs, fun e he => hp e (List.mem_append_left _ he)⟩)
      have hx := hp x (by simp)
      have hst : (ClawRun_cycles w xs).state = state_t.CLOSING := a1.trans hs
      rw [← a1, ← a2, ← a3]
      simp [ClawRun_step, ClawRun_cycle, hst, hx, TaskShare.get, TaskShare.put]
    · obtain ⟨a1, a2, a3⟩ := ih (Or.inr ⟨hs, fun e he => hp e (List.mem_append_left _ he)⟩)
      have hx := hp x (by simp)
      have hst : (ClawRun_cycles w xs).state = state_t.OPENING := a1.trans hs
      rw [← a1, ← a2, ← a3]
      simp [ClawRun_step, ClawRun_cycle, hst, hx, TaskShare.get, TaskShare.put]

/-- C20. No actuator advances past an unmet exit guard. For every number of passes: claw
passes in `CLOSING` with the touch sensor unpressed leave the state `CLOSING`, and passes
in `OPENING` with the sensor pressed leave the state `OPENING`; lifter passes in `MOVING`
whose error is out of tolerance (the error being the difference of target and encoder
count as an `S32`, and the test the one of the source, `std::abs(error) < CLOSE_ENOUGH`,
failing) leave the state `MOVING`. In all three no shared variable is written, so
`ClawArrived` and `LifterArrived` keep the value false they have in these states. -/
theorem C20_unmet_guard_holds (wc : ClawTask) (es : List ClawEnv)
    (wl : task_Lifter.LifterTask) (samples : List (Int × Int)) :
    (wc.state = state_t.CLOSING → (∀ e ∈ es, e.pressed = false) →
      (ClawRun_cycles wc es).state = state_t.CLOSING ∧
      (ClawRun_cycles wc es).ctx.writes = wc.ctx.writes ∧
      (wc.ctx.sh.ClawArrived.get = false →
        (ClawRun_cycles wc es).ctx.sh.ClawArrived.get = false)) ∧
    (wc.state = state_t.OPENING → (∀ e ∈ es, e.pressed = true) →
      (ClawRun_cycles wc es).state = state_t.OPENING ∧
      (ClawRun_cycles wc es).ctx.writes = wc.ctx.writes ∧
      (wc.ctx.sh.ClawArrived.get = false →
        (ClawRun_cycles wc es).ctx.sh.ClawArrived.get = false)) ∧
    (wl.state = task_Lifter.state_t.MOVING →
      (∀ s ∈ samples, task_Lifter.CLOSE_ENOUGH ≤ std.abs (wrapS32 (s.1 - s.2))) →
      (task_Lifter.LifterRun_cycles wl samples).state = task_Lifter.state_t.MOVING ∧
      (task_Lifter.LifterRun_cycles wl samples).ctx.writes = wl.ctx.writes ∧
      (wl.ctx.sh.LifterArrived.get = false →
        (task_Lifter.LifterRun_cycles wl samples).ctx.sh.LifterArrived.get = false)) := by
  refine ⟨?_, ?_, ?_⟩
  · intro hs hp
    obtain ⟨a1, a2, a3⟩ := ClawRun_cycles_blocked es wc (Or.inl ⟨hs, hp⟩)
    exact ⟨a1.trans hs, a2, fun hf => a3.trans hf⟩
  · intro hs hp
    obtain ⟨a1, a2, a3⟩ := ClawRun_cycles_blocked es wc (Or.inr ⟨hs, hp⟩)
    exact ⟨a1.trans hs, a2, fun hf => a3.trans hf⟩
  · intro hs hp
    obtain ⟨a1, a2, a3⟩ := task_Lifter.LifterRun_cycles_far samples wl hs hp
    exact ⟨a1, a2, fun hf => a3.trans hf⟩

/-- C20 at three claw passes in `CLOSING` with the sensor unpressed, at two claw passes in
`OPENING` with the sensor pressed, and at three lifter passes in `MOVING` toward the target
100 with the encoder at 0, 50 and 120: the states are kept, the lifter writes nothing and
`LifterArrived` stays false. -/
theorem C20_unmet_guard_holds_witness :
    (ClawRun_cycles
      { state := state_t.CLOSING, Claw := { pwm := 0, commands := [] },
        ctx := { sh := SlaveShares.allClear, writes := [] } }
      [{ moveClaw := CLOSECLAW, pressed := false }, { moveClaw := OPENCLAW, pressed := false },
       { moveClaw := CLOSECLAW, pressed := false }]).state = state_t.CLOSING ∧
    (ClawRun_cycles
      { state := state_t.OPENING, Claw := { pwm := 0, commands := [] },
        ctx := { sh := SlaveShares.allClear, writes := [] } }
      [{ moveClaw := OPENCLAW, pressed := true },
       { moveClaw := CLOSECLAW, pressed := true }]).state = state_t.OPENING ∧
    ((task_Lifter.LifterRun_cycles
        { task_Lifter.LifterRun_init { pwm := 0, commands := [] }
            { sh := SlaveShares.allClear, writes := [] } with
          state := task_Lifter.state_t.MOVING }
        [(100, 0), (100, 50), (100, 120)]).state = task_Lifter.state_t.MOVING ∧
      (task_Lifter.LifterRun_cycles
        { task_Lifter.LifterRun_init { pwm := 0, commands := [] }
            { sh := SlaveShares.allClear, writes := [] } with
          state := task_Lifter.state_t.MOVING }
        [(100, 0), (100, 50), (100, 120)]).ctx.writes = [] ∧
      (task_Lifter.LifterRun_cycles
        { task_Lifter.LifterRun_init { pwm := 0, commands := [] }
            { sh := SlaveShares.allClear, writes := [] } with
          state := task_Lifter.state_t.MOVING }
        [(100, 0), (100, 50), (100, 120)]).ctx.sh.LifterArrived.get = false) :=
  have h := C20_unmet_guard_holds
    { state := state_t.CLOSING, Claw := { pwm := 0, commands := [] },
      ctx := { sh := SlaveShares.allClear, writes := [] } }
    [{ moveClaw := CLOSECLAW, pressed := false }, { moveClaw := OPENCLAW, pressed := false },
     { moveClaw := CLOSECLAW, pressed := false }]
    { task_Lifter.LifterRun_init { pwm := 0, commands := [] }
        { sh := SlaveShares.allClear, writes := [] } with
      state := task_Lifter.state_t.MOVING }
    [(100, 0), (100, 50), (100, 120)]
  have g := C20_unmet_guard_holds
    { state := state_t.OPENING, Claw := { pwm := 0, commands := [] },
      ctx := { sh := SlaveShares.allClear, writes := [] } }
    [{ moveClaw := OPENCLAW, pressed := true }, { moveClaw := CLOSECLAW, pressed := true }]
    (task_Lifter.LifterRun_init { pwm := 0, commands := [] }
      { sh := SlaveShares.allClear, writes := [] }) []
  have hl := h.2.2 rfl (by
    intro s hs
    simp only [List.mem_cons, List.mem_singleton, List.not_mem_nil, or_false] at hs
    rcases hs with hs | hs | hs <;> subst hs <;>
      norm_num [std.abs, wrapS32, task_Lifter.CLOSE_ENOUGH])
  ⟨(h.1 rfl (by decide)).1, (g.2.1 rfl (by decide)).1, hl.1, hl.2.1, hl.2.2 rfl⟩

end task_Claw

namespace task_MComm

open Master

/-- What one pass of the comm task does to the serial line, whatever its state: a pass in
`SEND` hands exactly one byte, the value of `ShareMsgID`, to the transport and takes
nothing from it; a pass in `IDLE` or `GET` hands over nothing, and only a pass in `IDLE`
takes a byte. -/
theorem CommRun_cycle_line (v : CommTask) :
    (v.state = state_t.SEND →
      (CommRun_cycle v).node.MsgComm.tx = v.node.MsgComm.tx ++ [toU8 v.node.sh.ShareMsgID.get] ∧
      (CommRun_cycle v).node.MsgComm.rx = v.node.MsgComm.rx) ∧
    (v.state = state_t.GET →
      (CommRun_cycle v).node.MsgComm = v.node.MsgComm) ∧
    (v.state = state_t.IDLE →
      (CommRun_cycle v).node.MsgComm.tx = v.node.MsgComm.tx ∧
      (CommRun_cycle v).node.MsgComm.rx = v.node.MsgComm.rx.drop 1 ∧
      (CommRun_cycle v).node.sh = v.node.sh ∧
      (CommRun_cycle v).node.log = v.node.log) := by
  refine ⟨?_, ?_, ?_⟩
  · intro h
    simp [CommRun_cycle, h, Node.SendMsgSimple, MessageClass.SendMsgSimple, Rs485.send,
      Node.put_MsgReady2Send, TaskShare.get]
  · intro h
    simp [CommRun_cycle, h, Node.put_ShareMsgID, Node.put_MsgReady2Get]
  · intro h
    simp only [CommRun_cycle, h]
    split_ifs <;> simp [MessageClass.GetMsgSimple, Rs485.receive]

/-- C13. Inbound preempts outbound. The comm task is in `IDLE`, the byte `id` (not
`idNoMsg`) is pending on the line and `MsgReady2Send` is set. The pass that polls the byte
transmits nothing, writes no shared variable and moves to `GET`. The next pass publishes
the id (`ShareMsgID` put `id`, then `MsgReady2Get` put true), still transmits nothing, and
leaves `MsgReady2Send` set. And for every pass in every state: it hands at most one byte
to the transport, and when it hands one over it takes none from the line. -/
theorem C13_inbound_preempts_outbound (w v : CommTask) (id : comDataID) (rest : List Nat)
    (hst : w.state = state_t.IDLE) (hrx : w.node.MsgComm.rx = id :: rest)
    (hid : id ≠ MessageClass.idNoMsg) (hbyte : id < 256)
    (hsend : w.node.sh.MsgReady2Send.get = true) :
    ((CommRun_cycle w).state = state_t.GET ∧
      (CommRun_cycle w).node.MsgComm.tx = w.node.MsgComm.tx ∧
      (CommRun_cycle w).node.MsgComm.rx = rest ∧
      (CommRun_cycle w).node.sh = w.node.sh ∧
      (CommRun_cycle w).node.log = w.node.log) ∧
    ((CommRun_cycle (CommRun_cycle w)).state = state_t.IDLE ∧
      (CommRun_cycle (CommRun_cycle w)).node.log
        = w.node.log ++ [Event.put_ShareMsgID id, Event.put_MsgReady2Get true] ∧
      (CommRun_cycle (CommRun_cycle w)).node.sh.ShareMsgID.get = id ∧
      (CommRun_cycle (CommRun_cycle w)).node.sh.MsgReady2Get.get = true ∧
      (CommRun_cycle (CommRun_cycle w)).node.sh.MsgReady2Send.get = true ∧
      (CommRun_cycle (CommRun_cycle w)).node.MsgComm.tx = w.node.MsgComm.tx) ∧
    ((CommRun_cycle v).node.MsgComm.tx = v.node.MsgComm.tx ∨
      (∃ b, (CommRun_cycle v).node.MsgComm.tx = v.node.MsgComm.tx ++ [b]) ∧
        (CommRun_cycle v).node.MsgComm.rx = v.node.MsgComm.rx) := by
  have hid0 : ¬ id = 0 := hid
  have hmod : id % 256 = id := Nat.mod_eq_of_lt hbyte
  have hsend2 : w.node.sh.MsgReady2Send.data = true := hsend
  refine ⟨?_, ?_, ?_⟩
  · simp [CommRun_cycle, hst, MessageClass.GetMsgSimple, Rs485.receive, hrx,
      MessageClass.isEmptySimple, MessageClass.idNoMsg, hid0]
  · simp [CommRun_cycle, hst, MessageClass.GetMsgSimple, Rs485.receive, hrx,
      MessageClass.isEmptySimple, MessageClass.idNoMsg, hid0, MessageClass.GetMsgDataSimple,
      Node.put_ShareMsgID, Node.put_MsgReady2Get, TaskShare.get, TaskShare.put, toU8, hmod,
      hsend2]
  · obtain ⟨a, b, c⟩ := CommRun_cycle_line v
    cases hv : v.state
    · exact Or.inl (c hv).1
    · exact Or.inr ⟨⟨_, (a hv).1⟩, (a hv).2⟩
    · exact Or.inl (by rw [b hv])

/-- C13 at a comm task in `IDLE` with `idInitDone` pending and a message waiting to be
sent. -/
theorem C13_inbound_preempts_outbound_witness :
    (CommRun_cycle
      (CommRun_init MessageClass.zeroed 0
        { sh := { MasterShares.allClear with MsgReady2Send := { data := true } },
          MsgComm := { rx := [MessageClass.idInitDone], tx := [] }, log := [] })).state
      = state_t.GET ∧
    (CommRun_cycle
      (CommRun_init MessageClass.zeroed 0
        { sh := { MasterShares.allClear with MsgReady2Send := { data := true } },
          MsgComm := { rx := [MessageClass.idInitDone], tx := [] }, log := [] })).node.MsgComm.tx
      = [] :=
  have h := (C13_inbound_preempts_outbound
    (CommRun_init MessageClass.zeroed 0
      { sh := { MasterShares.allClear with MsgReady2Send := { data := true } },
        MsgComm := { rx := [MessageClass.idInitDone], tx := [] }, log := [] })
    (CommRun_init MessageClass.zeroed 0
      { sh := MasterShares.allClear, MsgComm := { rx := [], tx := [] }, log := [] })
    MessageClass.idInitDone [] rfl rfl (by decide) (by decide) rfl).1
  ⟨h.1, h.2.1⟩

end task_MComm

namespace task_MComm

open Master

/-- Running one more pass of the comm task. -/
theorem CommRun_cycles_append (w : CommTask) (es : List Env) (e : Env) :
    CommRun_cycles w (es ++ [e]) = CommRun_step (CommRun_cycles w es) e := by
  simp [CommRun_cycles, List.foldl_append]

/-- A pass that begins outside `SEND` with `MsgReady2Send` clear transmits nothing, ends
outside `SEND` and leaves `MsgReady2Send` clear. -/
theorem CommRun_cycle_quiet (v : CommTask)
    (hst : v.state ≠ state_t.SEND) (hclear : v.node.sh.MsgReady2Send.get = false) :
    (CommRun_cycle v).state ≠ state_t.SEND ∧
    (CommRun_cycle v).node.sh.MsgReady2Send.get = false ∧
    (CommRun_cycle v).node.MsgComm.tx = v.node.MsgComm.tx := by
  have hclear2 : v.node.sh.MsgReady2Send.data = false := hclear
  cases hv : v.state
  · simp only [CommRun_cycle, hv]
    split_ifs <;>
      simp_all [MessageClass.GetMsgSimple, Rs485.receive, TaskShare.get]
  · exact absurd hv hst
  · simp [CommRun_cycle, hv, Node.put_ShareMsgID, Node.put_MsgReady2Get, TaskShare.get,
      TaskShare.put, hclear2]

/-- While no other task sets `MsgReady2Send`, a comm task that begins outside `SEND` with
the flag clear never transmits. -/
theorem CommRun_cycles_quiet (es : List Env) (v : CommTask)
    (hst : v.state ≠ state_t.SEND) (hclear : v.node.sh.MsgReady2Send.get = false)
    (hothers : ∀ e ∈ es, ∀ sh : MasterShares,
      sh.MsgReady2Send.get = false → (e.others sh).MsgReady2Send.get = false) :
    (CommRun_cycles v es).state ≠ state_t.SEND ∧
    (CommRun_cycles v es).node.sh.MsgReady2Send.get = false ∧
    (CommRun_cycles v es).node.MsgComm.tx = v.node.MsgComm.tx := by
  induction es using List.reverseRecOn with
  | nil => exact ⟨hst, hclear, rfl⟩
  | append_singleton xs x ih =>
    obtain ⟨a1, a2, a3⟩ := ih (fun e he => hothers e (List.mem_append_left _ he))
    rw [CommRun_cycles_append]
    have hx := hothers x (by simp) _ a2
    obtain ⟨b1, b2, b3⟩ := CommRun_cycle_quiet
      { CommRun_cycles v xs with node := (CommRun_cycles v xs).node.interfere x } a1 hx
    exact ⟨b1, b2, b3.trans a3⟩

/-- C14. Outbound. The comm task is in `IDLE`, its poll returns no inbound message and
`MsgReady2Send` is set: the pass transmits nothing and moves to `SEND`. A pass in `SEND`
hands exactly one byte to the transport, the value of `ShareMsgID`, then puts
`MsgReady2Send` false, and leaves `MsgReady2Get` and `ShareMsgID` as they are. And while
`MsgReady2Send` is clear and no other task sets it, a comm task that is not already in
`SEND` never transmits, over any number of passes. -/
theorem C14_outbound (w s v : CommTask) (es : List Env) :
    (w.state = state_t.IDLE →
      (MessageClass.GetMsgSimple w.p_curMsg w.node.MsgComm).2.2 = MessageClass.idNoMsg →
      w.node.sh.MsgReady2Send.get = true →
      (CommRun_cycle w).state = state_t.SEND ∧
      (CommRun_cycle w).node.MsgComm.tx = w.node.MsgComm.tx ∧
      (CommRun_cycle w).node.sh = w.node.sh ∧
      (CommRun_cycle w).node.log = w.node.log) ∧
    (s.state = state_t.SEND → s.node.sh.ShareMsgID.get < 256 →
      (CommRun_cycle s).state = state_t.IDLE ∧
      (CommRun_cycle s).node.MsgComm.tx = s.node.MsgComm.tx ++ [s.node.sh.ShareMsgID.get] ∧
      (CommRun_cycle s).node.MsgComm.rx = s.node.MsgComm.rx ∧
      (CommRun_cycle s).node.log = s.node.log ++
        [Event.transmit [s.node.sh.ShareMsgID.get], Event.put_MsgReady2Send false] ∧
      (CommRun_cycle s).node.sh.MsgReady2Send.get = false ∧
      (CommRun_cycle s).node.sh.MsgReady2Get.get = s.node.sh.MsgReady2Get.get ∧
      (CommRun_cycle s).node.sh.ShareMsgID.get = s.node.sh.ShareMsgID.get) ∧
    (v.state ≠ state_t.SEND → v.node.sh.MsgReady2Send.get = false →
      (∀ e ∈ es, ∀ sh : MasterShares,
        sh.MsgReady2Send.get = false → (e.others sh).MsgReady2Send.get = false) →
      (CommRun_cycles v es).node.MsgComm.tx = v.node.MsgComm.tx) := by
  refine ⟨?_, ?_, ?_⟩
  · intro hst hpoll hsend
    have hsend2 : w.node.sh.MsgReady2Send.data = true := hsend
    have hempty : MessageClass.isEmptySimple
        (MessageClass.GetMsgSimple w.p_curMsg w.node.MsgComm).1 = true := by
      have : (MessageClass.GetMsgSimple w.p_curMsg w.node.MsgComm).1.SimpleID
          = (MessageClass.GetMsgSimple w.p_curMsg w.node.MsgComm).2.2 := rfl
      simp [MessageClass.isEmptySimple, this, hpoll]
    simp only [CommRun_cycle, hst, hempty]
    simp [TaskShare.get, hsend2, MessageClass.GetMsgSimple, Rs485.receive]
  · intro hst hbyte
    have hbyte2 : s.node.sh.ShareMsgID.data < 256 := hbyte
    have hmod : s.node.sh.ShareMsgID.data % 256 = s.node.sh.ShareMsgID.data :=
      Nat.mod_eq_of_lt hbyte2
    simp [CommRun_cycle, hst, Node.SendMsgSimple, MessageClass.SendMsgSimple, Rs485.send,
      Node.put_MsgReady2Send, TaskShare.get, TaskShare.put, toU8, hmod]
  · intro hst hclear hothers
    exact (CommRun_cycles_quiet es v hst hclear hothers).2.2

/-- C14 at a comm task in `SEND` with `idPrepForGrabRings` in `ShareMsgID`. -/
theorem C14_outbound_witness :
    (CommRun_cycle
      { state := state_t.SEND, p_curMsg := MessageClass.zeroed, msgID := 0,
        node := { sh := { MasterShares.allClear with
                            ShareMsgID := { data := MessageClass.idPrepForGrabRings },
                            MsgReady2Send := { data := true } },
                  MsgComm := { rx := [], tx := [] }, log := [] } }).node.MsgComm.tx
      = [] ++ [MessageClass.idPrepForGrabRings] ∧
    (CommRun_cycle
      { state := state_t.SEND, p_curMsg := MessageClass.zeroed, msgID := 0,
        node := { sh := { MasterShares.allClear with
                            ShareMsgID := { data := MessageClass.idPrepForGrabRings },
                            MsgReady2Send := { data := true } },
                  MsgComm := { rx := [], tx := [] }, log := [] } }).node.sh.MsgReady2Send.get
      = false :=
  have h := (C14_outbound
    (CommRun_init MessageClass.zeroed 0
      { sh := MasterShares.allClear, MsgComm := { rx := [], tx := [] }, log := [] })
    { state := state_t.SEND, p_curMsg := MessageClass.zeroed, msgID := 0,
      node := { sh := { MasterShares.allClear with
                          ShareMsgID := { data := MessageClass.idPrepForGrabRings },
                          MsgReady2Send := { data := true } },
                MsgComm := { rx := [], tx := [] }, log := [] } }
    (CommRun_init MessageClass.zeroed 0
      { sh := MasterShares.allClear, MsgComm := { rx := [], tx := [] }, log := [] })
    []).2.1 rfl (by decide)
  ⟨h.2.1, h.2.2.2.2.1⟩

end task_MComm

namespace task_MasterMind

open Master

/-- When a polling loop ends, its condition is false on the shared variables it leaves. -/
theorem pollWhile_done (cond : MasterShares → Bool) (ms : Nat) (es : List Env) (n : Node)
    (x : Node × List Env) (h : pollWhile cond ms n es = Outcome.done x) :
    cond x.1.sh = false := by
  induction es generalizing n with
  | nil =>
    unfold pollWhile at h
    split_ifs at h with hc
    simp only [Outcome.done.injEq] at h
    rw [← h]
    simpa using hc
  | cons e es ih =>
    unfold pollWhile at h
    split_ifs at h with hc
    · exact ih _ h
    · simp only [Outcome.done.injEq] at h
      rw [← h]
      simpa using hc

/-- When `constructor` returns, both of its loops have ended, and it has run its last
statements from the state in which the loop on `MsgReady2Get` ended, where `MsgReady2Get`
read true. -/
theorem constructor_done (n : Node) (es : List Env) (out : Node)
    (h : constructor n es = Outcome.done out) :
    ∃ x y,
      pollWhile (fun sh => sh.CommReady.get == false) 50 (n.put_task_CommStart true) es
        = Outcome.done x ∧
      pollWhile (fun sh => sh.MsgReady2Get.get == false) 50 (x.1.put_task_NavStart true) x.2
        = Outcome.done y ∧
      y.1.sh.MsgReady2Get.get = true ∧ out = constructor_tail y.1 y.2 := by
  unfold constructor at h
  simp only at h
  split at h
  · exact absurd h (by simp)
  · rename_i x hx
    split at h
    · exact absurd h (by simp)
    · rename_i y hy
      simp only [Outcome.done.injEq] at h
      have hc := pollWhile_done _ _ _ _ _ hy
      exact ⟨x, y, hx, hy, by simpa using hc, h.symm⟩

/-- What the last statements of `constructor` add to the record: the ready text when
`ShareMsgID` is `idInitDone`, and otherwise the tone, the error text, the id and the sleep
of 10000 ms; then, in both cases, `task_LFStart` put true. The value of `MsgReady2Get` is
not looked at. -/
theorem constructor_tail_log (n : Node) (es : List Env) :
    (n.sh.ShareMsgID.get = MessageClass.idInitDone →
      (constructor_tail n es).log = n.log ++
        [Event.display MIND_LINE Text.MasterMind_Ready, Event.put_task_LFStart true]) ∧
    (n.sh.ShareMsgID.get ≠ MessageClass.idInitDone →
      (constructor_tail n es).log = n.log ++
        [Event.playTone 500 1000 20, Event.display MIND_LINE Text.ERROR,
         Event.displayNumber DEBUG n.sh.ShareMsgID.get, Event.sleep 10000,
         Event.put_task_LFStart true]) ∧
    (constructor_tail n es).sh.task_LFStart.get = true ∧
    (∀ b : Bool,
      (constructor_tail { n with sh := { n.sh with MsgReady2Get := { data := b } } } es).log
        = (constructor_tail n es).log) := by
  refine ⟨?_, ?_, ?_, ?_⟩
  · intro h
    have h2 : n.sh.ShareMsgID.data = 3 := h
    simp [constructor_tail, TaskShare.get, h2, toU8, MessageClass.idInitDone,
      Node.put_task_LFStart]
  · intro h
    have h2 : ¬ n.sh.ShareMsgID.data = 3 := h
    cases es <;>
      simp [constructor_tail, TaskShare.get, h2, toU8, MessageClass.idInitDone,
        Node.put_task_LFStart, pause, Node.sleep, Node.interfere]
  · by_cases h2 : n.sh.ShareMsgID.data = 3 <;> cases es <;>
      simp [constructor_tail, TaskShare.get, TaskShare.put, h2, toU8, MessageClass.idInitDone,
        Node.put_task_LFStart, pause, Node.sleep, Node.interfere]
  · intro b
    by_cases h2 : n.sh.ShareMsgID.data = 3 <;> cases es <;>
      simp [constructor_tail, TaskShare.get, TaskShare.put, h2, toU8, MessageClass.idInitDone,
        Node.put_task_LFStart, pause, Node.sleep, Node.interfere]

/-- A polling loop whose condition is already false returns at once. -/
theorem pollWhile_of_false (cond : MasterShares → Bool) (ms : Nat) (es : List Env) (n : Node)
    (h : cond n.sh = false) : pollWhile cond ms n es = Outcome.done (n, es) := by
  cases es <;> simp [pollWhile, h]

/-- A polling loop returns when the record holds an entry after which its condition is
false; what comes behind that entry in the record is still unused. -/
theorem pollWhile_returns (cond : MasterShares → Bool) (ms : Nat) (before : List Env)
    (e : Env) (after : List Env) (n : Node) (he : ∀ sh, cond (e.others sh) = false) :
    ∃ x unused, pollWhile cond ms n (before ++ e :: after) = Outcome.done x ∧
      x.2 = unused ++ after := by
  induction before generalizing n with
  | nil =>
    by_cases hc : cond n.sh = true
    · refine ⟨(n.sleep ms e, after), [], ?_, rfl⟩
      have h2 : pollWhile cond ms n ([] ++ e :: after)
          = pollWhile cond ms (n.sleep ms e) after := by
        simp [pollWhile, hc]
      rw [h2]
      exact pollWhile_of_false cond ms after _ (he n.sh)
    · exact ⟨(n, e :: after), [e],
        pollWhile_of_false cond ms _ n (by simpa using hc), rfl⟩
  | cons b bs ih =>
    by_cases hc : cond n.sh = true
    · obtain ⟨x, unused, a1, a2⟩ := ih (n.sleep ms b)
      refine ⟨x, unused, ?_, a2⟩
      rw [← a1]
      simp [pollWhile, hc]
    · exact ⟨(n, b :: bs ++ e :: after), b :: bs ++ [e],
        pollWhile_of_false cond ms _ n (by simpa using hc), by simp⟩

/-- The master constructor returns when the record of the other tasks holds an entry that
sets `CommReady` and, behind it, one that sets `MsgReady2Get`. -/
theorem constructor_returns (n : Node) (before1 before2 after : List Env) (e1 e2 : Env)
    (h1 : ∀ sh, (e1.others sh).CommReady.get = true)
    (h2 : ∀ sh, (e2.others sh).MsgReady2Get.get = true) :
    ∃ out, constructor n (before1 ++ e1 :: (before2 ++ e2 :: after)) = Outcome.done out := by
  obtain ⟨x, unused, a1, a2⟩ := pollWhile_returns (fun sh => sh.CommReady.get == false) 50
    before1 e1 (before2 ++ e2 :: after) (n.put_task_CommStart true) (by simp [h1])
  obtain ⟨y, _, b1, _⟩ := pollWhile_returns (fun sh => sh.MsgReady2Get.get == false) 50
    (unused ++ before2) e2 after (x.1.put_task_NavStart true) (by simp [h2])
  refine ⟨constructor_tail y.1 y.2, ?_⟩
  unfold constructor
  simp only [a1]
  rw [a2, ← List.append_assoc]
  simp only [b1]

/-- C11. Master handshake failure path. Every run of `constructor` that returns has ended
its loop on `MsgReady2Get` in a state (`y.1`) in which `MsgReady2Get` read true, and what
it has done from there on is decided by the id `ShareMsgID` held in that state. When the
id is `idInitDone`, the ready text is displayed and `task_LFStart` is put true, with no
tone, no error display and no pause; when it differs, the tone is played, the error text
and the id are displayed, the task sleeps 10000 ms, and then `task_LFStart` is put true.
In both cases this is all the run does after the loop: `task_LFStart` is true when the
constructor returns, whatever the other tasks do during the pause, and `MsgReady2Get` is
not waited on again (no further sleep of 50 ms, and the value it holds changes nothing).
And `constructor` does return when the other tasks set `CommReady` and later
`MsgReady2Get`. -/
theorem C11_master_handshake (n : Node) (es : List Env) (out : Node)
    (before1 before2 after : List Env) (e1 e2 : Env) :
    (constructor n es = Outcome.done out →
      ∃ x y,
        pollWhile (fun sh => sh.CommReady.get == false) 50 (n.put_task_CommStart true) es
          = Outcome.done x ∧
        pollWhile (fun sh => sh.MsgReady2Get.get == false) 50 (x.1.put_task_NavStart true) x.2
          = Outcome.done y ∧
        y.1.sh.MsgReady2Get.get = true ∧
        (y.1.sh.ShareMsgID.get = MessageClass.idInitDone →
          out.log = y.1.log ++
            [Event.display MIND_LINE Text.MasterMind_Ready, Event.put_task_LFStart true]) ∧
        (y.1.sh.ShareMsgID.get ≠ MessageClass.idInitDone →
          out.log = y.1.log ++
            [Event.playTone 500 1000 20, Event.display MIND_LINE Text.ERROR,
             Event.displayNumber DEBUG y.1.sh.ShareMsgID.get, Event.sleep 10000,
             Event.put_task_LFStart true]) ∧
        out.sh.task_LFStart.get = true ∧
        (∀ b : Bool,
          (constructor_tail
            { y.1 with sh := { y.1.sh with MsgReady2Get := { data := b } } } y.2).log
            = out.log)) ∧
    ((∀ sh, (e1.others sh).CommReady.get = true) →
      (∀ sh, (e2.others sh).MsgReady2Get.get = true) →
      ∃ o, constructor n (before1 ++ e1 :: (before2 ++ e2 :: after)) = Outcome.done o) := by
  refine ⟨?_, constructor_returns n before1 before2 after e1 e2⟩
  intro hret
  obtain ⟨x, y, hx, hy, hget, hout⟩ := constructor_done n es out hret
  obtain ⟨t1, t2, t3, t4⟩ := constructor_tail_log y.1 y.2
  subst hout
  exact ⟨x, y, hx, hy, hget, t1, t2, t3, t4⟩

/-- C11 at a start-up in which the comm task sets `CommReady` during the first sleep, then
delivers the id 7, not `idInitDone`, and `MsgReady2Get` is cleared again during the pause:
the constructor returns, having played the tone, displayed the error text and the id,
slept 10000 ms and then put `task_LFStart` true, with `MsgReady2Get` reading false. -/
theorem C11_master_handshake_witness :
    constructor bootNode [commReady, delivers 7, clearsReady2Get]
      = Outcome.done
          (constructor_tail
            (((bootNode.put_task_CommStart true).sleep 50 commReady).put_task_NavStart
              true |>.sleep 50 (delivers 7))
            [clearsReady2Get]) ∧
    (constructor_tail
        (((bootNode.put_task_CommStart true).sleep 50 commReady).put_task_NavStart
          true |>.sleep 50 (delivers 7))
        [clearsReady2Get]).log =
      [Event.put_task_CommStart true, Event.sleep 50, Event.put_task_NavStart true,
       Event.sleep 50, Event.playTone 500 1000 20, Event.display MIND_LINE Text.ERROR,
       Event.displayNumber DEBUG 7, Event.sleep 10000, Event.put_task_LFStart true] ∧
    (constructor_tail
        (((bootNode.put_task_CommStart true).sleep 50 commReady).put_task_NavStart
          true |>.sleep 50 (delivers 7))
        [clearsReady2Get]).sh.task_LFStart.get = true ∧
    (constructor_tail
        (((bootNode.put_task_CommStart true).sleep 50 commReady).put_task_NavStart
          true |>.sleep 50 (delivers 7))
        [clearsReady2Get]).sh.MsgReady2Get.get = false ∧
    (∃ o, constructor bootNode ([] ++ commReady :: ([] ++ delivers 7 :: []))
      = Outcome.done o) := by
  have h := C11_master_handshake bootNode [commReady, delivers 7, clearsReady2Get]
    (constructor_tail
      (((bootNode.put_task_CommStart true).sleep 50 commReady).put_task_NavStart
        true |>.sleep 50 (delivers 7))
      [clearsReady2Get])
    [] [] [] commReady (delivers 7)
  obtain ⟨x, y, hx, hy, _, _, hbad, hlf, _⟩ := h.1 rfl
  have ex : pollWhile (fun sh => sh.CommReady.get == false) 50
      (bootNode.put_task_CommStart true) [commReady, delivers 7, clearsReady2Get]
      = Outcome.done ((bootNode.put_task_CommStart true).sleep 50 commReady,
          [delivers 7, clearsReady2Get]) := rfl
  rw [ex] at hx
  cases hx
  have ey : pollWhile (fun sh => sh.MsgReady2Get.get == false) 50
      (((bootNode.put_task_CommStart true).sleep 50 commReady).put_task_NavStart true)
      [delivers 7, clearsReady2Get]
      = Outcome.done
          (((bootNode.put_task_CommStart true).sleep 50 commReady).put_task_NavStart
            true |>.sleep 50 (delivers 7), [clearsReady2Get]) := rfl
  rw [ey] at hy
  cases hy
  exact ⟨rfl, hbad (by decide), hlf, rfl, h.2 (fun _ => rfl) (fun _ => rfl)⟩

end task_MasterMind

namespace task_MComm

open Master

end task_MComm

namespace task_MComm

open Master

end task_MComm

/-- C23. Period accounting. For 32-bit values `start_time`, `sleep_time` and a current tick
with `elapsed = tick - start_time` (as a `U32`) at most `sleep_time`, `sleep_from_for`
makes one call of `NNxt::sleep`, with the argument `sleep_time - elapsed`, and the task
runs again at tick `start_time + sleep_time` (as a `U32`). -/
theorem C23_period_accounting (c : Clock) (start_time sleep_time : Nat)
    (htick : c.tick < 4294967296) (hstart : start_time < 4294967296)
    (hsleep : sleep_time < 4294967296)
    (helapsed : toU32 ((c.tick : Int) - start_time) ≤ sleep_time) :
    (sleep_from_for c start_time sleep_time).sleeps
      = c.sleeps ++ [sleep_time - toU32 ((c.tick : Int) - start_time)] ∧
    (sleep_from_for c start_time sleep_time).tick
      = toU32 ((start_time : Int) + sleep_time) := by
  simp only [toU32] at helapsed
  simp only [sleep_from_for, Clock.sleep, Clock.getTick, toU32]
  refine ⟨?_, ?_⟩
  · congr 2
    omega
  · omega

/-- C23 at a cycle that began at tick 1000 and took 3 ms of its 10 ms period: the task
asks for 7 ms and runs again at tick 1010; and at a cycle that began 5 ticks before the
counter wraps, which runs again at tick 5. -/
theorem C23_period_accounting_witness :
    (sleep_from_for { tick := 1003, sleeps := [] } 1000 10).sleeps = [7] ∧
    (sleep_from_for { tick := 1003, sleeps := [] } 1000 10).tick = 1010 ∧
    (sleep_from_for { tick := 2, sleeps := [] } 4294967291 10).tick = 5 :=
  ⟨(C23_period_accounting { tick := 1003, sleeps := [] } 1000 10 (by decide) (by decide)
      (by decide) (by decide)).1.trans (by decide),
    (C23_period_accounting { tick := 1003, sleeps := [] } 1000 10 (by decide) (by decide)
      (by decide) (by decide)).2.trans (by decide),
    (C23_period_accounting { tick := 2, sleeps := [] } 4294967291 10 (by decide) (by decide)
      (by decide) (by decide)).2.trans (by decide)⟩

namespace MessageClass

/-- C24. `isEmpty` reports only the stored length. It returns true exactly when `MsgLen`
is 0. After `DecodeMsg` it says whether the decoded length (the byte at offset 1 of the
buffer) was zero; after `BuildMsg` with length `L` whether `L = 0`; after `clearData` it is
true; and `GetMsg` leaves its result as it was, whatever the line held and however many
bytes were received. -/
theorem C24_isEmpty_reports_length (m : MessageClass) (p : Rs485Port)
    (data2send : Nat → Nat) (dType : comDatatype) (dID : comDataID) (L : Nat) :
    (m.isEmpty = true ↔ m.MsgLen = 0) ∧
    ((DecodeMsg m).1.isEmpty = decide ((DecodeMsg m).2.len = 0) ∧
      (DecodeMsg m).2.len = m.MsgData 1) ∧
    (BuildMsg m data2send dType dID L).1.isEmpty = decide (L = 0) ∧
    m.clearData.isEmpty = true ∧
    ((GetMsg m p).1.isEmpty = m.isEmpty ∧ (GetMsg m p).1.MsgLen = m.MsgLen) := by
  have hr : List.range 3 = [0, 1, 2] := by decide
  refine ⟨?_, ⟨?_, ?_⟩, ?_, ?_, ?_, ?_⟩
  · simp [isEmpty, Nat.pos_iff_ne_zero]
  · simp [isEmpty, DecodeMsg, HEADER_LENGTH, hr, RS485_Header.setByte, Nat.pos_iff_ne_zero]
  · simp [DecodeMsg, HEADER_LENGTH, hr, RS485_Header.setByte]
  · simp [isEmpty, BuildMsg, Nat.pos_iff_ne_zero]
  · simp [isEmpty, clearData]
  · simp [isEmpty, GetMsg]
  · simp [GetMsg]

/-- C25. Transport counts. `SendMsg` makes exactly one call on the transport, a `send` of
`MsgLen + 3` bytes from offset 0, and returns the count that call returned; `GetMsg` makes
exactly one call, a `receive` of `MsgLen` bytes to offset 0 (three fewer than `SendMsg`
asks for), and returns the count that call returned; after `clearData` the `receive` asks
for zero bytes. -/
theorem C25_transport_counts (m : MessageClass) (p : Rs485Port) :
    ((SendMsg m p).2.1.calls
        = p.calls ++ [Rs485Call.send 0 (m.MsgLen + 3) (SendMsg m p).2.2] ∧
      (SendMsg m p).2.2 = (p.send m.MsgData 0 (m.MsgLen + 3)).2 ∧
      (SendMsg m p).2.1.line.tx
        = p.line.tx ++ (List.range (SendMsg m p).2.2).map m.MsgData) ∧
    ((GetMsg m p).2.1.calls
        = p.calls ++ [Rs485Call.receive 0 m.MsgLen (GetMsg m p).2.2] ∧
      (GetMsg m p).2.2 = (p.receive m.MsgData 0 m.MsgLen).2.2 ∧
      (GetMsg m p).2.2 = (p.line.rx.take m.MsgLen).length ∧
      (GetMsg m p).2.1.line.rx = p.line.rx.drop m.MsgLen) ∧
    ((GetMsg m.clearData p).2.1.calls = p.calls ++ [Rs485Call.receive 0 0 0] ∧
      (GetMsg m.clearData p).2.2 = 0 ∧
      (GetMsg m.clearData p).2.1.line = p.line) := by
  refine ⟨⟨?_, ?_, ?_⟩, ⟨?_, ?_, ?_, ?_⟩, ?_, ?_, ?_⟩ <;>
    simp [SendMsg, GetMsg, clearData, Rs485Port.send, Rs485Port.receive, HEADER_LENGTH]

end MessageClass

/-- C27. Last write wins: on a shared variable of any type, `put(a)` then `put(b)` then
`get()` returns `b`; and `get()` leaves the variable as it is, so that a second `get()`
returns `b` again. -/
theorem C27_last_write_wins {α : Type} (s : TaskShare α) (a b : α) :
    ((s.put a).put b).get = b ∧
    (let s2 := (s.put a).put b
     let first := s2.get
     let second := s2.get
     first = b ∧ second = b) := by
  simp [TaskShare.put, TaskShare.get]

namespace task_SlaveMind

/-- After `k` calls `ReadyToCheck()` that began with the counter at `c <= 3`, the counter
is `min (c + k) 3`. -/
theorem ReadyToCheck_calls_count (w : SlaveMindTask) (k : Nat) (hw : w.times_called ≤ 3) :
    (ReadyToCheck_calls w k).times_called = min (w.times_called + k) 3 := by
  induction k with
  | zero => simp [ReadyToCheck_calls, hw]
  | succ n ih =>
    simp only [ReadyToCheck_calls, ReadyToCheck]
    simp only [Bool.false_eq_true, if_false]
    split_ifs with h
    · simp only [ih] at h ⊢
      omega
    · simp only [ih, toU8] at h ⊢
      omega

/-- A call of `ReadyToCheck` leaves the counter at most 3 when it was at most 3. -/
theorem ReadyToCheck_bound (w : SlaveMindTask) (reset : Bool) (hw : w.times_called ≤ 3) :
    (ReadyToCheck w reset).1.times_called ≤ 3 := by
  cases reset
  · simp only [ReadyToCheck, Bool.false_eq_true, if_false]
    split_ifs with h
    · exact hw
    · simp only [toU8]
      omega
  · simp [ReadyToCheck, toU8]

/-- C28. `ReadyToCheck` is a saturating call counter. From its initial state the call
number `k + 1` returns true exactly when `k >= 3`, so the first three calls return false
and the later ones true. From any state a call `ReadyToCheck(true)` returns false and
leaves the counter at 1; of the calls `ReadyToCheck()` that follow, number `k + 1` returns
true exactly when `k >= 2`. And whatever the arguments of the calls made from the initial
state, `times_called` is at most 3 afterwards. -/
theorem C28_saturating_counter (ctx : SlaveCtx) (w : SlaveMindTask) (k : Nat)
    (resets : List Bool) :
    (ReadyToCheck (ReadyToCheck_calls (SlaveMindRun_init ctx) k) false).2 = decide (3 ≤ k) ∧
    ((ReadyToCheck w true).2 = false ∧ (ReadyToCheck w true).1.times_called = 1 ∧
      (ReadyToCheck (ReadyToCheck_calls (ReadyToCheck w true).1 k) false).2
        = decide (2 ≤ k)) ∧
    (ReadyToCheck_run (SlaveMindRun_init ctx) resets).1.times_called ≤ 3 := by
  have hreset : (ReadyToCheck w true).1.times_called = 1 := by
    simp [ReadyToCheck, toU8]
  refine ⟨?_, ⟨?_, hreset, ?_⟩, ?_⟩
  · have h := ReadyToCheck_calls_count (SlaveMindRun_init ctx) k (by simp [SlaveMindRun_init])
    have h0 : (SlaveMindRun_init ctx).times_called = 0 := rfl
    rw [h0] at h
    have hres := (ReadyToCheck_result (ReadyToCheck_calls (SlaveMindRun_init ctx) k)).2
    rw [h] at hres
    by_cases hk : 3 ≤ k
    · rw [decide_eq_true hk]
      exact hres.mpr (by omega)
    · rw [decide_eq_false hk]
      cases hb : (ReadyToCheck (ReadyToCheck_calls (SlaveMindRun_init ctx) k) false).2
      · rfl
      · exact absurd (hres.mp hb) (by omega)
  · simp [ReadyToCheck, toU8]
  · have h := ReadyToCheck_calls_count (ReadyToCheck w true).1 k (by omega)
    rw [hreset] at h
    have hres := (ReadyToCheck_result (ReadyToCheck_calls (ReadyToCheck w true).1 k)).2
    rw [h] at hres
    by_cases hk : 2 ≤ k
    · rw [decide_eq_true hk]
      exact hres.mpr (by omega)
    · rw [decide_eq_false hk]
      cases hb : (ReadyToCheck (ReadyToCheck_calls (ReadyToCheck w true).1 k) false).2
      · rfl
      · exact absurd (hres.mp hb) (by omega)
  · have key : ∀ (rs : List Bool) (v : SlaveMindTask), v.times_called ≤ 3 →
        (ReadyToCheck_run v rs).1.times_called ≤ 3 := by
      intro rs
      induction rs with
      | nil => intro v hv; exact hv
      | cons r rs ih =>
        intro v hv
        simp only [ReadyToCheck_run]
        exact ih _ (ReadyToCheck_bound v r hv)
    exact key resets _ (by simp [SlaveMindRun_init])

end task_SlaveMind

namespace task_SlaveMind

/-- When the four flags already read true the constructor returns without a sleep in a
loop, having done the whole sequence. -/
theorem SlaveMindConstructor_returns (sh : SlaveShares)
    (h1 : sh.CommReady.get = true) (h2 : sh.TowerArrived.get = true)
    (h3 : sh.LifterArrived.get = true) (h4 : sh.ClawArrived.get = true) :
    SlaveMindConstructor { sh := sh, log := [] } [] = Outcome.done
      { sh := { sh with task_CommStart := { data := true }
                        task_TowerStart := { data := true }
                        task_LifterStart := { data := true }
                        task_ClawStart := { data := true }
                        ShareMsgID := { data := 3 }
                        MsgReady2Send := { data := true } }
        log := [InitEvent.put_task_CommStart true, InitEvent.get_CommReady true,
          InitEvent.put_task_TowerStart true, InitEvent.get_TowerArrived true,
          InitEvent.sleep 250,
          InitEvent.put_task_LifterStart true, InitEvent.get_LifterArrived true,
          InitEvent.sleep 250,
          InitEvent.put_task_ClawStart true, InitEvent.get_ClawArrived true,
          InitEvent.put_ShareMsgID 3, InitEvent.put_MsgReady2Send true,
          InitEvent.display_SlaveMind_Ready] } := by
  have k1 : sh.CommReady.data = true := h1
  have k2 : sh.TowerArrived.data = true := h2
  have k3 : sh.LifterArrived.data = true := h3
  have k4 : sh.ClawArrived.data = true := h4
  simp [SlaveMindConstructor, waitFlag, InitCtx.put_task_CommStart,
    InitCtx.put_task_TowerStart, InitCtx.put_task_LifterStart, InitCtx.put_task_ClawStart,
    InitCtx.put_ShareMsgID, InitCtx.put_MsgReady2Send, InitCtx.pause, TaskShare.get,
    TaskShare.put, k1, k2, k3, k4, toU8, MessageClass.idInitDone]

end task_SlaveMind

namespace task_Tower

/-- Readings below the limit keep a polling loop of `TowerConstructor` asleep, one sleep
of 50 ms for each. -/
theorem waitCount_below (limit : Int) (a : List Int) (ha : ∀ x ∈ a, x < limit)
    (t : TowerTask) (rest : List Int) :
    waitCount limit t (a ++ rest)
      = waitCount limit
          { t with log := t.log ++ List.replicate a.length (Event.sleep 50) } rest := by
  induction a generalizing t with
  | nil => simp
  | cons x xs ih =>
    have hx : x < limit := ha x (by simp)
    have hxs : ∀ y ∈ xs, y < limit := fun y hy => ha y (by simp [hy])
    have hstep : waitCount limit t (x :: (xs ++ rest))
        = waitCount limit { t with log := t.log ++ [Event.sleep 50] } (xs ++ rest) := by
      simp [waitCount, hx]
    rw [List.cons_append, hstep, ih hxs]
    simp [List.replicate_succ]

/-- Every sequence of readings either stays below the limit or has a first reading that
reaches it. -/
theorem first_reaching (limit : Int) (counts : List Int) :
    (∀ x ∈ counts, x < limit) ∨
    ∃ a r rest, counts = a ++ r :: rest ∧ (∀ x ∈ a, x < limit) ∧ limit ≤ r := by
  induction counts with
  | nil => left; simp
  | cons c cs ih =>
    by_cases hc : c < limit
    · rcases ih with h | ⟨a, r, rest, h1, h2, h3⟩
      · left
        intro x hx
        rcases List.mem_cons.mp hx with rfl | hx
        · exact hc
        · exact h x hx
      · right
        refine ⟨c :: a, r, rest, by simp [h1], ?_, h3⟩
        intro x hx
        rcases List.mem_cons.mp hx with rfl | hx
        · exact hc
        · exact h2 x hx
    · right
      exact ⟨[], c, cs, rfl, by simp, by omega⟩

/-- The three ways `TowerConstructor` can go on a record of readings: all readings below
`EASIER_PART`; a first reading that reaches it and then only readings below `FINAL_POS`;
or, after that, a reading that reaches `FINAL_POS`. -/
theorem TowerConstructor_cases (t : TowerTask) (a b rest : List Int) (r1 r2 : Int)
    (ha : ∀ x ∈ a, x < EASIER_PART) (hr1 : EASIER_PART ≤ r1)
    (hb : ∀ x ∈ b, x < FINAL_POS) (hr2 : FINAL_POS ≤ r2) :
    TowerConstructor t a = Outcome.waiting
      { Tower := { pwm := 75, commands := t.Tower.commands ++ [75] }
        sh := t.sh
        log := t.log ++ [Event.reset, Event.setBrake true, Event.setPWM 75]
          ++ List.replicate a.length (Event.sleep 50) } ∧
    TowerConstructor t (a ++ r1 :: b) = Outcome.waiting
      { Tower := { pwm := 25, commands := t.Tower.commands ++ [75, 25] }
        sh := t.sh
        log := t.log ++ [Event.reset, Event.setBrake true, Event.setPWM 75]
          ++ List.replicate a.length (Event.sleep 50) ++ [Event.setPWM 25]
          ++ List.replicate b.length (Event.sleep 50) } ∧
    TowerConstructor t (a ++ r1 :: (b ++ r2 :: rest)) = Outcome.done
      { Tower := { pwm := 0, commands := t.Tower.commands ++ [75, 25, 0] }
        sh := { t.sh with TowerArrived := { data := true } }
        log := t.log ++ [Event.reset, Event.setBrake true, Event.setPWM 75]
          ++ List.replicate a.length (Event.sleep 50) ++ [Event.setPWM 25]
          ++ List.replicate b.length (Event.sleep 50)
          ++ [Event.setPWM 0, Event.put_TowerArrived true] } := by
  have hr1n : ¬ r1 < EASIER_PART := by omega
  have hr2n : ¬ r2 < FINAL_POS := by omega
  have e1 := fun (t0 : TowerTask) (rest0 : List Int) =>
    waitCount_below EASIER_PART a ha t0 rest0
  have e2 := fun (t0 : TowerTask) (rest0 : List Int) =>
    waitCount_below FINAL_POS b hb t0 rest0
  refine ⟨?_, ?_, ?_⟩
  · have h := e1 (Tower_setPWM (Tower_setBrake (Tower_reset t) true) INITIAL_SPEED) []
    rw [List.append_nil] at h
    simp only [TowerConstructor, h, waitCount]
    simp [Tower_setPWM, Tower_setBrake, Tower_reset, Motor.setPWM, INITIAL_SPEED]
  · have h := e1 (Tower_setPWM (Tower_setBrake (Tower_reset t) true) INITIAL_SPEED) (r1 :: b)
    simp only [TowerConstructor, h, waitCount, hr1n, if_false]
    have h2 := e2 (Tower_setPWM
      { Tower_setPWM (Tower_setBrake (Tower_reset t) true) INITIAL_SPEED with
        log := (Tower_setPWM (Tower_setBrake (Tower_reset t) true) INITIAL_SPEED).log
          ++ List.replicate a.length (Event.sleep 50) } SLOWER_SPEED) []
    rw [List.append_nil] at h2
    simp only [h2, waitCount]
    simp [Tower_setPWM, Tower_setBrake, Tower_reset, Motor.setPWM, INITIAL_SPEED, SLOWER_SPEED]
  · have h := e1 (Tower_setPWM (Tower_setBrake (Tower_reset t) true) INITIAL_SPEED)
      (r1 :: (b ++ r2 :: rest))
    simp only [TowerConstructor, h, waitCount, hr1n, if_false]
    have h2 := e2 (Tower_setPWM
      { Tower_setPWM (Tower_setBrake (Tower_reset t) true) INITIAL_SPEED with
        log := (Tower_setPWM (Tower_setBrake (Tower_reset t) true) INITIAL_SPEED).log
          ++ List.replicate a.length (Event.sleep 50) } SLOWER_SPEED) (r2 :: rest)
    simp only [h2, waitCount, hr2n, if_false]
    simp [Tower_setPWM, Tower_setBrake, Tower_reset, Motor.setPWM, INITIAL_SPEED, SLOWER_SPEED,
      OFF, put_TowerArrived, TaskShare.put]

/-- C22. Tower calibration, for every sequence of encoder readings. With `a` the readings
below `EASIER_PART` (45), `r1` the first one that reaches it, `b` the following readings
below `FINAL_POS` (105) and `r2` the first of those that reaches it: on `a` alone the
constructor has commanded PWM 75 and is still polling, having slept once per reading; on
`a`, `r1`, `b` it has then commanded PWM 25 and is still polling; on `a`, `r1`, `b`, `r2` it
has then commanded PWM 0 and put `TowerArrived` true, in that order, and returned. On any
sequence of readings: while it is polling it has written no shared variable, and when it
has returned the readings did reach 45 and, later, 105. -/
theorem C22_tower_calibration (t : TowerTask) (a b rest : List Int) (r1 r2 : Int)
    (ha : ∀ x ∈ a, x < EASIER_PART) (hr1 : EASIER_PART ≤ r1)
    (hb : ∀ x ∈ b, x < FINAL_POS) (hr2 : FINAL_POS ≤ r2) :
    (∃ out, TowerConstructor t a = Outcome.waiting out ∧ out.sh = t.sh ∧
      out.Tower.pwm = 75 ∧
      out.log = t.log ++ [Event.reset, Event.setBrake true, Event.setPWM 75]
        ++ List.replicate a.length (Event.sleep 50)) ∧
    (∃ out, TowerConstructor t (a ++ r1 :: b) = Outcome.waiting out ∧ out.sh = t.sh ∧
      out.Tower.pwm = 25 ∧
      out.log = t.log ++ [Event.reset, Event.setBrake true, Event.setPWM 75]
        ++ List.replicate a.length (Event.sleep 50) ++ [Event.setPWM 25]
        ++ List.replicate b.length (Event.sleep 50)) ∧
    (∃ out, TowerConstructor t (a ++ r1 :: (b ++ r2 :: rest)) = Outcome.done out ∧
      out.sh = { t.sh with TowerArrived := { data := true } } ∧
      out.Tower.pwm = 0 ∧ out.Tower.commands = t.Tower.commands ++ [75, 25, 0] ∧
      out.log = t.log ++ [Event.reset, Event.setBrake true, Event.setPWM 75]
        ++ List.replicate a.length (Event.sleep 50) ++ [Event.setPWM 25]
        ++ List.replicate b.length (Event.sleep 50)
        ++ [Event.setPWM 0, Event.put_TowerArrived true]) ∧
    (∀ counts out, TowerConstructor t counts = Outcome.waiting out →
      out.sh = t.sh ∧ Event.put_TowerArrived true ∉ out.log.drop t.log.length) ∧
    (∀ counts out, TowerConstructor t counts = Outcome.done out →
      out.sh.TowerArrived.get = true ∧
      ∃ a1 x1 b1 x2 rest1, counts = a1 ++ x1 :: (b1 ++ x2 :: rest1) ∧
        (∀ x ∈ a1, x < EASIER_PART) ∧ EASIER_PART ≤ x1 ∧
        (∀ x ∈ b1, x < FINAL_POS) ∧ FINAL_POS ≤ x2) := by
  obtain ⟨c1, c2, c3⟩ := TowerConstructor_cases t a b rest r1 r2 ha hr1 hb hr2
  refine ⟨⟨_, c1, rfl, rfl, rfl⟩, ⟨_, c2, rfl, rfl, rfl⟩, ⟨_, c3, rfl, rfl, rfl, rfl⟩, ?_, ?_⟩
  · intro counts out hout
    rcases first_reaching EASIER_PART counts with h | ⟨a1, x1, rest1, hc, h1, h2⟩
    · have k := (TowerConstructor_cases t counts [] [] EASIER_PART FINAL_POS h (le_refl _)
        (by simp) (le_refl _)).1
      rw [k] at hout
      cases hout
      refine ⟨rfl, ?_⟩
      simp [List.mem_replicate]
    · rcases first_reaching FINAL_POS rest1 with h | ⟨b1, x2, rest2, hc2, h3, h4⟩
      · have k := (TowerConstructor_cases t a1 rest1 [] x1 FINAL_POS h1 h2 h
          (le_refl _)).2.1
        rw [hc, k] at hout
        cases hout
        refine ⟨rfl, ?_⟩
        simp [List.mem_replicate]
      · have k := (TowerConstructor_cases t a1 b1 rest2 x1 x2 h1 h2 h3 h4).2.2
        rw [hc, hc2, k] at hout
        cases hout
  · intro counts out hout
    rcases first_reaching EASIER_PART counts with h | ⟨a1, x1, rest1, hc, h1, h2⟩
    · have k := (TowerConstructor_cases t counts [] [] EASIER_PART FINAL_POS h (le_refl _)
        (by simp) (le_refl _)).1
      rw [k] at hout
      cases hout
    · rcases first_reaching FINAL_POS rest1 with h | ⟨b1, x2, rest2, hc2, h3, h4⟩
      · have k := (TowerConstructor_cases t a1 rest1 [] x1 FINAL_POS h1 h2 h
          (le_refl _)).2.1
        rw [hc, k] at hout
        cases hout
      · have k := (TowerConstructor_cases t a1 b1 rest2 x1 x2 h1 h2 h3 h4).2.2
        rw [hc, hc2, k] at hout
        cases hout
        exact ⟨rfl, a1, x1, b1, x2, rest2, by rw [hc, hc2], h1, h2, h3, h4⟩

/-- C22 at the readings 0, 20, 50, 80, 110: two sleeps at PWM 75, one at PWM 25, then the
motor is switched off and `TowerArrived` is put true. -/
theorem C22_tower_calibration_witness :
    ∃ out, TowerConstructor
        { Tower := { pwm := 0, commands := [] }, sh := SlaveShares.allClear, log := [] }
        ([0, 20] ++ 50 :: ([80] ++ 110 :: [])) = Outcome.done out ∧
      out.sh = { SlaveShares.allClear with TowerArrived := { data := true } } ∧
      out.Tower.pwm = 0 ∧ out.Tower.commands = [] ++ [75, 25, 0] ∧
      out.log = [] ++ [Event.reset, Event.setBrake true, Event.setPWM 75]
        ++ List.replicate [(0 : Int), 20].length (Event.sleep 50) ++ [Event.setPWM 25]
        ++ List.replicate [(80 : Int)].length (Event.sleep 50)
        ++ [Event.setPWM 0, Event.put_TowerArrived true] :=
  (C22_tower_calibration
    { Tower := { pwm := 0, commands := [] }, sh := SlaveShares.allClear, log := [] }
    [0, 20] [80] [] 50 110 (by decide) (by decide) (by decide) (by decide)).2.2.1

end task_Tower

/-- C26 as stated fails: on the slave `moveClaw`, and on the master `ShareMsgID`, is
declared in `shares.hpp` and has not been written when `StartupHook` returns. -/
theorem C26_counterexample :
    (SlaveVar.moveClaw ∈ SlaveVar.declared ∧
      SlaveVar.moveClaw ∉
        (task_SlaveInit.StartupHook { sh := SlaveShares.allClear, written := [] }).written) ∧
    (MasterVar.ShareMsgID ∈ MasterVar.declared ∧
      MasterVar.ShareMsgID ∉
        (task_MasterInit.StartupHook { sh := MasterShares.allClear, written := [] }).written) := by
  decide

/-- C26 as amended. When `StartupHook` returns on the slave it has written false to the
five start flags and the four arrived and ready flags, and to nothing else; on the master
it has written false to `task_MasterMindStart`, `task_CommStart` and `task_NavStart`. It
has not written the command and message variables (`moveLifterAbs`, `moveClaw` and the
triple `ShareMsgID`, `MsgReady2Get`, `MsgReady2Send` on the slave, the triple on the
master), which still hold what their storage held. -/
theorem C26_startup_hook_writes (ss : SlaveShares) (ms : MasterShares) :
    ((task_SlaveInit.StartupHook { sh := ss, written := [] }).written
        = [SlaveVar.task_SlaveMindStart, SlaveVar.task_LifterStart, SlaveVar.LifterArrived,
           SlaveVar.task_ClawStart, SlaveVar.ClawArrived, SlaveVar.task_TowerStart,
           SlaveVar.TowerArrived, SlaveVar.task_CommStart, SlaveVar.CommReady] ∧
      (task_SlaveInit.StartupHook { sh := ss, written := [] }).sh
        = { task_SlaveMindStart := { data := false }
            task_LifterStart := { data := false }
            moveLifterAbs := ss.moveLifterAbs
            LifterArrived := { data := false }
            task_ClawStart := { data := false }
            moveClaw := ss.moveClaw
            ClawArrived := { data := false }
            task_TowerStart := { data := false }
            TowerArrived := { data := false }
            task_CommStart := { data := false }
            CommReady := { data := false }
            ShareMsgID := ss.ShareMsgID
            MsgReady2Get := ss.MsgReady2Get
            MsgReady2Send := ss.MsgReady2Send }) ∧
    ([MasterVar.task_MasterMindStart, MasterVar.task_CommStart, MasterVar.task_NavStart]
        ⊆ (task_MasterInit.StartupHook { sh := ms, written := [] }).written ∧
      (task_MasterInit.StartupHook { sh := ms, written := [] }).sh.task_MasterMindStart.get
        = false ∧
      (task_MasterInit.StartupHook { sh := ms, written := [] }).sh.task_CommStart.get = false ∧
      (task_MasterInit.StartupHook { sh := ms, written := [] }).sh.task_NavStart.get = false ∧
      MasterVar.ShareMsgID ∉ (task_MasterInit.StartupHook { sh := ms, written := [] }).written ∧
      MasterVar.MsgReady2Get ∉
        (task_MasterInit.StartupHook { sh := ms, written := [] }).written ∧
      MasterVar.MsgReady2Send ∉
        (task_MasterInit.StartupHook { sh := ms, written := [] }).written ∧
      (task_MasterInit.StartupHook { sh := ms, written := [] }).sh.ShareMsgID = ms.ShareMsgID ∧
      (task_MasterInit.StartupHook { sh := ms, written := [] }).sh.MsgReady2Get
        = ms.MsgReady2Get ∧
      (task_MasterInit.StartupHook { sh := ms, written := [] }).sh.MsgReady2Send
        = ms.MsgReady2Send) := by
  refine ⟨⟨rfl, rfl⟩, ?_, rfl, rfl, rfl, ?_, ?_, ?_, rfl, rfl, rfl⟩ <;>
    simp [task_MasterInit.StartupHook, MasterBoot.ISR_put_task_MasterMindStart,
      MasterBoot.ISR_put_task_CommStart, MasterBoot.ISR_put_task_NavStart]

namespace task_MComm

open Master

/-- A pass during which no byte arrives and no other task writes a shared variable is a
pass of the loop body on the state as it was. -/
theorem CommRun_step_silent (w : CommTask) (e : Env)
    (h1 : e.arrivals = []) (h2 : ∀ sh, e.others sh = sh) :
    CommRun_step w e = CommRun_cycle w := by
  simp [CommRun_step, Node.interfere, h1, h2]

/-- A pass in `IDLE` with a byte other than `idNoMsg` pending takes the byte, keeps it in
`SimpleID` and moves to `GET`. -/
theorem pass_IDLE_inbound (v : CommTask) (y : Nat) (rest : List Nat)
    (hst : v.state = state_t.IDLE) (hrx : v.node.MsgComm.rx = y :: rest) (hy : y ≠ 0) :
    CommRun_cycle v
      = { v with state := state_t.GET
                 p_curMsg := { v.p_curMsg with SimpleID := y }
                 node := { v.node with MsgComm := { v.node.MsgComm with rx := rest } } } := by
  simp [CommRun_cycle, hst, MessageClass.GetMsgSimple, Rs485.receive, hrx,
    MessageClass.isEmptySimple, MessageClass.idNoMsg, hy]

/-- A pass in `IDLE` with nothing pending on the line resets `SimpleID` and moves to `SEND`
when `MsgReady2Send` is set, and stays in `IDLE` otherwise. -/
theorem pass_IDLE_empty (v : CommTask)
    (hst : v.state = state_t.IDLE) (hrx : v.node.MsgComm.rx = []) :
    CommRun_cycle v
      = { v with state := if v.node.sh.MsgReady2Send.get = true then state_t.SEND
                          else state_t.IDLE
                 p_curMsg := { v.p_curMsg with SimpleID := 0 } } := by
  obtain ⟨st, m, id, ⟨sh, ⟨rx, tx⟩, log⟩⟩ := v
  simp only at hst hrx
  subst hst hrx
  by_cases h : sh.MsgReady2Send.get = true <;>
    simp [CommRun_cycle, MessageClass.GetMsgSimple, Rs485.receive,
      MessageClass.isEmptySimple, MessageClass.idNoMsg, h]

/-- A pass in `GET` publishes `SimpleID` and moves to `IDLE`. -/
theorem pass_GET (v : CommTask) (hst : v.state = state_t.GET) :
    CommRun_cycle v
      = { v with state := state_t.IDLE
                 msgID := v.p_curMsg.SimpleID
                 node := (v.node.put_ShareMsgID (toU8 v.p_curMsg.SimpleID)).put_MsgReady2Get
                   true } := by
  simp [CommRun_cycle, hst, MessageClass.GetMsgDataSimple]

/-- A pass in `SEND` transmits the value of `ShareMsgID`, clears `MsgReady2Send` and moves
to `IDLE`. -/
theorem pass_SEND (v : CommTask) (hst : v.state = state_t.SEND) :
    CommRun_cycle v
      = { v with state := state_t.IDLE
                 msgID := v.node.sh.ShareMsgID.get
                 node := (v.node.SendMsgSimple v.p_curMsg v.node.sh.ShareMsgID.get).put_MsgReady2Send
                   false } := by
  simp [CommRun_cycle, hst]

/-- The four passes that follow the arrival of a byte `Y` while a message waits to be sent:
`IDLE` (takes `Y`), `GET` (publishes `Y` over the waiting id), `IDLE` (nothing pending),
`SEND` (transmits `Y`). -/
theorem inbound_then_send (w : CommTask) (Y : comDataID)
    (hst : w.state = state_t.IDLE) (hsend : w.node.sh.MsgReady2Send.get = true)
    (hrx : w.node.MsgComm.rx = [Y]) (hY : Y ≠ 0) (hbyte : Y < 256) :
    (CommRun_cycle w).node.MsgComm.tx = w.node.MsgComm.tx ∧
    (CommRun_cycle (CommRun_cycle w)).node.MsgComm.tx = w.node.MsgComm.tx ∧
    (CommRun_cycle (CommRun_cycle w)).node.sh.ShareMsgID.get = Y ∧
    (CommRun_cycle (CommRun_cycle (CommRun_cycle w))).node.MsgComm.tx = w.node.MsgComm.tx ∧
    (CommRun_cycle (CommRun_cycle (CommRun_cycle (CommRun_cycle w)))).node.MsgComm.tx
      = w.node.MsgComm.tx ++ [Y] ∧
    (CommRun_cycle (CommRun_cycle (CommRun_cycle (CommRun_cycle w)))).state = state_t.IDLE ∧
    (CommRun_cycle (CommRun_cycle (CommRun_cycle (CommRun_cycle w)))).node.sh.MsgReady2Send.get
      = false := by
  have hmod : Y % 256 = Y := Nat.mod_eq_of_lt hbyte
  have hsend2 : w.node.sh.MsgReady2Send.data = true := hsend
  have p1 := pass_IDLE_inbound w Y [] hst hrx hY
  have p2 := pass_GET (CommRun_cycle w) (by rw [p1])
  have s2 : (CommRun_cycle (CommRun_cycle w)).state = state_t.IDLE := by rw [p2]
  have r2 : (CommRun_cycle (CommRun_cycle w)).node.MsgComm.rx = [] := by
    rw [p2, p1]; simp [Node.put_ShareMsgID, Node.put_MsgReady2Get]
  have f2 : (CommRun_cycle (CommRun_cycle w)).node.sh.MsgReady2Send.get = true := by
    rw [p2, p1]; simp [Node.put_ShareMsgID, Node.put_MsgReady2Get, TaskShare.get, hsend2]
  have p3 := pass_IDLE_empty (CommRun_cycle (CommRun_cycle w)) s2 r2
  rw [f2] at p3
  have p4 := pass_SEND (CommRun_cycle (CommRun_cycle (CommRun_cycle w))) (by rw [p3]; simp)
  have t1 : (CommRun_cycle w).node.MsgComm.tx = w.node.MsgComm.tx := by rw [p1]
  have t2 : (CommRun_cycle (CommRun_cycle w)).node.MsgComm.tx = w.node.MsgComm.tx := by
    rw [p2]; simpa [Node.put_ShareMsgID, Node.put_MsgReady2Get] using t1
  have i2 : (CommRun_cycle (CommRun_cycle w)).node.sh.ShareMsgID.get = Y := by
    rw [p2, p1]
    simp [Node.put_ShareMsgID, Node.put_MsgReady2Get, TaskShare.get, TaskShare.put, toU8, hmod]
  have t3 : (CommRun_cycle (CommRun_cycle (CommRun_cycle w))).node.MsgComm.tx
      = w.node.MsgComm.tx := by rw [p3]; simpa using t2
  have i3 : (CommRun_cycle (CommRun_cycle (CommRun_cycle w))).node.sh.ShareMsgID.get = Y := by
    rw [p3]; simpa using i2
  refine ⟨t1, t2, i2, t3, ?_, ?_, ?_⟩
  · rw [p4]
    simp only [Node.put_MsgReady2Send, Node.SendMsgSimple, MessageClass.SendMsgSimple,
      Rs485.send, i3, t3, toU8, hmod]
  · rw [p4]
  · rw [p4]
    simp [Node.put_MsgReady2Send, TaskShare.get, TaskShare.put]

/-- C29. Comm uses one slot for both directions. The comm task is in `IDLE`,
`MsgReady2Send` is set with an id `X` in `ShareMsgID`, the byte `Y` (not `idNoMsg`) has
arrived, and from then on no further byte arrives and no other task writes a shared
variable. Then over the first three passes nothing is transmitted, the second pass has
overwritten `ShareMsgID` with `Y`, and from the fourth pass on the bytes transmitted are
exactly the one byte `Y`: when `X` differs from `Y`, `X` is never transmitted. -/
theorem C29_one_slot (w : CommTask) (Y : comDataID) (es : List Env)
    (hst : w.state = state_t.IDLE) (hsend : w.node.sh.MsgReady2Send.get = true)
    (hrx : w.node.MsgComm.rx = [Y]) (hY : Y ≠ MessageClass.idNoMsg) (hbyte : Y < 256)
    (hquiet : ∀ e ∈ es, e.arrivals = [] ∧ ∀ sh, e.others sh = sh) :
    (es.length < 4 → (CommRun_cycles w es).node.MsgComm.tx = w.node.MsgComm.tx) ∧
    (2 ≤ es.length → es.length < 4 → (CommRun_cycles w es).node.sh.ShareMsgID.get = Y) ∧
    (4 ≤ es.length → (CommRun_cycles w es).node.MsgComm.tx = w.node.MsgComm.tx ++ [Y]) ∧
    (w.node.sh.ShareMsgID.get ≠ Y →
      w.node.sh.ShareMsgID.get
        ∉ (CommRun_cycles w es).node.MsgComm.tx.drop w.node.MsgComm.tx.length) := by
  obtain ⟨t1, t2, i2, t3, t4, s4, f4⟩ := inbound_then_send w Y hst hsend hrx hY hbyte
  have p1 := pass_IDLE_inbound w Y [] hst hrx hY
  have p2 := pass_GET (CommRun_cycle w) (by rw [p1])
  have s2 : (CommRun_cycle (CommRun_cycle w)).state = state_t.IDLE := by rw [p2]
  have r2 : (CommRun_cycle (CommRun_cycle w)).node.MsgComm.rx = [] := by
    rw [p2, p1]; simp [Node.put_ShareMsgID, Node.put_MsgReady2Get]
  have p3 := pass_IDLE_empty (CommRun_cycle (CommRun_cycle w)) s2 r2
  have i3 : (CommRun_cycle (CommRun_cycle (CommRun_cycle w))).node.sh.ShareMsgID.get = Y := by
    rw [p3]; simpa using i2
  have main : (es.length < 4 → (CommRun_cycles w es).node.MsgComm.tx = w.node.MsgComm.tx) ∧
      (2 ≤ es.length → es.length < 4 → (CommRun_cycles w es).node.sh.ShareMsgID.get = Y) ∧
      (4 ≤ es.length →
        (CommRun_cycles w es).node.MsgComm.tx = w.node.MsgComm.tx ++ [Y]) := by
    match es, hquiet with
    | [], _ => exact ⟨fun _ => rfl, fun h => absurd h (by simp), fun h => absurd h (by simp)⟩
    | [e1], hq =>
      have q1 := hq e1 (by simp)
      refine ⟨fun _ => ?_, fun h => absurd h (by simp), fun h => absurd h (by simp)⟩
      simp only [CommRun_cycles, List.foldl, CommRun_step_silent _ _ q1.1 q1.2]
      exact t1
    | [e1, e2], hq =>
      have q1 := hq e1 (by simp)
      have q2 := hq e2 (by simp)
      refine ⟨fun _ => ?_, fun _ _ => ?_, fun h => absurd h (by simp)⟩
      · simp only [CommRun_cycles, List.foldl, CommRun_step_silent _ _ q1.1 q1.2,
          CommRun_step_silent _ _ q2.1 q2.2]
        exact t2
      · simp only [CommRun_cycles, List.foldl, CommRun_step_silent _ _ q1.1 q1.2,
          CommRun_step_silent _ _ q2.1 q2.2]
        exact i2
    | [e1, e2, e3], hq =>
      have q1 := hq e1 (by simp)
      have q2 := hq e2 (by simp)
      have q3 := hq e3 (by simp)
      refine ⟨fun _ => ?_, fun _ _ => ?_, fun h => absurd h (by simp)⟩
      · simp only [CommRun_cycles, List.foldl, CommRun_step_silent _ _ q1.1 q1.2,
          CommRun_step_silent _ _ q2.1 q2.2, CommRun_step_silent _ _ q3.1 q3.2]
        exact t3
      · simp only [CommRun_cycles, List.foldl, CommRun_step_silent _ _ q1.1 q1.2,
          CommRun_step_silent _ _ q2.1 q2.2, CommRun_step_silent _ _ q3.1 q3.2]
        exact i3
    | e1 :: e2 :: e3 :: e4 :: rest, hq =>
      have q1 := hq e1 (by simp)
      have q2 := hq e2 (by simp)
      have q3 := hq e3 (by simp)
      have q4 := hq e4 (by simp)
      refine ⟨fun h => absurd h (by simp), fun _ h => absurd h (by simp), fun _ => ?_⟩
      have hsplit : CommRun_cycles w (e1 :: e2 :: e3 :: e4 :: rest)
          = CommRun_cycles (CommRun_cycle (CommRun_cycle (CommRun_cycle (CommRun_cycle w))))
              rest := by
        simp only [CommRun_cycles, List.foldl, CommRun_step_silent _ _ q1.1 q1.2,
          CommRun_step_silent _ _ q2.1 q2.2, CommRun_step_silent _ _ q3.1 q3.2,
          CommRun_step_silent _ _ q4.1 q4.2]
      rw [hsplit]
      have hq := CommRun_cycles_quiet rest
        (CommRun_cycle (CommRun_cycle (CommRun_cycle (CommRun_cycle w))))
        (by rw [s4]; simp) f4
        (fun e he sh hsh => by rw [(hq e (by simp [he])).2 sh]; exact hsh)
      rw [hq.2.2, t4]
  refine ⟨main.1, main.2.1, main.2.2, fun hXY => ?_⟩
  by_cases h4 : es.length < 4
  · rw [main.1 h4]
    simp
  · rw [main.2.2 (by omega)]
    simp [hXY]

/-- C29 at a comm task asked to send `idPrepForGrabRings` (10) when `idInitDone` (3)
arrives: after five passes the line has carried the byte 3 and nothing else. -/
theorem C29_one_slot_witness :
    (CommRun_cycles
      (CommRun_init MessageClass.zeroed 0
        { sh := { MasterShares.allClear with
                    ShareMsgID := { data := MessageClass.idPrepForGrabRings },
                    MsgReady2Send := { data := true } },
          MsgComm := { rx := [MessageClass.idInitDone], tx := [] }, log := [] })
      (List.replicate 5 { arrivals := [], others := fun sh => sh })).node.MsgComm.tx
      = [] ++ [MessageClass.idInitDone] :=
  (C29_one_slot
    (CommRun_init MessageClass.zeroed 0
      { sh := { MasterShares.allClear with
                  ShareMsgID := { data := MessageClass.idPrepForGrabRings },
                  MsgReady2Send := { data := true } },
        MsgComm := { rx := [MessageClass.idInitDone], tx := [] }, log := [] })
    MessageClass.idInitDone
    (List.replicate 5 { arrivals := [], others := fun sh => sh })
    rfl rfl rfl (by decide) (by decide)
    (fun e he => by
      rw [List.eq_of_mem_replicate he]
      exact ⟨rfl, fun _ => rfl⟩)).2.2.1 (by decide)

/-- The writes of the inbound slot in a record that is extended. -/
theorem publishes_append (xs ys : List Event) :
    publishes (xs ++ ys) = publishes xs ++ publishes ys := by
  simp [publishes]

/-- A pass that begins outside `GET` with nothing pending on the line, during which no
byte arrives, ends outside `GET` with nothing pending and writes neither `ShareMsgID` nor
`MsgReady2Get`, whatever the other tasks do. -/
theorem CommRun_step_no_inbound (v : CommTask) (e : Env)
    (hst : v.state ≠ state_t.GET) (hrx : v.node.MsgComm.rx = []) (he : e.arrivals = []) :
    (CommRun_step v e).state ≠ state_t.GET ∧ (CommRun_step v e).node.MsgComm.rx = [] ∧
    publishes (CommRun_step v e).node.log = publishes v.node.log := by
  have hrx2 : ({ v with node := v.node.interfere e } : CommTask).node.MsgComm.rx = [] := by
    simp [Node.interfere, hrx, he]
  have hlog : ({ v with node := v.node.interfere e } : CommTask).node.log = v.node.log := rfl
  cases hv : v.state
  · have p := pass_IDLE_empty { v with node := v.node.interfere e } hv hrx2
    rw [CommRun_step, p]
    refine ⟨?_, hrx2, by rw [← hlog]⟩
    simp only
    split_ifs <;> simp
  · have p := pass_SEND { v with node := v.node.interfere e } hv
    rw [CommRun_step, p]
    refine ⟨by simp, ?_, ?_⟩
    · simpa [Node.put_MsgReady2Send, Node.SendMsgSimple, MessageClass.SendMsgSimple,
        Rs485.send] using hrx2
    · simp [Node.put_MsgReady2Send, Node.SendMsgSimple, publishes_append, publishes,
        isPublish, Node.interfere]
  · exact absurd hv hst

/-- Over any number of passes during which no byte arrives, a comm task that begins
outside `GET` with nothing pending writes neither `ShareMsgID` nor `MsgReady2Get`. -/
theorem CommRun_cycles_no_inbound (es : List Env) (v : CommTask)
    (hst : v.state ≠ state_t.GET) (hrx : v.node.MsgComm.rx = [])
    (hes : ∀ e ∈ es, e.arrivals = []) :
    (CommRun_cycles v es).state ≠ state_t.GET ∧ (CommRun_cycles v es).node.MsgComm.rx = [] ∧
    publishes (CommRun_cycles v es).node.log = publishes v.node.log := by
  induction es using List.reverseRecOn with
  | nil => exact ⟨hst, hrx, rfl⟩
  | append_singleton xs x ih =>
    obtain ⟨a1, a2, a3⟩ := ih (fun e he => hes e (List.mem_append_left _ he))
    rw [CommRun_cycles_append]
    obtain ⟨b1, b2, b3⟩ := CommRun_step_no_inbound (CommRun_cycles v xs) x a1 a2
      (hes x (by simp))
    exact ⟨b1, b2, b3.trans a3⟩

/-- C30. A single inbound byte is published exactly once. The comm task is in `IDLE`, the
byte `Y` (not `idNoMsg`) has arrived and no further byte arrives; the other tasks may write
the shared variables as they like. The first pass writes nothing; the second pass puts
`ShareMsgID` to `Y` and then `MsgReady2Get` to true; and over any number of later passes
these two writes stay the only writes of `ShareMsgID` and `MsgReady2Get`. -/
theorem C30_published_once (w : CommTask) (Y : comDataID) (e1 e2 : Env) (rest : List Env)
    (hst : w.state = state_t.IDLE) (hrx : w.node.MsgComm.rx = [Y])
    (hY : Y ≠ MessageClass.idNoMsg) (hbyte : Y < 256)
    (h1 : e1.arrivals = []) (h2 : e2.arrivals = []) (hrest : ∀ e ∈ rest, e.arrivals = []) :
    (CommRun_cycles w [e1]).node.log = w.node.log ∧
    (CommRun_cycles w [e1, e2]).node.log
      = w.node.log ++ [Event.put_ShareMsgID Y, Event.put_MsgReady2Get true] ∧
    publishes (CommRun_cycles w (e1 :: e2 :: rest)).node.log
      = publishes w.node.log ++ [Event.put_ShareMsgID Y, Event.put_MsgReady2Get true] := by
  have hmod : Y % 256 = Y := Nat.mod_eq_of_lt hbyte
  have hrx1 : ({ w with node := w.node.interfere e1 } : CommTask).node.MsgComm.rx = [Y] := by
    simp [Node.interfere, hrx, h1]
  have p1 := pass_IDLE_inbound { w with node := w.node.interfere e1 } Y [] hst hrx1 hY
  have c1 : CommRun_cycles w [e1] = CommRun_step w e1 := rfl
  have l1 : (CommRun_step w e1).node.log = w.node.log := by
    rw [CommRun_step, p1]; rfl
  have s1 : (CommRun_step w e1).state = state_t.GET := by
    rw [CommRun_step, p1]
  have r1 : (CommRun_step w e1).node.MsgComm.rx = [] := by
    rw [CommRun_step, p1]
  have id1 : (CommRun_step w e1).p_curMsg.SimpleID = Y := by
    rw [CommRun_step, p1]
  have p2 := pass_GET { CommRun_step w e1 with node := (CommRun_step w e1).node.interfere e2 }
    s1
  have c2 : CommRun_cycles w [e1, e2] = CommRun_step (CommRun_step w e1) e2 := rfl
  have l2 : (CommRun_step (CommRun_step w e1) e2).node.log
      = w.node.log ++ [Event.put_ShareMsgID Y, Event.put_MsgReady2Get true] := by
    rw [CommRun_step, p2]
    simp [Node.put_ShareMsgID, Node.put_MsgReady2Get, Node.interfere, id1, l1, toU8, hmod]
  have s2 : (CommRun_step (CommRun_step w e1) e2).state ≠ state_t.GET := by
    rw [CommRun_step, p2]; simp
  have r2 : (CommRun_step (CommRun_step w e1) e2).node.MsgComm.rx = [] := by
    rw [CommRun_step, p2]
    simp [Node.put_ShareMsgID, Node.put_MsgReady2Get, Node.interfere, r1, h2]
  refine ⟨by rw [c1, l1], by rw [c2, l2], ?_⟩
  have c3 : CommRun_cycles w (e1 :: e2 :: rest)
      = CommRun_cycles (CommRun_step (CommRun_step w e1) e2) rest := rfl
  rw [c3, (CommRun_cycles_no_inbound rest _ s2 r2 hrest).2.2, l2, publishes_append]
  simp [publishes, isPublish]

/-- C30 at a comm task that receives `idInitDone` and then runs six passes: the record holds
the two writes once. -/
theorem C30_published_once_witness :
    publishes (CommRun_cycles
      (CommRun_init MessageClass.zeroed 0
        { sh := MasterShares.allClear,
          MsgComm := { rx := [MessageClass.idInitDone], tx := [] }, log := [] })
      ({ arrivals := [], others := fun sh => sh } :: { arrivals := [], others := fun sh => sh }
        :: List.replicate 4 { arrivals := [], others := fun sh => sh })).node.log
      = publishes [] ++ [Event.put_ShareMsgID MessageClass.idInitDone,
          Event.put_MsgReady2Get true] :=
  (C30_published_once
    (CommRun_init MessageClass.zeroed 0
      { sh := MasterShares.allClear,
        MsgComm := { rx := [MessageClass.idInitDone], tx := [] }, log := [] })
    MessageClass.idInitDone
    { arrivals := [], others := fun sh => sh } { arrivals := [], others := fun sh => sh }
    (List.replicate 4 { arrivals := [], others := fun sh => sh })
    rfl rfl (by decide) (by decide) rfl rfl
    (fun e he => by rw [List.eq_of_mem_replicate he])).2.2

end task_MComm

namespace task_SlaveMind

/-- In every state but `IDLE`, a pass of the sequencer neither reads nor writes
`MsgReady2Get`: the pass on a state with another value of the flag gives the same state
with that value of the flag, and the record of writes gains no write of the flag. -/
theorem cycle_ignores_Ready2Get (w : SlaveMindTask) (b : Bool) (hst : w.state ≠ state_t.IDLE) :
    SlaveMindRun_cycle (withReady2Get w b) = withReady2Get (SlaveMindRun_cycle w) b ∧
    (SlaveMindRun_cycle w).ctx.writes.filter isReady2GetWrite
      = w.ctx.writes.filter isReady2GetWrite := by
  obtain ⟨st, cur, g, p, tc, ok, ⟨sh, wr⟩⟩ := w
  simp only at hst
  cases st
  · exact absurd rfl hst
  · by_cases htc : 2 < tc
    · cases hl : sh.LifterArrived.data <;> cases hk : sh.ClawArrived.data <;>
        simp [SlaveMindRun_cycle, withReady2Get, case_PREP2GRAB, MoveLift, ReadyToCheck,
          TaskShare.get, TaskShare.put, SlaveCtx.put_moveLifterAbs, SlaveCtx.put_moveClaw,
          SlaveCtx.put_ShareMsgID, SlaveCtx.put_MsgReady2Send, toU8, isReady2GetWrite, hl, hk,
          htc]
    · have : tc ≤ 2 := by omega
      interval_cases tc <;> cases hl : sh.LifterArrived.data <;>
        cases hk : sh.ClawArrived.data <;>
        simp [SlaveMindRun_cycle, withReady2Get, case_PREP2GRAB, MoveLift, ReadyToCheck,
          TaskShare.get, TaskShare.put, SlaveCtx.put_moveLifterAbs, SlaveCtx.put_moveClaw,
          SlaveCtx.put_ShareMsgID, SlaveCtx.put_MsgReady2Send, toU8, isReady2GetWrite, hl, hk]
  · by_cases htc : 2 < tc
    · by_cases g0 : g = 0 <;> by_cases g1 : g = 1 <;> by_cases g2 : g = 2 <;>
        cases hl : sh.LifterArrived.data <;> cases hk : sh.ClawArrived.data <;>
        first
        | omega
        | simp [SlaveMindRun_cycle, withReady2Get, case_GRAB, MoveLift, ReadyToCheck,
            TaskShare.get, TaskShare.put, SlaveCtx.put_moveLifterAbs, SlaveCtx.put_moveClaw,
            SlaveCtx.put_ShareMsgID, SlaveCtx.put_MsgReady2Send, toU8, isReady2GetWrite, hl,
            hk, htc, g0, g1, g2]
    · have : tc ≤ 2 := by omega
      by_cases g0 : g = 0 <;> by_cases g1 : g = 1 <;> by_cases g2 : g = 2 <;>
        interval_cases tc <;>
        cases hl : sh.LifterArrived.data <;> cases hk : sh.ClawArrived.data <;>
        first
        | omega
        | simp [SlaveMindRun_cycle, withReady2Get, case_GRAB, MoveLift, ReadyToCheck,
            TaskShare.get, TaskShare.put, SlaveCtx.put_moveLifterAbs, SlaveCtx.put_moveClaw,
            SlaveCtx.put_ShareMsgID, SlaveCtx.put_MsgReady2Send, toU8, isReady2GetWrite, hl,
            hk, g0, g1, g2]
  · by_cases htc : 2 < tc
    · cases hl : sh.LifterArrived.data <;>
        simp [SlaveMindRun_cycle, withReady2Get, case_PREP2PLACE, MoveLift, ReadyToCheck,
          TaskShare.get, TaskShare.put, SlaveCtx.put_moveLifterAbs, SlaveCtx.put_moveClaw,
          SlaveCtx.put_ShareMsgID, SlaveCtx.put_MsgReady2Send, toU8, isReady2GetWrite, hl,
          htc]
    · have : tc ≤ 2 := by omega
      interval_cases tc <;> cases hl : sh.LifterArrived.data <;>
        simp [SlaveMindRun_cycle, withReady2Get, case_PREP2PLACE, MoveLift, ReadyToCheck,
          TaskShare.get, TaskShare.put, SlaveCtx.put_moveLifterAbs, SlaveCtx.put_moveClaw,
          SlaveCtx.put_ShareMsgID, SlaveCtx.put_MsgReady2Send, toU8, isReady2GetWrite, hl]
  · by_cases htc : 2 < tc
    · by_cases g0 : p = 0 <;> by_cases g1 : p = 1 <;> by_cases g2 : p = 2 <;>
        cases hl : sh.LifterArrived.data <;> cases hk : sh.ClawArrived.data <;>
        first
        | omega
        | simp [SlaveMindRun_cycle, withReady2Get, case_PLACE, MoveLift, ReadyToCheck,
            TaskShare.get, TaskShare.put, SlaveCtx.put_moveLifterAbs, SlaveCtx.put_moveClaw,
            SlaveCtx.put_ShareMsgID, SlaveCtx.put_MsgReady2Send, toU8, isReady2GetWrite, hl,
            hk, htc, g0, g1, g2]
    · have : tc ≤ 2 := by omega
      by_cases g0 : p = 0 <;> by_cases g1 : p = 1 <;> by_cases g2 : p = 2 <;>
        interval_cases tc <;>
        cases hl : sh.LifterArrived.data <;> cases hk : sh.ClawArrived.data <;>
        first
        | omega
        | simp [SlaveMindRun_cycle, withReady2Get, case_PLACE, MoveLift, ReadyToCheck,
            TaskShare.get, TaskShare.put, SlaveCtx.put_moveLifterAbs, SlaveCtx.put_moveClaw,
            SlaveCtx.put_ShareMsgID, SlaveCtx.put_MsgReady2Send, toU8, isReady2GetWrite, hl,
            hk, g0, g1, g2]

end task_SlaveMind

namespace task_SlaveMind

/-- C31. Slave command dispatch. In `IDLE` with `MsgReady2Get` true, a pass stores the id
held by `ShareMsgID` in `curMsgID`, moves to `PREP2GRAB`, `GRAB`, `PREP2PLACE` or `PLACE`
when the id is `idPrepForGrabRings`, `idGrabRings`, `idPrepForPlacement` or `idPlaceRings`
and stays in `IDLE` for every other id, and in all these cases puts `MsgReady2Get` false and
then `ShareMsgID` to `idNoMsg`, and does nothing else. In `IDLE` with `MsgReady2Get` false a
pass changes nothing. In every other state a pass neither reads nor writes `MsgReady2Get`:
run with another value `b` of the flag it gives the same result with `b` in the flag, the
flag keeps its value, and the record of writes gains no write of the flag. -/
theorem C31_command_dispatch (w : SlaveMindTask) (b : Bool) :
    (w.state = state_t.IDLE → w.ctx.sh.MsgReady2Get.get = true →
      SlaveMindRun_cycle w
        = { w with
              curMsgID := w.ctx.sh.ShareMsgID.get
              state :=
                if w.ctx.sh.ShareMsgID.get = MessageClass.idPrepForGrabRings then
                  state_t.PREP2GRAB
                else if w.ctx.sh.ShareMsgID.get = MessageClass.idGrabRings then state_t.GRAB
                else if w.ctx.sh.ShareMsgID.get = MessageClass.idPrepForPlacement then
                  state_t.PREP2PLACE
                else if w.ctx.sh.ShareMsgID.get = MessageClass.idPlaceRings then state_t.PLACE
                else state_t.IDLE
              ctx := (w.ctx.put_MsgReady2Get false).put_ShareMsgID MessageClass.idNoMsg } ∧
      (SlaveMindRun_cycle w).ctx.sh.MsgReady2Get.get = false ∧
      (SlaveMindRun_cycle w).ctx.sh.ShareMsgID.get = MessageClass.idNoMsg ∧
      (SlaveMindRun_cycle w).ctx.writes
        = w.ctx.writes ++ [SlaveWrite.MsgReady2Get false,
            SlaveWrite.ShareMsgID MessageClass.idNoMsg]) ∧
    (w.state = state_t.IDLE → w.ctx.sh.MsgReady2Get.get = false → SlaveMindRun_cycle w = w) ∧
    (w.state ≠ state_t.IDLE →
      SlaveMindRun_cycle (withReady2Get w b) = withReady2Get (SlaveMindRun_cycle w) b ∧
      (SlaveMindRun_cycle w).ctx.sh.MsgReady2Get = w.ctx.sh.MsgReady2Get ∧
      (SlaveMindRun_cycle w).ctx.writes.filter isReady2GetWrite
        = w.ctx.writes.filter isReady2GetWrite) := by
  refine ⟨?_, ?_, ?_⟩
  · intro hst hg
    have hg2 : w.ctx.sh.MsgReady2Get.data = true := hg
    obtain ⟨st, cur, g, p, tc, ok, ⟨sh, wr⟩⟩ := w
    simp only at hst hg2
    subst hst
    by_cases h1 : sh.ShareMsgID.data = 10 <;> by_cases h2 : sh.ShareMsgID.data = 11 <;>
      by_cases h3 : sh.ShareMsgID.data = 12 <;> by_cases h4 : sh.ShareMsgID.data = 13 <;>
      first
      | omega
      | simp [SlaveMindRun_cycle, case_IDLE, TaskShare.get, TaskShare.put, hg2, h1, h2, h3, h4,
          SlaveCtx.put_MsgReady2Get, SlaveCtx.put_ShareMsgID, MessageClass.idPrepForGrabRings,
          MessageClass.idGrabRings, MessageClass.idPrepForPlacement, MessageClass.idPlaceRings,
          MessageClass.idNoMsg]
  · intro hst hg
    have hg2 : w.ctx.sh.MsgReady2Get.data = false := hg
    simp [SlaveMindRun_cycle, hst, case_IDLE, TaskShare.get, hg2]
  · intro hst
    obtain ⟨c1, c2⟩ := cycle_ignores_Ready2Get w b hst
    refine ⟨c1, ?_, c2⟩
    have c3 := (cycle_ignores_Ready2Get w w.ctx.sh.MsgReady2Get.data hst).1
    have e1 : withReady2Get w w.ctx.sh.MsgReady2Get.data = w := rfl
    rw [e1] at c3
    have c4 := congrArg (fun v : SlaveMindTask => v.ctx.sh.MsgReady2Get) c3
    simp only [withReady2Get] at c4
    exact c4

end task_SlaveMind

namespace MessageClass

/-- What `clearData` does to the memory seen from `MsgData`: the first `MAX_MSG_LEN` (15)
bytes are zeroed, whatever `BufferSize` is, and every other byte is left as it was. -/
theorem clearData_MsgData (m : MessageClass) (j : Nat) :
    (clearData m).MsgData j = if j < 15 then 0 else m.MsgData j := by
  simp [clearData, memset, MAX_MSG_LEN]

/-- C34 at a 20-byte and at an 8-byte message whose memory holds the byte 7 throughout.
`clearData` zeroes offsets 0 to 14 in both: in the 20-byte buffer offset 17 keeps its 7, and
past the 8-byte buffer offset 10 is overwritten with 0. `isEmpty` returns true afterwards,
and `BuildMsg` on the same objects clears exactly `BufferSize` bytes. -/
theorem C34_clearData_clears_fifteen_bytes :
    ((newSized { zeroed with MsgData := fun _ => 7 } 20).clearData.BufferSize = 20 ∧
      (newSized { zeroed with MsgData := fun _ => 7 } 20).clearData.MsgData 17 = 7 ∧
      (newSized { zeroed with MsgData := fun _ => 7 } 20).clearData.isEmpty = true) ∧
    ((newSized { zeroed with MsgData := fun _ => 7 } 8).clearData.BufferSize = 8 ∧
      (newSized { zeroed with MsgData := fun _ => 7 } 8).MsgData 10 = 7 ∧
      (newSized { zeroed with MsgData := fun _ => 7 } 8).clearData.MsgData 10 = 0) ∧
    ((BuildMsg (newSized { zeroed with MsgData := fun _ => 7 } 20) (fun _ => 0) typeU8
        idNoMsg 0).1.MsgData 17 = 0 ∧
      (BuildMsg (newSized { zeroed with MsgData := fun _ => 7 } 8) (fun _ => 0) typeU8
        idNoMsg 0).1.MsgData 10 = 7) := by
  refine ⟨⟨rfl, ?_, rfl⟩, ⟨rfl, rfl, ?_⟩, ?_, ?_⟩
  · rw [clearData_MsgData]; rfl
  · rw [clearData_MsgData]; rfl
  · decide
  · decide

end MessageClass

namespace task_MComm

open Master

/-- C35 at a line on which the slave's `idWakeMsg` is pending, and at a silent line.
With the wake byte pending `CommConstructor` returns at once: it has transmitted the single
byte `idAckMsg`, never `idWakeMsg`, has received no acknowledgement, and has put `CommReady`
true. On a silent line it transmits nothing and is still polling after three sleeps of
200 ms. -/
theorem C35_CommConstructor_waits_for_wake :
    CommConstructor MessageClass.zeroed MessageClass.zeroed
        { sh := MasterShares.allClear
          MsgComm := { rx := [MessageClass.idWakeMsg], tx := [] }, log := [] } []
      = Outcome.done
        { sh := { MasterShares.allClear with CommReady := { data := true } }
          MsgComm := { rx := [], tx := [MessageClass.idAckMsg] }
          log := [Event.put_ShareMsgID 0, Event.put_MsgReady2Get false,
            Event.put_MsgReady2Send false, Event.transmit [MessageClass.idAckMsg],
            Event.put_CommReady true, Event.display COMM_LINE Text.Comm_Ready] } ∧
    CommConstructor MessageClass.zeroed MessageClass.zeroed
        { sh := MasterShares.allClear, MsgComm := { rx := [], tx := [] }, log := [] }
        (List.replicate 3 { arrivals := [], others := fun sh => sh })
      = Outcome.waiting
        { sh := MasterShares.allClear
          MsgComm := { rx := [], tx := [] }
          log := [Event.put_ShareMsgID 0, Event.put_MsgReady2Get false,
            Event.put_MsgReady2Send false, Event.sleep 200, Event.sleep 200,
            Event.sleep 200] } := by
  constructor <;> rfl

end task_MComm

/-- C36. Period overrun wraps around. For a 32-bit `sleep_time`, and every `start_time` and
current tick, with `elapsed = tick - start_time` as a `U32`: in all cases `sleep_from_for`
makes one call of `NNxt::sleep`, with the argument `(sleep_time - elapsed) mod 2^32`; and
when `elapsed > sleep_time` that argument is `2^32 - (elapsed - sleep_time)`, which is not
0. -/
theorem C36_period_overrun (c : Clock) (start_time sleep_time : Nat)
    (hsleep : sleep_time < 4294967296) :
    (sleep_from_for c start_time sleep_time).sleeps
      = c.sleeps ++ [(((sleep_time : Int) - toU32 ((c.tick : Int) - start_time))
          % 4294967296).toNat] ∧
    (sleep_time < toU32 ((c.tick : Int) - start_time) →
      (sleep_from_for c start_time sleep_time).sleeps
        = c.sleeps ++ [4294967296 - (toU32 ((c.tick : Int) - start_time) - sleep_time)] ∧
      4294967296 - (toU32 ((c.tick : Int) - start_time) - sleep_time) ≠ 0) := by
  refine ⟨rfl, fun hover => ?_⟩
  simp only [toU32] at hover
  simp only [sleep_from_for, Clock.sleep, Clock.getTick, toU32]
  refine ⟨?_, ?_⟩
  · congr 2
    omega
  · omega

/-- C36 at a cycle that began at tick 1000 with a period of 10 ms and is at tick 1013: the
task asks for 2^32 - 3 ms. -/
theorem C36_period_overrun_witness :
    (sleep_from_for { tick := 1013, sleeps := [] } 1000 10).sleeps = [4294967293] :=
  ((C36_period_overrun { tick := 1013, sleeps := [] } 1000 10 (by decide)).2
    (by decide)).1.trans (by decide)

namespace task_Lifter

/-- A pass of the lifter task keeps `LifterArrived` true exactly in `IDLE`. -/
theorem LifterRun_step_flag (w : LifterTask) (s : Int × Int)
    (h : w.ctx.sh.LifterArrived.get = true ↔ w.state = state_t.IDLE) :
    ((LifterRun_step w s).ctx.sh.LifterArrived.get = true ↔
      (LifterRun_step w s).state = state_t.IDLE) := by
  obtain ⟨cPos, dPos, oPos, error, error_sum, power, at_dPos, state, Lifter, tones, ctx⟩ := w
  simp only [TaskShare.get] at h
  cases state
  · simp only [true_iff, iff_true] at h
    by_cases hne : s.1 = oPos
    · simp [LifterRun_step, LifterRun_cycle, TaskShare.get, TaskShare.put, hne, h]
    · simp [LifterRun_step, LifterRun_cycle, TaskShare.get, TaskShare.put, hne,
        SlaveCtx.put_LifterArrived]
  · have hf : ctx.sh.LifterArrived.data = false := by simpa using h
    simp only [LifterRun_step, LifterRun_cycle]
    split_ifs <;> simp [TaskShare.get, TaskShare.put, SlaveCtx.put_LifterArrived, hf]

/-- C37. Lifter state/flag invariant. From the state in which `LifterRun` enters its loop
after `LifterConstructor` (which, when it returns, has put `moveLifterAbs` to 0 and
`LifterArrived` true), and with the sequencer writing only the target, after any number of
passes `LifterArrived` is true exactly when the state is `IDLE`. A pass in `IDLE` moves to
`MOVING` exactly when the commanded target differs from `oPos`, and then `error_sum` and
`at_dPos` are 0; `oPos` changes only in the pass that declares arrival, which sets it to the
target reached. -/
theorem C37_lifter_invariant (Lifter : Motor) (ctx : SlaveCtx) (samples : List (Int × Int))
    (w : LifterTask) (s : Int × Int) (readings : List Bool)
    (hflag : ctx.sh.LifterArrived.get = true) :
    ((LifterRun_cycles (LifterRun_init Lifter ctx) samples).ctx.sh.LifterArrived.get = true ↔
      (LifterRun_cycles (LifterRun_init Lifter ctx) samples).state = state_t.IDLE) ∧
    (∀ out, LifterConstructor Lifter ctx readings = Outcome.done out →
      out.2.sh.LifterArrived.get = true ∧ out.2.sh.moveLifterAbs.get = 0) ∧
    ((LifterRun_init Lifter ctx).state = state_t.IDLE ∧ (LifterRun_init Lifter ctx).oPos = 0) ∧
    (w.state = state_t.IDLE →
      ((LifterRun_step w s).state = state_t.MOVING ↔ s.1 ≠ w.oPos) ∧
      ((LifterRun_step w s).state = state_t.MOVING →
        (LifterRun_step w s).error_sum = 0 ∧ (LifterRun_step w s).at_dPos = 0) ∧
      (LifterRun_step w s).oPos = w.oPos) ∧
    (w.state = state_t.MOVING →
      ((LifterRun_step w s).state = state_t.IDLE → (LifterRun_step w s).oPos = s.1) ∧
      ((LifterRun_step w s).state = state_t.MOVING → (LifterRun_step w s).oPos = w.oPos)) := by
  refine ⟨?_, ?_, ⟨rfl, rfl⟩, ?_, ?_⟩
  · induction samples using List.reverseRecOn with
    | nil => simp [LifterRun_cycles, LifterRun_init, hflag]
    | append_singleton xs x ih =>
      rw [LifterRun_cycles_append]
      exact LifterRun_step_flag _ x ih
  · intro out hout
    simp only [LifterConstructor] at hout
    cases h1 : waitReleased readings with
    | waiting a => simp [h1] at hout
    | done rs =>
      simp only [h1] at hout
      cases h2 : waitPressed rs with
      | waiting a => simp [h2] at hout
      | done a =>
        simp only [h2] at hout
        cases hout
        simp [SlaveCtx.put_LifterArrived, SlaveCtx.put_moveLifterAbs, TaskShare.get,
          TaskShare.put]
  · intro hst
    obtain ⟨cPos, dPos, oPos, error, error_sum, power, at_dPos, state, L, tones, c⟩ := w
    simp only at hst
    subst hst
    by_cases hne : s.1 = oPos
    · simp [LifterRun_step, LifterRun_cycle, TaskShare.get, TaskShare.put, hne]
    · simp [LifterRun_step, LifterRun_cycle, TaskShare.get, TaskShare.put, hne]
  · intro hst
    obtain ⟨cPos, dPos, oPos, error, error_sum, power, at_dPos, state, L, tones, c⟩ := w
    simp only at hst
    subst hst
    simp only [LifterRun_step, LifterRun_cycle]
    split_ifs <;> simp [TaskShare.get, TaskShare.put]

/-- C37 at a lifter that is sent to 500 and reads 495 for seven passes: it is back in
`IDLE` with `LifterArrived` true. -/
theorem C37_lifter_invariant_witness :
    ((LifterRun_cycles
        (LifterRun_init { pwm := 0, commands := [] }
          { sh := { SlaveShares.allClear with LifterArrived := { data := true } },
            writes := [] })
        (List.replicate 7 (500, 495))).ctx.sh.LifterArrived.get = true ↔
      (LifterRun_cycles
        (LifterRun_init { pwm := 0, commands := [] }
          { sh := { SlaveShares.allClear with LifterArrived := { data := true } },
            writes := [] })
        (List.replicate 7 (500, 495))).state = state_t.IDLE) :=
  (C37_lifter_invariant { pwm := 0, commands := [] }
    { sh := { SlaveShares.allClear with LifterArrived := { data := true } }, writes := [] }
    (List.replicate 7 (500, 495))
    (LifterRun_init { pwm := 0, commands := [] }
      { sh := SlaveShares.allClear, writes := [] })
    (0, 0) [] rfl).1

end task_Lifter

namespace task_Navigation

open Master

/-- The correction of `goStraight` lies between `MIN_DELTA` and `MAX_DELTA`. -/
theorem deltaP_bounds (a b : Int) : MIN_DELTA ≤ deltaP a b ∧ deltaP a b ≤ MAX_DELTA := by
  simp only [deltaP, MIN_DELTA, MAX_DELTA]
  split_ifs <;> omega

/-- What `goStraight` leaves alone: the locals of `NavRun` and the shared variables; and
what it adds to the record: the call itself. -/
theorem goStraight_frame (w : NavTask) (power : Int) (reset : Bool)
    (Rcount Lcount Rpow Lpow : Int) :
    (goStraight w power reset Rcount Lcount Rpow Lpow).stage = w.stage ∧
    (goStraight w power reset Rcount Lcount Rpow Lpow).loop_count = w.loop_count ∧
    (goStraight w power reset Rcount Lcount Rpow Lpow).sh = w.sh ∧
    (goStraight w power reset Rcount Lcount Rpow Lpow).firstPass = w.firstPass ∧
    (goStraight w power reset Rcount Lcount Rpow Lpow).error = w.error ∧
    (goStraight w power reset Rcount Lcount Rpow Lpow).log
      = w.log ++ [Event.goStraight power reset] := by
  cases reset <;> simp [goStraight]

/-- C38. `NAV_TURN_AROUND` and `NAV_TO_SCORE` are no-ops: a pass of `NavRun` with
`task_NavState` at either value leaves the whole state as it is (the locals of `NavRun`,
the static of `goStraight`, the shared variables, the two motors with the record of their
commands, and the record of writes and tones), and so does any number of passes. -/
theorem C38_turn_around_noop (IDLE : Nat) (w : NavTask) (i : NavInput)
    (inputs : List NavInput)
    (h : w.sh.task_NavState.get = NAV_TURN_AROUND ∨ w.sh.task_NavState.get = NAV_TO_SCORE) :
    NavRun_cycle IDLE w i = w ∧ NavRun_cycles IDLE w inputs = w := by
  have one : ∀ j, NavRun_cycle IDLE w j = w := by
    intro j
    rcases h with h | h <;>
      simp [NavRun_cycle, h, NAV_IDLE, NAV_TO_SUPPLY, NAV_TO_SCORE, NAV_APPROACH_WALL,
        NAV_BACK_UP, NAV_TURN_AROUND]
  refine ⟨one i, ?_⟩
  induction inputs with
  | nil => rfl
  | cons j js ih =>
    simp only [NavRun_cycles, List.foldl_cons, one j]
    exact ih

/-- C38 at a navigation task told to turn around, on a reading that would mark a
crossing: the pass changes nothing. -/
theorem C38_turn_around_noop_witness :
    NavRun_cycle 0 (startedAt NAV_TURN_AROUND) crossing = startedAt NAV_TURN_AROUND :=
  (C38_turn_around_noop 0 (startedAt NAV_TURN_AROUND) crossing [] (Or.inl rfl)).1

/-- C32 at two runs of `NAV_TO_SUPPLY` in a row; a bright reading (150) marks a crossing, a
dark one (20) does not. In the first run the crossing is followed by 16 passes of open-loop
driving: after 15 of them the stage is still 1, after 16 it is 2. The run ends at the next
crossing with the stage back at 0 and `loop_count` still 16. In the second run, started by
the master mind putting `NAV_TO_SUPPLY` again, the crossing is followed by a single pass of
open-loop driving: after it the stage is 2 already. -/
theorem C32_second_run_lasts_one_pass :
    (NavRun_cycles 0 (startedAt NAV_TO_SUPPLY)
      (crossing :: List.replicate 15 noCrossing)).stage = 1 ∧
    (NavRun_cycles 0 (startedAt NAV_TO_SUPPLY)
      (crossing :: List.replicate 16 noCrossing)).stage = 2 ∧
    (NavRun_cycles 0 (startedAt NAV_TO_SUPPLY)
      (crossing :: List.replicate 16 noCrossing ++ [crossing])).stage = 0 ∧
    (NavRun_cycles 0 (startedAt NAV_TO_SUPPLY)
      (crossing :: List.replicate 16 noCrossing ++ [crossing])).loop_count = 16 ∧
    (NavRun_cycles 0 (startedAt NAV_TO_SUPPLY)
      (crossing :: List.replicate 16 noCrossing ++ [crossing])).sh.task_NavState.get
      = NAV_IDLE ∧
    (NavRun_cycles 0
      (command
        (NavRun_cycles 0 (startedAt NAV_TO_SUPPLY)
          (crossing :: List.replicate 16 noCrossing ++ [crossing]))
        NAV_TO_SUPPLY)
      [crossing]).stage = 1 ∧
    (NavRun_cycles 0
      (command
        (NavRun_cycles 0 (startedAt NAV_TO_SUPPLY)
          (crossing :: List.replicate 16 noCrossing ++ [crossing]))
        NAV_TO_SUPPLY)
      [crossing, noCrossing]).stage = 2 := by
  refine ⟨?_, ?_, ?_, ?_, ?_, ?_, ?_⟩ <;> decide

end task_Navigation

namespace task_Navigation

open Master

/-- The base powers in a record that is extended. -/
theorem basePowers_append (xs ys : List Event) :
    basePowers (xs ++ ys) = basePowers xs ++ basePowers ys := by
  induction xs with
  | nil => rfl
  | cons x xs ih => cases x <;> simp [basePowers, ih]

/-- What the block that ends the two wall cases does: nothing while the error is positive;
otherwise `task_NavState` is put to `NAV_IDLE`, both motors are set to 0 and a tone is
played. -/
theorem stopBlock_spec (w : NavTask) :
    (0 < w.error → stopBlock w = w) ∧
    (w.error ≤ 0 →
      (stopBlock w).sh.task_NavState.get = NAV_IDLE ∧
      (stopBlock w).RightWheel.pwm = 0 ∧ (stopBlock w).LeftWheel.pwm = 0 ∧
      (stopBlock w).log = w.log ++ [Event.put_task_NavState NAV_IDLE,
        Event.playTone 500 50 20]) ∧
    (stopBlock w).error = w.error ∧
    basePowers (stopBlock w).log = basePowers w.log := by
  by_cases h : w.error ≤ 0
  · refine ⟨fun h2 => absurd h (by omega), fun _ => ?_, ?_, ?_⟩ <;>
      simp [stopBlock, h, put_task_NavState, Motor.setPWM, TaskShare.get, TaskShare.put,
        basePowers_append, basePowers]
  · refine ⟨fun _ => ?_, fun h2 => absurd h2 h, ?_, ?_⟩ <;> simp [stopBlock, h]

/-- What the first-pass block of the two wall cases does to the record and the locals the
rest of the pass reads: on a first pass it calls `goStraight(0, true)`. -/
theorem firstPassBlock_spec (w : NavTask) (i : NavInput) :
    (firstPassBlock w i).log
      = w.log ++ (if w.firstPass = true then [Event.goStraight 0 true] else []) ∧
    (firstPassBlock w i).sh = w.sh := by
  cases h : w.firstPass <;> simp [firstPassBlock, h, goStraight_frame]

/-- One pass of `NAV_APPROACH_WALL`: the calls of `goStraight` and the error. -/
theorem approach_pass (w : NavTask) (i : NavInput) :
    basePowers (case_NAV_APPROACH_WALL w i).log
      = basePowers w.log ++ (if w.firstPass = true then [0] else []) ++ [FORWARD_SPEED] ∧
    (case_NAV_APPROACH_WALL w i).error
      = truncS16 ((i.distance : ℚ) - (DIST_FROM_WALL : ℚ) * INCH2CM) := by
  simp only [case_NAV_APPROACH_WALL]
  refine ⟨?_, ?_⟩
  · rw [(stopBlock_spec _).2.2.2]
    cases h : w.firstPass <;>
      simp [goStraight_frame, firstPassBlock_spec, h, basePowers_append, basePowers]
  · rw [(stopBlock_spec _).2.2.1]
    simp [goStraight_frame]

/-- One pass of `NAV_BACK_UP`: the calls of `goStraight` and the error. -/
theorem backup_pass (w : NavTask) (i : NavInput) :
    basePowers (case_NAV_BACK_UP w i).log
      = basePowers w.log ++ (if w.firstPass = true then [0] else []) ++ [BACKUP_SPEED] ∧
    (case_NAV_BACK_UP w i).error
      = truncS16 ((BACK_DIST : ℚ) * INCH2CM - (i.distance : ℚ)) := by
  simp only [case_NAV_BACK_UP]
  refine ⟨?_, ?_⟩
  · rw [(stopBlock_spec _).2.2.2]
    cases h : w.firstPass <;>
      simp [goStraight_frame, firstPassBlock_spec, h, basePowers_append, basePowers]
  · rw [(stopBlock_spec _).2.2.1]
    simp [goStraight_frame]

/-- C33 as stated fails: two passes of `NAV_APPROACH_WALL` that measure 50 cm and 100 cm,
with distance errors 42 and 92, hand the same base power 25 to `goStraight`. -/
theorem C33_counterexample :
    (NavRun_cycle 0 { startedAt NAV_APPROACH_WALL with firstPass := false }
        { crossing with distance := 50 }).error = 42 ∧
    (NavRun_cycle 0 { startedAt NAV_APPROACH_WALL with firstPass := false }
        { crossing with distance := 100 }).error = 92 ∧
    basePowers (NavRun_cycle 0 { startedAt NAV_APPROACH_WALL with firstPass := false }
        { crossing with distance := 50 }).log = [25] ∧
    basePowers (NavRun_cycle 0 { startedAt NAV_APPROACH_WALL with firstPass := false }
        { crossing with distance := 100 }).log = [25] := by
  have hc : ∀ w : NavTask, ∀ i, w.sh.task_NavState.get = NAV_APPROACH_WALL →
      NavRun_cycle 0 w i = case_NAV_APPROACH_WALL w i := by
    intro w i h
    simp [NavRun_cycle, h, NAV_IDLE, NAV_TO_SUPPLY, NAV_TO_SCORE, NAV_APPROACH_WALL]
  have e50 : truncS16 (((50 : Int) : ℚ) - (DIST_FROM_WALL : ℚ) * INCH2CM) = 42 := by
    simp only [truncS16, DIST_FROM_WALL, INCH2CM]
    norm_num
    decide
  have e100 : truncS16 (((100 : Int) : ℚ) - (DIST_FROM_WALL : ℚ) * INCH2CM) = 92 := by
    simp only [truncS16, DIST_FROM_WALL, INCH2CM]
    norm_num
    decide
  have k50 := hc { startedAt NAV_APPROACH_WALL with firstPass := false }
    { crossing with distance := 50 } rfl
  have k100 := hc { startedAt NAV_APPROACH_WALL with firstPass := false }
    { crossing with distance := 100 } rfl
  refine ⟨?_, ?_, ?_, ?_⟩
  · rw [k50, (approach_pass _ _).2]
    exact e50
  · rw [k100, (approach_pass _ _).2]
    exact e100
  · rw [k50, (approach_pass _ _).1]
    rfl
  · rw [k100, (approach_pass _ _).1]
    rfl

/-- C33 as amended. In every pass of `NAV_APPROACH_WALL` the base power handed to
`goStraight` is the constant `FORWARD_SPEED` (25), and in every pass of `NAV_BACK_UP` the
constant `BACKUP_SPEED` (-20), whatever the sonar reads; a first pass calls `goStraight`
with power 0 before that. The distance error, `distance - 3 * 2.54` respectively
`9 * 2.54 - distance` truncated to an integer, only decides when to stop: when it is not
positive the pass puts `task_NavState` to `NAV_IDLE` and sets both motors to 0, and
otherwise `task_NavState` is left as it is. -/
theorem C33_constant_base_power (IDLE : Nat) (w : NavTask) (i : NavInput) :
    (w.sh.task_NavState.get = NAV_APPROACH_WALL →
      basePowers (NavRun_cycle IDLE w i).log
        = basePowers w.log ++ (if w.firstPass = true then [0] else []) ++ [FORWARD_SPEED] ∧
      (NavRun_cycle IDLE w i).error
        = truncS16 ((i.distance : ℚ) - (DIST_FROM_WALL : ℚ) * INCH2CM) ∧
      ((NavRun_cycle IDLE w i).error ≤ 0 →
        (NavRun_cycle IDLE w i).sh.task_NavState.get = NAV_IDLE ∧
        (NavRun_cycle IDLE w i).RightWheel.pwm = 0 ∧
        (NavRun_cycle IDLE w i).LeftWheel.pwm = 0) ∧
      (0 < (NavRun_cycle IDLE w i).error →
        (NavRun_cycle IDLE w i).sh.task_NavState.get = NAV_APPROACH_WALL)) ∧
    (w.sh.task_NavState.get = NAV_BACK_UP →
      basePowers (NavRun_cycle IDLE w i).log
        = basePowers w.log ++ (if w.firstPass = true then [0] else []) ++ [BACKUP_SPEED] ∧
      (NavRun_cycle IDLE w i).error
        = truncS16 ((BACK_DIST : ℚ) * INCH2CM - (i.distance : ℚ)) ∧
      ((NavRun_cycle IDLE w i).error ≤ 0 →
        (NavRun_cycle IDLE w i).sh.task_NavState.get = NAV_IDLE ∧
        (NavRun_cycle IDLE w i).RightWheel.pwm = 0 ∧
        (NavRun_cycle IDLE w i).LeftWheel.pwm = 0) ∧
      (0 < (NavRun_cycle IDLE w i).error →
        (NavRun_cycle IDLE w i).sh.task_NavState.get = NAV_BACK_UP)) := by
  refine ⟨fun h => ?_, fun h => ?_⟩
  · have hc : NavRun_cycle IDLE w i = case_NAV_APPROACH_WALL w i := by
      simp [NavRun_cycle, h, NAV_IDLE, NAV_TO_SUPPLY, NAV_TO_SCORE, NAV_APPROACH_WALL]
    rw [hc]
    refine ⟨(approach_pass w i).1, (approach_pass w i).2, ?_, ?_⟩
    · intro he
      simp only [case_NAV_APPROACH_WALL] at he ⊢
      rw [(stopBlock_spec _).2.2.1] at he
      obtain ⟨a, b, c, _⟩ := (stopBlock_spec _).2.1 he
      exact ⟨a, b, c⟩
    · intro he
      simp only [case_NAV_APPROACH_WALL] at he ⊢
      rw [(stopBlock_spec _).2.2.1] at he
      rw [(stopBlock_spec _).1 he]
      simp only [goStraight_frame, firstPassBlock_spec]
      exact h
  · have hc : NavRun_cycle IDLE w i = case_NAV_BACK_UP w i := by
      simp [NavRun_cycle, h, NAV_IDLE, NAV_TO_SUPPLY, NAV_TO_SCORE, NAV_APPROACH_WALL,
        NAV_BACK_UP]
    rw [hc]
    refine ⟨(backup_pass w i).1, (backup_pass w i).2, ?_, ?_⟩
    · intro he
      simp only [case_NAV_BACK_UP] at he ⊢
      rw [(stopBlock_spec _).2.2.1] at he
      obtain ⟨a, b, c, _⟩ := (stopBlock_spec _).2.1 he
      exact ⟨a, b, c⟩
    · intro he
      simp only [case_NAV_BACK_UP] at he ⊢
      rw [(stopBlock_spec _).2.2.1] at he
      rw [(stopBlock_spec _).1 he]
      simp only [goStraight_frame, firstPassBlock_spec]
      exact h

/-- C33 as amended, at the first pass of `NAV_APPROACH_WALL` and at the first pass of
`NAV_BACK_UP`: the base powers are 0 then 25, respectively 0 then -20. -/
theorem C33_constant_base_power_witness :
    basePowers (NavRun_cycle 0 (startedAt NAV_APPROACH_WALL) crossing).log = [0, 25] ∧
    basePowers (NavRun_cycle 0 (startedAt NAV_BACK_UP) crossing).log = [0, -20] :=
  ⟨((C33_constant_base_power 0 (startedAt NAV_APPROACH_WALL) crossing).1 rfl).1.trans rfl,
   ((C33_constant_base_power 0 (startedAt NAV_BACK_UP) crossing).2 rfl).1.trans rfl⟩

/-- What `goStraight` sends to the two motors, with `d` the clamped correction. -/
theorem goStraight_commands (w : NavTask) (power : Int) (reset : Bool)
    (Rcount Lcount Rpow Lpow : Int) :
    (goStraight w power reset Rcount Lcount Rpow Lpow).RightWheel
      = w.RightWheel.setPWM (wrapS8
          (if power < 0 then
            power + deltaP (wrapS32 (Rcount - Lcount))
              (wrapS32 ((if reset = true then 0 else w.RLerror_sum)
                + wrapS32 (Rcount - Lcount)))
           else if power > 0 then
            power - deltaP (wrapS32 (Rcount - Lcount))
              (wrapS32 ((if reset = true then 0 else w.RLerror_sum)
                + wrapS32 (Rcount - Lcount)))
           else Rpow)) ∧
    (goStraight w power reset Rcount Lcount Rpow Lpow).LeftWheel
      = w.LeftWheel.setPWM (wrapS8
          (if power < 0 then
            power - deltaP (wrapS32 (Rcount - Lcount))
              (wrapS32 ((if reset = true then 0 else w.RLerror_sum)
                + wrapS32 (Rcount - Lcount)))
           else if power > 0 then
            power + deltaP (wrapS32 (Rcount - Lcount))
              (wrapS32 ((if reset = true then 0 else w.RLerror_sum)
                + wrapS32 (Rcount - Lcount)))
           else Lpow)) := by
  cases reset <;> by_cases h1 : power < 0 <;> by_cases h2 : power > 0 <;>
    simp [goStraight, h1, h2]

/-- C39 as stated fails at power 127 with the right wheel 100 counts behind the left: the
correction is -10, the right wheel is sent `(S8) 137 = -119` and the left wheel 117. The
two commands sum to -2, not 254, and -119 is not within 10 of 127. -/
theorem C39_counterexample :
    (goStraight (startedAt NAV_APPROACH_WALL) 127 false 0 100 0 0).RightWheel.commands
      = [-119] ∧
    (goStraight (startedAt NAV_APPROACH_WALL) 127 false 0 100 0 0).LeftWheel.commands
      = [117] := by
  have hd : deltaP (wrapS32 (0 - 100)) (wrapS32 (0 + wrapS32 (0 - 100))) = -10 := by
    have h1 : wrapS32 (0 - 100) = -100 := by decide
    have h2 : wrapS32 (0 + -100) = -100 := by decide
    have t1 : Int.tdiv (wrapS32 (1 * -100)) 1024 = 0 := by decide
    have q : (0.1 : ℚ) * ((-100 : Int) : ℚ) + ((0 : Int) : ℚ) = -10 := by norm_num
    have t2 : truncS32 (-10) = -10 := by
      simp only [truncS32]
      norm_num
      decide
    rw [h1, h2]
    simp only [deltaP, Kp_STRAIGHT, Ki_STRAIGHT, t1, q, t2, MAX_DELTA, MIN_DELTA]
    decide
  obtain ⟨a, b⟩ := goStraight_commands (startedAt NAV_APPROACH_WALL) 127 false 0 100 0 0
  rw [a, b]
  have hs : (startedAt NAV_APPROACH_WALL).RLerror_sum = 0 := rfl
  simp only [hs, Bool.false_eq_true, if_false, hd]
  constructor <;> decide

/-- C39 as amended. For a nonzero `power` between -118 and 117, `goStraight` sends
`power - d` to the right wheel and `power + d` to the left wheel when `power > 0`, and the
other way round when `power < 0`, with the correction `d` between `MIN_DELTA` (-10) and
`MAX_DELTA` (10): the two commands sum to `2 * power` and each is within 10 of `power`.
For `power = 0` the locals `Rpow` and `Lpow` are not assigned, and what their storage holds
is sent to the motors (converted to `S8`); the first pass of `NAV_APPROACH_WALL` and
`NAV_BACK_UP` calls `goStraight(0, true)`. -/
theorem C39_straight_corrector (w : NavTask) (power : Int) (reset : Bool) (i : NavInput)
    (Rcount Lcount Rpow Lpow : Int)
    (hp : power ≠ 0) (hlo : -118 ≤ power) (hhi : power ≤ 117) :
    (∃ d, MIN_DELTA ≤ d ∧ d ≤ MAX_DELTA ∧
      (goStraight w power reset Rcount Lcount Rpow Lpow).RightWheel.commands
        = w.RightWheel.commands ++ [if 0 < power then power - d else power + d] ∧
      (goStraight w power reset Rcount Lcount Rpow Lpow).LeftWheel.commands
        = w.LeftWheel.commands ++ [if 0 < power then power + d else power - d] ∧
      (goStraight w power reset Rcount Lcount Rpow Lpow).RightWheel.pwm
        + (goStraight w power reset Rcount Lcount Rpow Lpow).LeftWheel.pwm = 2 * power ∧
      |(goStraight w power reset Rcount Lcount Rpow Lpow).RightWheel.pwm - power| ≤ 10 ∧
      |(goStraight w power reset Rcount Lcount Rpow Lpow).LeftWheel.pwm - power| ≤ 10) ∧
    ((goStraight w 0 reset Rcount Lcount Rpow Lpow).RightWheel.commands
        = w.RightWheel.commands ++ [wrapS8 Rpow] ∧
      (goStraight w 0 reset Rcount Lcount Rpow Lpow).LeftWheel.commands
        = w.LeftWheel.commands ++ [wrapS8 Lpow]) ∧
    (w.firstPass = true →
      (firstPassBlock w i).log = w.log ++ [Event.goStraight 0 true]) := by
  refine ⟨?_, ?_, ?_⟩
  · obtain ⟨a, b⟩ := goStraight_commands w power reset Rcount Lcount Rpow Lpow
    obtain ⟨d1, d2⟩ := deltaP_bounds (wrapS32 (Rcount - Lcount))
      (wrapS32 ((if reset = true then 0 else w.RLerror_sum) + wrapS32 (Rcount - Lcount)))
    refine ⟨_, d1, d2, ?_⟩
    rw [a, b]
    generalize deltaP (wrapS32 (Rcount - Lcount))
      (wrapS32 ((if reset = true then 0 else w.RLerror_sum) + wrapS32 (Rcount - Lcount)))
      = d at d1 d2
    simp only [MIN_DELTA, MAX_DELTA] at d1 d2
    by_cases hpos : 0 < power
    · have hneg : ¬ power < 0 := by omega
      have w1 : wrapS8 (power - d) = power - d := by simp only [wrapS8]; omega
      have w2 : wrapS8 (power + d) = power + d := by simp only [wrapS8]; omega
      simp only [hneg, hpos, gt_iff_lt, if_true, if_false, w1, w2, Motor.setPWM]
      refine ⟨trivial, trivial, by omega, ?_, ?_⟩ <;> rw [abs_le] <;> constructor <;> omega
    · have hneg : power < 0 := by omega
      have w1 : wrapS8 (power - d) = power - d := by simp only [wrapS8]; omega
      have w2 : wrapS8 (power + d) = power + d := by simp only [wrapS8]; omega
      simp only [hneg, hpos, if_true, if_false, w1, w2, Motor.setPWM]
      refine ⟨trivial, trivial, by omega, ?_, ?_⟩ <;> rw [abs_le] <;> constructor <;> omega
  · obtain ⟨a, b⟩ := goStraight_commands w 0 reset Rcount Lcount Rpow Lpow
    rw [a, b]
    simp [Motor.setPWM]
  · intro h
    rw [(firstPassBlock_spec w i).1, h]
    simp

/-- C39 as amended, at power 50 with the right wheel 40 counts ahead: the right wheel is
sent a power within 10 of 50 and the two commands sum to 100. -/
theorem C39_straight_corrector_witness :
    ∃ d, MIN_DELTA ≤ d ∧ d ≤ MAX_DELTA ∧
      (goStraight (startedAt NAV_TO_SUPPLY) 50 false 40 0 0 0).RightWheel.commands
        = (startedAt NAV_TO_SUPPLY).RightWheel.commands
          ++ [if (0 : Int) < 50 then 50 - d else 50 + d] ∧
      (goStraight (startedAt NAV_TO_SUPPLY) 50 false 40 0 0 0).LeftWheel.commands
        = (startedAt NAV_TO_SUPPLY).LeftWheel.commands
          ++ [if (0 : Int) < 50 then 50 + d else 50 - d] ∧
      (goStraight (startedAt NAV_TO_SUPPLY) 50 false 40 0 0 0).RightWheel.pwm
        + (goStraight (startedAt NAV_TO_SUPPLY) 50 false 40 0 0 0).LeftWheel.pwm = 2 * 50 ∧
      |(goStraight (startedAt NAV_TO_SUPPLY) 50 false 40 0 0 0).RightWheel.pwm - 50| ≤ 10 ∧
      |(goStraight (startedAt NAV_TO_SUPPLY) 50 false 40 0 0 0).LeftWheel.pwm - 50| ≤ 10 :=
  (C39_straight_corrector (startedAt NAV_TO_SUPPLY) 50 false crossing 40 0 0 0
    (by decide) (by decide) (by decide)).1

end task_Navigation

namespace RobotClass

/-- The two constants as stored: the conversion to `U8` truncates 0.75 to 0 and 4.4 to
4. -/
theorem wheel_constants : WHEEL_RAD = 0 ∧ WHEEL_BASE = 4 := by
  constructor
  · simp only [WHEEL_RAD, truncU8, toU8]
    norm_num
    decide
  · simp only [WHEEL_BASE, truncU8, toU8]
    norm_num
    decide

/-- An `Update` after a nonzero elapsed time has a result, in which the three rates are 0
and the three coordinates come from the rates of the previous data alone. -/
theorem Update_rates (r : RobotClass) (tick : Nat) (Rcount Lcount : Int) (cos sin : Int → ℚ)
    (hdt : toU32 ((tick : Int) - r.OldTime) ≠ 0) :
    (Update r tick Rcount Lcount cos sin).isSome = true ∧
    ∀ out, Update r tick Rcount Lcount cos sin = some out →
      out.BotData.xdot = 0 ∧ out.BotData.ydot = 0 ∧ out.BotData.thetadot = 0 ∧
      out.BotData.x = wrapS32 (toU32 r.BotDataOld.xdot) ∧
      out.BotData.y = wrapS32 (toU32 r.BotDataOld.ydot) ∧
      out.BotData.theta = wrapS32 (toU32 r.BotDataOld.thetadot) ∧
      out.BotDataOld = out.BotData := by
  obtain ⟨h1, h2⟩ := wheel_constants
  have z1 : truncS32 0 = 0 := by
    simp only [truncS32]
    norm_num
    decide
  have z2 : wrapS32 0 = 0 := by decide
  have z3 : toU32 0 = 0 := by decide
  refine ⟨?_, ?_⟩
  · simp only [Update, hdt, if_false, Option.isSome]
  · intro out hout
    simp only [Update, hdt, if_false, Option.some.injEq] at hout
    subst hout
    simp [h1, h2, z1, z2, z3]

end RobotClass

namespace RobotClass

/-- C40. Dead reckoning degenerates to zero. `WHEEL_RAD` and `WHEEL_BASE` are stored as 0
and 4. On a freshly constructed object, and on an object that was reset, an `Update` after
a nonzero elapsed time has a result, whatever the two encoder counts and whatever `cos` and
`sin` return, and in it `xdot`, `ydot`, `thetadot`, `x`, `y` and `theta` are all 0. An
`Update` with zero elapsed time divides by zero and has no result. -/
theorem C40_dead_reckoning_zero (uninit r : RobotClass) (tick0 tick : Nat)
    (Rcount Lcount : Int) (cos sin : Int → ℚ)
    (hdt : toU32 ((tick : Int) - tick0) ≠ 0) :
    (WHEEL_RAD = 0 ∧ WHEEL_BASE = 4) ∧
    ((Update (new uninit tick0) tick Rcount Lcount cos sin).isSome = true ∧
      ∀ out, Update (new uninit tick0) tick Rcount Lcount cos sin = some out →
        out.BotData.xdot = 0 ∧ out.BotData.ydot = 0 ∧ out.BotData.thetadot = 0 ∧
        out.BotData.x = 0 ∧ out.BotData.y = 0 ∧ out.BotData.theta = 0) ∧
    ((Update (Reset r tick0) tick Rcount Lcount cos sin).isSome = true ∧
      ∀ out, Update (Reset r tick0) tick Rcount Lcount cos sin = some out →
        out.BotData.xdot = 0 ∧ out.BotData.ydot = 0 ∧ out.BotData.thetadot = 0 ∧
        out.BotData.x = 0 ∧ out.BotData.y = 0 ∧ out.BotData.theta = 0) ∧
    (Update (new uninit tick0) tick0 Rcount Lcount cos sin = none ∧
      Update (Reset r tick0) tick0 Rcount Lcount cos sin = none ∧
      (toU32 ((tick : Int) - r.OldTime) = 0 → Update r tick Rcount Lcount cos sin = none)) := by
  have z : wrapS32 (toU32 0) = 0 := by decide
  have z3 : toU32 0 = 0 := by decide
  refine ⟨wheel_constants, ?_, ?_, ?_, ?_, ?_⟩
  · obtain ⟨a, b⟩ := Update_rates (new uninit tick0) tick Rcount Lcount cos sin hdt
    refine ⟨a, fun out hout => ?_⟩
    obtain ⟨b1, b2, b3, b4, b5, b6, _⟩ := b out hout
    exact ⟨b1, b2, b3, b4.trans z, b5.trans z, b6.trans z⟩
  · obtain ⟨a, b⟩ := Update_rates (Reset r tick0) tick Rcount Lcount cos sin hdt
    refine ⟨a, fun out hout => ?_⟩
    obtain ⟨b1, b2, b3, b4, b5, b6, _⟩ := b out hout
    exact ⟨b1, b2, b3, b4.trans z, b5.trans z, b6.trans z⟩
  · simp [Update, new, z3]
  · simp [Update, Reset, z3]
  · intro h
    simp [Update, h]

/-- C40 at an object constructed at tick 100 and updated at tick 120 with the right wheel
at 360 and the left wheel at -720: the update has a result. -/
theorem C40_dead_reckoning_zero_witness :
    (Update (new zeroed 100) 120 360 (-720) (fun _ => 1) (fun _ => 0)).isSome = true :=
  (C40_dead_reckoning_zero zeroed zeroed 100 120 360 (-720) (fun _ => 1) (fun _ => 0)
    (by decide)).2.1.1

end RobotClass

namespace task_SlaveMind

/-- C31 at a sequencer in `IDLE` that finds `idGrabRings` delivered: it moves to `GRAB`
and clears the flag and the id. -/
theorem C31_command_dispatch_witness :
    (SlaveMindRun_cycle
      (SlaveMindRun_init
        { sh := { SlaveShares.allClear with ShareMsgID := { data := MessageClass.idGrabRings },
                                            MsgReady2Get := { data := true } },
          writes := [] })).ctx.sh.MsgReady2Get.get = false ∧
    (SlaveMindRun_cycle
      (SlaveMindRun_init
        { sh := { SlaveShares.allClear with ShareMsgID := { data := MessageClass.idGrabRings },
                                            MsgReady2Get := { data := true } },
          writes := [] })).ctx.sh.ShareMsgID.get = MessageClass.idNoMsg :=
  have h := (C31_command_dispatch
    (SlaveMindRun_init
      { sh := { SlaveShares.allClear with ShareMsgID := { data := MessageClass.idGrabRings },
                                          MsgReady2Get := { data := true } },
        writes := [] }) false).1 rfl rfl
  ⟨h.2.1, h.2.2.1⟩

end task_SlaveMind

end RoboRodentia
